import Mathlib

/-!
Verification of the AVXECC X25519 core.

The source is a 4-way vectorised (AVX2) implementation of X25519: field
arithmetic in radix 2^29 modulo the auxiliary prime pstar = 64 * (2^255 - 19),
a Montgomery ladder for variable-base scalar multiplication, and an ECDH
facade.  The embedding below is per SIMD lane: every `__m256i` vector holds
four independent 64-bit lanes and every operation used by the code acts on
each lane separately, so one lane is modelled by one `Nat` together with the
exact wrap-around semantics of the 64-bit intrinsics.  A separate 4-lane
model is introduced further down for the batching claims.
-/

namespace AVXECC

/-- modulus of one 64-bit lane, 2 ^ 64 -/
def W : Nat := 18446744073709551616

/-- semantics of the VADD intrinsic on one 64-bit lane -/
def wadd (x y : Nat) : Nat := (x + y) % W

/-- semantics of the VSUB intrinsic on one 64-bit lane, two-complement wrap -/
def wsub (x y : Nat) : Nat := (x + (W - y % W)) % W

/-- semantics of the VMUL intrinsic: multiply the low 32 bits of each lane,
zero-extended; the product of two values below 2 ^ 32 always fits in 64 bits -/
def wmul (x y : Nat) : Nat := (x % 4294967296) * (y % 4294967296)

/-- semantics of the VMAC macro, VADD composed with VMUL -/
def wmac (z x y : Nat) : Nat := wadd z (wmul x y)

/-- semantics of the VAND intrinsic on one lane -/
def wand (x y : Nat) : Nat := x &&& y

/-- semantics of the VOR intrinsic on one lane -/
def wor (x y : Nat) : Nat := x ||| y

/-- semantics of the VXOR intrinsic on one lane -/
def wxor (x y : Nat) : Nat := x ^^^ y

/-- semantics of the VSHR intrinsic, logical shift right of each 64-bit lane -/
def wshr (x n : Nat) : Nat := x >>> n

/-- semantics of the VSHL intrinsic, shift left of each 64-bit lane -/
def wshl (x n : Nat) : Nat := (x <<< n) % W

/-- number of limbs of a field element, NWORDS in gfparith.h -/
def NWORDS : Nat := 9

/-- BITS29 from gfparith.h -/
def BITS29 : Nat := 29

/-- MASK29 from gfparith.h, 0x1FFFFFFF = 2 ^ 29 - 1 -/
def MASK29 : Nat := 536870911

/-- CONSTC from gfparith.h, the wrap-around constant 1216 with
pstar = 2 ^ 261 - 1216 -/
def CONSTC : Nat := 1216

/-- CONSTA from gfparith.h, the curve coefficient A = 486662 -/
def CONSTA : Nat := 486662

/-- LSWP29 from gfparith.h, 0x1FFFFB40, the least significant 29-bit word of
pstar = 64 * (2^255 - 19) -/
def LSWP29 : Nat := 536869696

/-- the prime p = 2 ^ 255 - 19 -/
def P25519 : Nat := 57896044618658097711785492504343953926634992332820282019728792003956564819949

/-- the auxiliary modulus pstar = 64 * p = 2 ^ 261 - 1216 -/
def PSTAR : Nat := 3705346855594118253554271520278013051304639509300498049262642688253220148476736

/-- one field element: nine limbs, one `Nat` per limb holding one 64-bit lane -/
structure Fe where
  l0 : Nat
  l1 : Nat
  l2 : Nat
  l3 : Nat
  l4 : Nat
  l5 : Nat
  l6 : Nat
  l7 : Nat
  l8 : Nat
deriving DecidableEq, Repr

/-- integer value of a field element in radix 2 ^ 29 -/
def Fe.val (x : Fe) : Nat :=
  x.l0 + 536870912 * x.l1 + 288230376151711744 * x.l2 +
    154742504910672534362390528 * x.l3 +
    83076749736557242056487941267521536 * x.l4 +
    44601490397061246283071436545296723011960832 * x.l5 +
    23945242826029513411849172299223580994042798784118784 * x.l6 +
    12855504354071922204335696738729300820177623950262342682411008 * x.l7 +
    6901746346790563787434755862277025452451108972170386555162524223799296 * x.l8

/-- limb bounds: limb 0 at most `b0`, limbs 1 to 8 at most `b` -/
def Fe.Bnd (x : Fe) (b0 b : Nat) : Prop :=
  x.l0 ≤ b0 ∧ x.l1 ≤ b ∧ x.l2 ≤ b ∧ x.l3 ≤ b ∧ x.l4 ≤ b ∧
    x.l5 ≤ b ∧ x.l6 ≤ b ∧ x.l7 ≤ b ∧ x.l8 ≤ b

instance (x : Fe) (b0 b : Nat) : Decidable (x.Bnd b0 b) := by
  unfold Fe.Bnd; infer_instance

/-- all nine limbs at most 2 ^ 29 - 1: the reduced representation -/
def Fe.Reduced (x : Fe) : Prop := x.Bnd MASK29 MASK29

instance (x : Fe) : Decidable x.Reduced := by
  unfold Fe.Reduced; infer_instance

/-! ## Basic facts about the lane primitives -/

theorem wadd_eq {x y : Nat} (h : x + y < W) : wadd x y = x + y := by
  unfold wadd; exact Nat.mod_eq_of_lt h

theorem wmul_eq {x y : Nat} (hx : x < 4294967296) (hy : y < 4294967296) :
    wmul x y = x * y := by
  unfold wmul; rw [Nat.mod_eq_of_lt hx, Nat.mod_eq_of_lt hy]

theorem wmac_eq {z x y : Nat} (hx : x < 4294967296) (hy : y < 4294967296)
    (h : z + x * y < W) : wmac z x y = z + x * y := by
  unfold wmac; rw [wmul_eq hx hy]; exact wadd_eq h

theorem wand_mask29 (x : Nat) : wand x MASK29 = x % 536870912 := by
  have : MASK29 = 2 ^ 29 - 1 := rfl
  unfold wand; rw [this, Nat.and_pow_two_sub_one_eq_mod]

theorem wand_lt_mask29 (x : Nat) : wand x MASK29 ≤ MASK29 := by
  rw [wand_mask29]; unfold MASK29; omega

theorem wshr_div (x n : Nat) : wshr x n = x / 2 ^ n := by
  unfold wshr; exact Nat.shiftRight_eq_div_pow x n

theorem wshr29_div (x : Nat) : wshr x BITS29 = x / 536870912 := by
  rw [wshr_div]; norm_num [BITS29]

theorem wshl_eq {x : Nat} (n : Nat) (h : x * 2 ^ n < W) : wshl x n = x * 2 ^ n := by
  unfold wshl; rw [Nat.shiftLeft_eq, Nat.mod_eq_of_lt h]

/-- the pattern used by the field subtraction: a constant plus a possibly
wrapped lane difference; no wrap survives when the constant absorbs it -/
theorem wadd_wsub_eq {c x y : Nat} (hx : x < W) (hy : y < W) (hc : y ≤ c + x)
    (h2 : c + x < W) : wadd c (wsub x y) = c + x - y := by
  unfold wadd wsub W at *
  omega

theorem wadd_le {x y bx by' : Nat} (hx : x ≤ bx) (hy : y ≤ by')
    (h : bx + by' < W) : wadd x y ≤ bx + by' := by
  rw [wadd_eq (by omega)]; omega

/-! ## Field operations, one definition per function of gfparith.c -/

/-- mpi29_cswap_avx2 from gfparith.c: conditional swap of two field elements
driven by the mask 0 - b; returns the new pair (r, a) -/
def mpi29_cswap_avx2 (r a : Fe) (b : Nat) : Fe × Fe :=
  let mask := wsub 0 b
  let x0 := wand (wxor r.l0 a.l0) mask
  let x1 := wand (wxor r.l1 a.l1) mask
  let x2 := wand (wxor r.l2 a.l2) mask
  let x3 := wand (wxor r.l3 a.l3) mask
  let x4 := wand (wxor r.l4 a.l4) mask
  let x5 := wand (wxor r.l5 a.l5) mask
  let x6 := wand (wxor r.l6 a.l6) mask
  let x7 := wand (wxor r.l7 a.l7) mask
  let x8 := wand (wxor r.l8 a.l8) mask
  (⟨wxor r.l0 x0, wxor r.l1 x1, wxor r.l2 x2, wxor r.l3 x3, wxor r.l4 x4,
     wxor r.l5 x5, wxor r.l6 x6, wxor r.l7 x7, wxor r.l8 x8⟩,
   ⟨wxor a.l0 x0, wxor a.l1 x1, wxor a.l2 x2, wxor a.l3 x3, wxor a.l4 x4,
     wxor a.l5 x5, wxor a.l6 x6, wxor a.l7 x7, wxor a.l8 x8⟩)

/-- mpi29_gfp_add_avx2 from gfparith.c: plain limb-wise addition, no reduction -/
def mpi29_gfp_add_avx2 (a b : Fe) : Fe :=
  ⟨wadd a.l0 b.l0, wadd a.l1 b.l1, wadd a.l2 b.l2, wadd a.l3 b.l3,
   wadd a.l4 b.l4, wadd a.l5 b.l5, wadd a.l6 b.l6, wadd a.l7 b.l7,
   wadd a.l8 b.l8⟩

/-- mpi29_gfp_sub_avx2 from gfparith.c: r = 2 * pstar + a - b limb-wise, with
2 * LSWP29 added to limb 0 and 2 * MASK29 to limbs 1 to 8; no carry
propagation and no reduction -/
def mpi29_gfp_sub_avx2 (a b : Fe) : Fe :=
  ⟨wadd (2 * LSWP29) (wsub a.l0 b.l0),
   wadd (2 * MASK29) (wsub a.l1 b.l1),
   wadd (2 * MASK29) (wsub a.l2 b.l2),
   wadd (2 * MASK29) (wsub a.l3 b.l3),
   wadd (2 * MASK29) (wsub a.l4 b.l4),
   wadd (2 * MASK29) (wsub a.l5 b.l5),
   wadd (2 * MASK29) (wsub a.l6 b.l6),
   wadd (2 * MASK29) (wsub a.l7 b.l7),
   wadd (2 * MASK29) (wsub a.l8 b.l8)⟩

/-- mpi29_gfp_sbc_avx2 from gfparith.c: the subtraction loop of
mpi29_gfp_sub_avx2 followed by one forward carry sweep and the final fold of
the top carry times CONSTC into limb 0 -/
def mpi29_gfp_sbc_avx2 (a b : Fe) : Fe :=
  let r0 := wadd (2 * LSWP29) (wsub a.l0 b.l0)
  let r1 := wadd (2 * MASK29) (wsub a.l1 b.l1)
  let r2 := wadd (2 * MASK29) (wsub a.l2 b.l2)
  let r3 := wadd (2 * MASK29) (wsub a.l3 b.l3)
  let r4 := wadd (2 * MASK29) (wsub a.l4 b.l4)
  let r5 := wadd (2 * MASK29) (wsub a.l5 b.l5)
  let r6 := wadd (2 * MASK29) (wsub a.l6 b.l6)
  let r7 := wadd (2 * MASK29) (wsub a.l7 b.l7)
  let r8 := wadd (2 * MASK29) (wsub a.l8 b.l8)
  let r1 := wadd r1 (wshr r0 BITS29)
  let r0 := wand r0 MASK29
  let r2 := wadd r2 (wshr r1 BITS29)
  let r1 := wand r1 MASK29
  let r3 := wadd r3 (wshr r2 BITS29)
  let r2 := wand r2 MASK29
  let r4 := wadd r4 (wshr r3 BITS29)
  let r3 := wand r3 MASK29
  let r5 := wadd r5 (wshr r4 BITS29)
  let r4 := wand r4 MASK29
  let r6 := wadd r6 (wshr r5 BITS29)
  let r5 := wand r5 MASK29
  let r7 := wadd r7 (wshr r6 BITS29)
  let r6 := wand r6 MASK29
  let r8 := wadd r8 (wshr r7 BITS29)
  let r7 := wand r7 MASK29
  let temp := wshr r8 BITS29
  let temp := wmul temp CONSTC
  let r0 := wadd r0 temp
  let r8 := wand r8 MASK29
  ⟨r0, r1, r2, r3, r4, r5, r6, r7, r8⟩

/-- mpi29_gfp_mul_avx2 from gfparith.c: product-scanning multiplication
modulo pstar, one let per C statement -/
def mpi29_gfp_mul_avx2 (a b : Fe) : Fe :=
  let t0 := wmul a.l0 b.l0
  let t1 := wmul a.l0 b.l1
  let t1 := wmac t1 a.l1 b.l0
  let t2 := wmul a.l0 b.l2
  let t2 := wmac t2 a.l1 b.l1
  let t2 := wmac t2 a.l2 b.l0
  let t3 := wmul a.l0 b.l3
  let t3 := wmac t3 a.l1 b.l2
  let t3 := wmac t3 a.l2 b.l1
  let t3 := wmac t3 a.l3 b.l0
  let t4 := wmul a.l0 b.l4
  let t4 := wmac t4 a.l1 b.l3
  let t4 := wmac t4 a.l2 b.l2
  let t4 := wmac t4 a.l3 b.l1
  let t4 := wmac t4 a.l4 b.l0
  let t5 := wmul a.l0 b.l5
  let t5 := wmac t5 a.l1 b.l4
  let t5 := wmac t5 a.l2 b.l3
  let t5 := wmac t5 a.l3 b.l2
  let t5 := wmac t5 a.l4 b.l1
  let t5 := wmac t5 a.l5 b.l0
  let t6 := wmul a.l0 b.l6
  let t6 := wmac t6 a.l1 b.l5
  let t6 := wmac t6 a.l2 b.l4
  let t6 := wmac t6 a.l3 b.l3
  let t6 := wmac t6 a.l4 b.l2
  let t6 := wmac t6 a.l5 b.l1
  let t6 := wmac t6 a.l6 b.l0
  let t7 := wmul a.l0 b.l7
  let t7 := wmac t7 a.l1 b.l6
  let t7 := wmac t7 a.l2 b.l5
  let t7 := wmac t7 a.l3 b.l4
  let t7 := wmac t7 a.l4 b.l3
  let t7 := wmac t7 a.l5 b.l2
  let t7 := wmac t7 a.l6 b.l1
  let t7 := wmac t7 a.l7 b.l0
  let t8 := wmul a.l0 b.l8
  let t8 := wmac t8 a.l1 b.l7
  let t8 := wmac t8 a.l2 b.l6
  let t8 := wmac t8 a.l3 b.l5
  let t8 := wmac t8 a.l4 b.l4
  let t8 := wmac t8 a.l5 b.l3
  let t8 := wmac t8 a.l6 b.l2
  let t8 := wmac t8 a.l7 b.l1
  let t8 := wmac t8 a.l8 b.l0
  let accu := wshr t8 BITS29
  let t8 := wand t8 MASK29
  let accu := wmac accu a.l1 b.l8
  let accu := wmac accu a.l2 b.l7
  let accu := wmac accu a.l3 b.l6
  let accu := wmac accu a.l4 b.l5
  let accu := wmac accu a.l5 b.l4
  let accu := wmac accu a.l6 b.l3
  let accu := wmac accu a.l7 b.l2
  let accu := wmac accu a.l8 b.l1
  let r0 := wand accu MASK29
  let accu := wshr accu BITS29
  let accu := wmac accu a.l2 b.l8
  let accu := wmac accu a.l3 b.l7
  let accu := wmac accu a.l4 b.l6
  let accu := wmac accu a.l5 b.l5
  let accu := wmac accu a.l6 b.l4
  let accu := wmac accu a.l7 b.l3
  let accu := wmac accu a.l8 b.l2
  let r1 := wand accu MASK29
  let accu := wshr accu BITS29
  let accu := wmac accu a.l3 b.l8
  let accu := wmac accu a.l4 b.l7
  let accu := wmac accu a.l5 b.l6
  let accu := wmac accu a.l6 b.l5
  let accu := wmac accu a.l7 b.l4
  let accu := wmac accu a.l8 b.l3
  let r2 := wand accu MASK29
  let accu := wshr accu BITS29
  let accu := wmac accu a.l4 b.l8
  let accu := wmac accu a.l5 b.l7
  let accu := wmac accu a.l6 b.l6
  let accu := wmac accu a.l7 b.l5
  let accu := wmac accu a.l8 b.l4
  let r3 := wand accu MASK29
  let accu := wshr accu BITS29
  let accu := wmac accu a.l5 b.l8
  let accu := wmac accu a.l6 b.l7
  let accu := wmac accu a.l7 b.l6
  let accu := wmac accu a.l8 b.l5
  let r4 := wand accu MASK29
  let accu := wshr accu BITS29
  let accu := wmac accu a.l6 b.l8
  let accu := wmac accu a.l7 b.l7
  let accu := wmac accu a.l8 b.l6
  let r5 := wand accu MASK29
  let accu := wshr accu BITS29
  let accu := wmac accu a.l7 b.l8
  let accu := wmac accu a.l8 b.l7
  let r6 := wand accu MASK29
  let accu := wshr accu BITS29
  let accu := wmac accu a.l8 b.l8
  let r7 := wand accu MASK29
  let accu := wshr accu BITS29
  let r8 := accu
  let accu := wmac t0 r0 CONSTC
  let r0 := wand accu MASK29
  let accu := wadd t1 (wshr accu BITS29)
  let accu := wmac accu r1 CONSTC
  let r1 := wand accu MASK29
  let accu := wadd t2 (wshr accu BITS29)
  let accu := wmac accu r2 CONSTC
  let r2 := wand accu MASK29
  let accu := wadd t3 (wshr accu BITS29)
  let accu := wmac accu r3 CONSTC
  let r3 := wand accu MASK29
  let accu := wadd t4 (wshr accu BITS29)
  let accu := wmac accu r4 CONSTC
  let r4 := wand accu MASK29
  let accu := wadd t5 (wshr accu BITS29)
  let accu := wmac accu r5 CONSTC
  let r5 := wand accu MASK29
  let accu := wadd t6 (wshr accu BITS29)
  let accu := wmac accu r6 CONSTC
  let r6 := wand accu MASK29
  let accu := wadd t7 (wshr accu BITS29)
  let accu := wmac accu r7 CONSTC
  let r7 := wand accu MASK29
  let accu := wadd t8 (wshr accu BITS29)
  let accu := wmac accu r8 CONSTC
  let r8 := wand accu MASK29
  let accu := wshr accu BITS29
  let r0 := wmac r0 accu CONSTC
  ⟨r0, r1, r2, r3, r4, r5, r6, r7, r8⟩

/-- mpi29_gfp_sqr_avx2 from gfparith.c: product-scanning squaring with
doubled cross products, one let per C statement -/
def mpi29_gfp_sqr_avx2 (a : Fe) : Fe :=
  let t0 := wmul a.l0 a.l0
  let accu := wmul a.l0 a.l1
  let t1 := wshl accu 1
  let accu := wmul a.l0 a.l2
  let t2 := wshl accu 1
  let t2 := wmac t2 a.l1 a.l1
  let accu := wmul a.l0 a.l3
  let accu := wmac accu a.l1 a.l2
  let t3 := wshl accu 1
  let accu := wmul a.l0 a.l4
  let accu := wmac accu a.l1 a.l3
  let t4 := wshl accu 1
  let t4 := wmac t4 a.l2 a.l2
  let accu := wmul a.l0 a.l5
  let accu := wmac accu a.l1 a.l4
  let accu := wmac accu a.l2 a.l3
  let t5 := wshl accu 1
  let accu := wmul a.l0 a.l6
  let accu := wmac accu a.l1 a.l5
  let accu := wmac accu a.l2 a.l4
  let t6 := wshl accu 1
  let t6 := wmac t6 a.l3 a.l3
  let accu := wmul a.l0 a.l7
  let accu := wmac accu a.l1 a.l6
  let accu := wmac accu a.l2 a.l5
  let accu := wmac accu a.l3 a.l4
  let t7 := wshl accu 1
  let accu := wmul a.l0 a.l8
  let accu := wmac accu a.l1 a.l7
  let accu := wmac accu a.l2 a.l6
  let accu := wmac accu a.l3 a.l5
  let t8 := wshl accu 1
  let t8 := wmac t8 a.l4 a.l4
  let temp := wshr t8 BITS29
  let t8 := wand t8 MASK29
  let accu := wmul a.l1 a.l8
  let accu := wmac accu a.l2 a.l7
  let accu := wmac accu a.l3 a.l6
  let accu := wmac accu a.l4 a.l5
  let temp := wadd temp (wshl accu 1)
  let r0 := wand temp MASK29
  let temp := wshr temp BITS29
  let accu := wmul a.l2 a.l8
  let accu := wmac accu a.l3 a.l7
  let accu := wmac accu a.l4 a.l6
  let temp := wadd temp (wshl accu 1)
  let temp := wmac temp a.l5 a.l5
  let r1 := wand temp MASK29
  let temp := wshr temp BITS29
  let accu := wmul a.l3 a.l8
  let accu := wmac accu a.l4 a.l7
  let accu := wmac accu a.l5 a.l6
  let temp := wadd temp (wshl accu 1)
  let r2 := wand temp MASK29
  let temp := wshr temp BITS29
  let accu := wmul a.l4 a.l8
  let accu := wmac accu a.l5 a.l7
  let temp := wadd temp (wshl accu 1)
  let temp := wmac temp a.l6 a.l6
  let r3 := wand temp MASK29
  let temp := wshr temp BITS29
  let accu := wmul a.l5 a.l8
  let accu := wmac accu a.l6 a.l7
  let temp := wadd temp (wshl accu 1)
  let r4 := wand temp MASK29
  let temp := wshr temp BITS29
  let accu := wmul a.l6 a.l8
  let temp := wadd temp (wshl accu 1)
  let temp := wmac temp a.l7 a.l7
  let r5 := wand temp MASK29
  let temp := wshr temp BITS29
  let accu := wmul a.l7 a.l8
  let temp := wadd temp (wshl accu 1)
  let r6 := wand temp MASK29
  let temp := wshr temp BITS29
  let temp := wmac temp a.l8 a.l8
  let r7 := wand temp MASK29
  let temp := wshr temp BITS29
  let r8 := temp
  let accu := wadd t0 (wmul r0 CONSTC)
  let r0 := wand accu MASK29
  let accu := wadd t1 (wshr accu BITS29)
  let accu := wmac accu r1 CONSTC
  let r1 := wand accu MASK29
  let accu := wadd t2 (wshr accu BITS29)
  let accu := wmac accu r2 CONSTC
  let r2 := wand accu MASK29
  let accu := wadd t3 (wshr accu BITS29)
  let accu := wmac accu r3 CONSTC
  let r3 := wand accu MASK29
  let accu := wadd t4 (wshr accu BITS29)
  let accu := wmac accu r4 CONSTC
  let r4 := wand accu MASK29
  let accu := wadd t5 (wshr accu BITS29)
  let accu := wmac accu r5 CONSTC
  let r5 := wand accu MASK29
  let accu := wadd t6 (wshr accu BITS29)
  let accu := wmac accu r6 CONSTC
  let r6 := wand accu MASK29
  let accu := wadd t7 (wshr accu BITS29)
  let accu := wmac accu r7 CONSTC
  let r7 := wand accu MASK29
  let accu := wadd t8 (wshr accu BITS29)
  let accu := wmac accu r8 CONSTC
  let r8 := wand accu MASK29
  let accu := wshr accu BITS29
  let r0 := wadd r0 (wmul accu CONSTC)
  ⟨r0, r1, r2, r3, r4, r5, r6, r7, r8⟩


/-- mpi29_gfp_mul29_avx2 from gfparith.c: multiply a field element by a small
constant broadcast to every lane -/
def mpi29_gfp_mul29_avx2 (a : Fe) (b : Nat) : Fe :=
  let accu := wmul a.l0 b
  let r0 := wand accu MASK29
  let accu := wshr accu BITS29
  let accu := wmac accu a.l1 b
  let r1 := wand accu MASK29
  let accu := wshr accu BITS29
  let accu := wmac accu a.l2 b
  let r2 := wand accu MASK29
  let accu := wshr accu BITS29
  let accu := wmac accu a.l3 b
  let r3 := wand accu MASK29
  let accu := wshr accu BITS29
  let accu := wmac accu a.l4 b
  let r4 := wand accu MASK29
  let accu := wshr accu BITS29
  let accu := wmac accu a.l5 b
  let r5 := wand accu MASK29
  let accu := wshr accu BITS29
  let accu := wmac accu a.l6 b
  let r6 := wand accu MASK29
  let accu := wshr accu BITS29
  let accu := wmac accu a.l7 b
  let r7 := wand accu MASK29
  let accu := wshr accu BITS29
  let accu := wmac accu a.l8 b
  let r8 := wand accu MASK29
  let accu := wmul CONSTC (wshr accu BITS29)
  let r0 := wadd r0 (wand accu MASK29)
  let r1 := wadd r1 (wshr accu BITS29)
  ⟨r0, r1, r2, r3, r4, r5, r6, r7, r8⟩

/-- iterated squaring, modelling the squaring for loops inside
mpi29_gfp_inv_avx2 -/
def sqrTimes : Nat → Fe → Fe
  | 0, x => x
  | n + 1, x => sqrTimes n (mpi29_gfp_sqr_avx2 x)

/-- mpi29_gfp_inv_avx2 from gfparith.c: the fixed addition chain computing
a ^ (p - 2) by 254 squarings and 11 multiplications -/
def mpi29_gfp_inv_avx2 (a : Fe) : Fe :=
  let t0 := mpi29_gfp_sqr_avx2 a
  let t1 := mpi29_gfp_sqr_avx2 t0
  let t1 := mpi29_gfp_sqr_avx2 t1
  let t1 := mpi29_gfp_mul_avx2 a t1
  let t0 := mpi29_gfp_mul_avx2 t0 t1
  let t2 := mpi29_gfp_sqr_avx2 t0
  let t1 := mpi29_gfp_mul_avx2 t1 t2
  let t2 := mpi29_gfp_sqr_avx2 t1
  let t2 := sqrTimes 4 t2
  let t1 := mpi29_gfp_mul_avx2 t2 t1
  let t2 := mpi29_gfp_sqr_avx2 t1
  let t2 := sqrTimes 9 t2
  let t2 := mpi29_gfp_mul_avx2 t2 t1
  let t3 := mpi29_gfp_sqr_avx2 t2
  let t3 := sqrTimes 19 t3
  let t2 := mpi29_gfp_mul_avx2 t3 t2
  let t2 := mpi29_gfp_sqr_avx2 t2
  let t2 := sqrTimes 9 t2
  let t1 := mpi29_gfp_mul_avx2 t2 t1
  let t2 := mpi29_gfp_sqr_avx2 t1
  let t2 := sqrTimes 49 t2
  let t2 := mpi29_gfp_mul_avx2 t2 t1
  let t3 := mpi29_gfp_sqr_avx2 t2
  let t3 := sqrTimes 99 t3
  let t2 := mpi29_gfp_mul_avx2 t3 t2
  let t2 := mpi29_gfp_sqr_avx2 t2
  let t2 := sqrTimes 49 t2
  let t1 := mpi29_gfp_mul_avx2 t2 t1
  let t1 := mpi29_gfp_sqr_avx2 t1
  let t1 := sqrTimes 4 t1
  mpi29_gfp_mul_avx2 t1 t0

/-- the all-zero field element -/
def feZero : Fe := ⟨0, 0, 0, 0, 0, 0, 0, 0, 0⟩

/-- the field element one -/
def feOne : Fe := ⟨1, 0, 0, 0, 0, 0, 0, 0, 0⟩

/-- projective point with coordinates [x, y, z] as in moncurve.h -/
structure ProPoint where
  x : Fe
  y : Fe
  z : Fe
deriving DecidableEq, Repr

/-- mon_ladder_step_avx2 from moncurve.c: combined differential addition and
doubling; the y coordinates of p and q serve as the scratch variables tmp1
and tmp2 exactly as in the source -/
def mon_ladder_step_avx2 (p q : ProPoint) (xd : Fe) : ProPoint × ProPoint :=
  let tmp1 := mpi29_gfp_add_avx2 p.x p.z
  let px := mpi29_gfp_sbc_avx2 p.x p.z
  let tmp2 := mpi29_gfp_add_avx2 q.x q.z
  let qx := mpi29_gfp_sub_avx2 q.x q.z
  let pz := mpi29_gfp_sqr_avx2 tmp1
  let qz := mpi29_gfp_mul_avx2 tmp2 px
  let tmp2 := mpi29_gfp_mul_avx2 qx tmp1
  let tmp1 := mpi29_gfp_sqr_avx2 px
  let px := mpi29_gfp_mul_avx2 pz tmp1
  let tmp1 := mpi29_gfp_sub_avx2 pz tmp1
  let qx := mpi29_gfp_mul29_avx2 tmp1 121665
  let qx := mpi29_gfp_add_avx2 qx pz
  let pz := mpi29_gfp_mul_avx2 qx tmp1
  let tmp1 := mpi29_gfp_add_avx2 tmp2 qz
  let qx := mpi29_gfp_sqr_avx2 tmp1
  let tmp1 := mpi29_gfp_sbc_avx2 tmp2 qz
  let tmp2 := mpi29_gfp_sqr_avx2 tmp1
  let qz := mpi29_gfp_mul_avx2 tmp2 xd
  (⟨px, tmp1, pz⟩, ⟨qx, tmp2, qz⟩)

/-- mon_cswap_point_avx2 from moncurve.c: mask the flag with 1, then swap the
x and z coordinates of the two points conditionally -/
def mon_cswap_point_avx2 (p q : ProPoint) (b : Nat) : ProPoint × ProPoint :=
  let cbit := wand b 1
  let sx := mpi29_cswap_avx2 p.x q.x cbit
  let sz := mpi29_cswap_avx2 p.z q.z cbit
  (⟨sx.1, p.y, sz.1⟩, ⟨sx.2, q.y, sz.2⟩)

/-- a 256-bit scalar delivered as eight 32-bit words, one lane each -/
structure Kp where
  k0 : Nat
  k1 : Nat
  k2 : Nat
  k3 : Nat
  k4 : Nat
  k5 : Nat
  k6 : Nat
  k7 : Nat
deriving DecidableEq, Repr

/-- word selection kp[i] of the scalar array -/
def Kp.word (k : Kp) : Nat → Nat
  | 0 => k.k0
  | 1 => k.k1
  | 2 => k.k2
  | 3 => k.k3
  | 4 => k.k4
  | 5 => k.k5
  | 6 => k.k6
  | 7 => k.k7
  | _ + 8 => 0

/-- scalar pruning from mon_mul_varbase_avx2: clear the low 3 bits of word 0,
clear the top bit of word 7, set bit 30 of word 7 -/
def pruneScalar (k : Kp) : Kp :=
  ⟨wand k.k0 4294967288, k.k1, k.k2, k.k3, k.k4, k.k5, k.k6,
   wor (wand k.k7 2147483647) 1073741824⟩

/-- one iteration of the main ladder loop of mon_mul_varbase_avx2, at bit
index i; the state is (p1, p2, s) -/
def ladderIter (kp : Kp) (x : Fe) (i : Nat)
    (st : ProPoint × ProPoint × Nat) : ProPoint × ProPoint × Nat :=
  let b := wshr (kp.word (i >>> 5)) (i &&& 31)
  let s := wxor st.2.2 b
  let pq := mon_cswap_point_avx2 st.1 st.2.1 s
  let pq2 := mon_ladder_step_avx2 pq.1 pq.2 x
  (pq2.1, pq2.2, b)

/-- the main ladder loop, running the iteration at indices
fuel - 1, fuel - 2, down to 0 -/
def ladderLoop (kp : Kp) (x : Fe) :
    Nat → (ProPoint × ProPoint × Nat) → ProPoint × ProPoint × Nat
  | 0, st => st
  | i + 1, st => ladderLoop kp x i (ladderIter kp x i st)

/-- the top n iterations of the ladder loop above an offset m: indices
m + n - 1 down to m; used to evaluate the ladder in chunks -/
def ladderHi (kp : Kp) (x : Fe) (m : Nat) :
    Nat → (ProPoint × ProPoint × Nat) → ProPoint × ProPoint × Nat
  | 0, st => st
  | n + 1, st => ladderHi kp x m n (ladderIter kp x (m + n) st)

/-- the ladder loop splits into a top chunk followed by the rest -/
theorem ladderLoop_split (kp : Kp) (x : Fe) (m n : Nat)
    (st : ProPoint × ProPoint × Nat) :
    ladderLoop kp x (m + n) st = ladderLoop kp x m (ladderHi kp x m n st) := by
  induction n generalizing st with
  | zero => rfl
  | succ n ih =>
      show ladderLoop kp x (m + n) (ladderIter kp x (m + n) st) = _
      rw [ih (ladderIter kp x (m + n) st)]
      rfl

/-- mon_mul_varbase_avx2 from moncurve.c: prune the scalar, run the 255-step
Montgomery ladder with the swap-and-step flag s, final conditional swap, and
convert to affine coordinates by one inversion and one multiplication -/
def mon_mul_varbase_avx2 (k : Kp) (x : Fe) : Fe :=
  let kp := pruneScalar k
  let p1 : ProPoint := ⟨feOne, feZero, feZero⟩
  let p2 : ProPoint := ⟨x, feZero, feOne⟩
  let st := ladderLoop kp x 255 (p1, p2, 0)
  let pq := mon_cswap_point_avx2 st.1 st.2.1 st.2.2
  let t := mpi29_gfp_inv_avx2 pq.1.z
  mpi29_gfp_mul_avx2 t pq.1.x

/-- final_modp from ecdh.c: two folding passes converting a 9 times 29 bit
value to 8 times 29 bits plus 23 bits, each one folding the bits above
position 255 times 19 into limb 0 followed by one carry sweep -/
def final_modp (a : Fe) : Fe :=
  let temp := wshr a.l8 23
  let a8 := wand a.l8 8388607
  let a0 := wadd a.l0 (wmul temp 19)
  let a1 := wadd a.l1 (wshr a0 BITS29)
  let a0 := wand a0 MASK29
  let a2 := wadd a.l2 (wshr a1 BITS29)
  let a1 := wand a1 MASK29
  let a3 := wadd a.l3 (wshr a2 BITS29)
  let a2 := wand a2 MASK29
  let a4 := wadd a.l4 (wshr a3 BITS29)
  let a3 := wand a3 MASK29
  let a5 := wadd a.l5 (wshr a4 BITS29)
  let a4 := wand a4 MASK29
  let a6 := wadd a.l6 (wshr a5 BITS29)
  let a5 := wand a5 MASK29
  let a7 := wadd a.l7 (wshr a6 BITS29)
  let a6 := wand a6 MASK29
  let a8 := wadd a8 (wshr a7 BITS29)
  let a7 := wand a7 MASK29
  let temp := wshr a8 23
  let a8 := wand a8 8388607
  let a0 := wadd a0 (wmul temp 19)
  let a1 := wadd a1 (wshr a0 BITS29)
  let a0 := wand a0 MASK29
  let a2 := wadd a2 (wshr a1 BITS29)
  let a1 := wand a1 MASK29
  let a3 := wadd a3 (wshr a2 BITS29)
  let a2 := wand a2 MASK29
  let a4 := wadd a4 (wshr a3 BITS29)
  let a3 := wand a3 MASK29
  let a5 := wadd a5 (wshr a4 BITS29)
  let a4 := wand a4 MASK29
  let a6 := wadd a6 (wshr a5 BITS29)
  let a5 := wand a5 MASK29
  let a7 := wadd a7 (wshr a6 BITS29)
  let a6 := wand a6 MASK29
  let a8 := wadd a8 (wshr a7 BITS29)
  let a7 := wand a7 MASK29
  ⟨a0, a1, a2, a3, a4, a5, a6, a7, a8⟩

/-- sharedsecret from ecdh.c: variable-base ladder followed by final_modp -/
def sharedsecret (ska : Kp) (pkb : Fe) : Fe :=
  final_modp (mon_mul_varbase_avx2 ska pkb)


/-- integer value of a scalar given as eight little-endian 32-bit words -/
def Kp.val (k : Kp) : Nat :=
  k.k0 + 4294967296 * k.k1 + 18446744073709551616 * k.k2 +
    79228162514264337593543950336 * k.k3 +
    340282366920938463463374607431768211456 * k.k4 +
    1461501637330902918203684832716283019655932542976 * k.k5 +
    6277101735386680763835789423207666416102355444464034512896 * k.k6 +
    26959946667150639794667015087019630673637144422540572481103610249216 * k.k7

/-- scalar of RFC 7748 section 5.2 first test vector, as eight little-endian
32-bit words -/
def rfcK : Kp := ⟨1810056869, 2642170608, 1259673147, 3713943170, 172758114, 408616129, 1143106128, 3298444474⟩

/-- u-coordinate of RFC 7748 section 5.2 first test vector in 9-limb
radix 2^29 form -/
def rfcU : Fe := ⟨124312550, 427918019, 275058038, 526534985, 107423685, 429094418, 71363798, 437567605, 4988075⟩

/-- ladder chunk 0 of the RFC vector computation -/
def rfcSt1 : ProPoint × ProPoint × Nat := (⟨⟨35603520, 130617807, 265421970, 122246397, 171913269, 407214486, 262959457, 264188989, 192856594⟩, ⟨215233984, 358944947, 287260474, 499137504, 477370459, 495203296, 343303036, 372122018, 187671664⟩, ⟨420215936, 119822297, 353131749, 98116990, 179153336, 9889038, 68985738, 6440227, 423715786⟩⟩, ⟨⟨146785472, 240323597, 405694584, 1358791, 98200402, 340872593, 314561188, 90433297, 305436467⟩, ⟨188253952, 165500603, 93399267, 419665962, 402752551, 342394218, 196583720, 79398760, 349396772⟩, ⟨166581888, 130491195, 103901858, 55156323, 502584233, 422648437, 108816786, 491870638, 473482083⟩⟩, 0)

/-- ladder chunk 1 of the RFC vector computation -/
def rfcSt2 : ProPoint × ProPoint × Nat := (⟨⟨394532864, 16878163, 505182231, 368625983, 533965614, 261925374, 34867006, 30324800, 165510985⟩, ⟨209547392, 355732301, 291120242, 17881009, 168313693, 49174424, 346491804, 334129733, 9578632⟩, ⟨335478080, 377136665, 313560455, 362858312, 363110971, 152222643, 153961382, 335976300, 3234048⟩⟩, ⟨⟨107709184, 427631575, 197956957, 247162869, 131984560, 533168705, 358198852, 289316713, 51255729⟩, ⟨334867520, 443969315, 336642214, 77679069, 369655345, 525482815, 175844451, 32267911, 415106103⟩, ⟨323136384, 291477253, 156076339, 222483083, 405179869, 90458485, 185941717, 424277558, 34460299⟩⟩, 0)

/-- ladder chunk 2 of the RFC vector computation -/
def rfcSt3 : ProPoint × ProPoint × Nat := (⟨⟨487483712, 15520637, 419918466, 171649969, 819624, 487945828, 45055861, 189700647, 32127112⟩, ⟨495858176, 65747502, 105259852, 484408502, 411537093, 360082482, 516220926, 121096184, 155584303⟩, ⟨457629120, 1873886, 452427816, 72441983, 105607626, 85496484, 469800879, 32219053, 532294214⟩⟩, ⟨⟨204772672, 476225484, 163288071, 475910726, 439871003, 457684199, 517493590, 375451207, 52971674⟩, ⟨449319104, 402739705, 298619, 75385169, 241752863, 248991686, 93253515, 267395383, 425670156⟩, ⟨452650688, 470897093, 191735087, 164253556, 251260399, 521573298, 459503314, 436369196, 470707187⟩⟩, 0)

/-- ladder chunk 3 of the RFC vector computation -/
def rfcSt4 : ProPoint × ProPoint × Nat := (⟨⟨352151360, 379926963, 229397778, 15019217, 400213008, 107572982, 356375686, 146901954, 484536862⟩, ⟨95417856, 8004802, 489004674, 64538496, 350263431, 363837174, 60572325, 335839921, 15774613⟩, ⟨47098304, 279178168, 150072634, 483839519, 63247262, 292746308, 172249544, 140300915, 140588299⟩⟩, ⟨⟨388184832, 18291140, 73237828, 156781337, 510549202, 81530976, 205990257, 35335899, 517826669⟩, ⟨296154432, 435666019, 15822447, 258515507, 215141539, 510354343, 306666558, 65610283, 93270685⟩, ⟨447376576, 22392903, 223754149, 90971126, 13583086, 408393589, 302181818, 341227699, 282092580⟩⟩, 1)

/-- ladder chunk 4 of the RFC vector computation -/
def rfcSt5 : ProPoint × ProPoint × Nat := (⟨⟨477477760, 3412231, 413678634, 91061228, 365830040, 193763244, 349704343, 424465391, 265601786⟩, ⟨491933312, 508573154, 322309290, 475981100, 187928420, 527212612, 463784017, 79410806, 438421762⟩, ⟨269322176, 244548670, 133770404, 308298719, 384924948, 24295195, 252092576, 11213020, 435448491⟩⟩, ⟨⟨458014016, 474973524, 47054393, 414231423, 255330619, 396831527, 247998329, 344501106, 302624279⟩, ⟨35486528, 39377213, 144547202, 281531783, 278625298, 184431110, 353451198, 210255909, 508913738⟩, ⟨76421440, 294565345, 291598593, 299296788, 21683868, 495839111, 462912720, 102268901, 39770258⟩⟩, 0)

/-- ladder chunk 5 of the RFC vector computation -/
def rfcSt6 : ProPoint × ProPoint × Nat := (⟨⟨248860992, 273073259, 358741461, 324701630, 157880634, 42161389, 16220977, 409720676, 177042404⟩, ⟨95814976, 51455240, 444220198, 360809392, 155003815, 220210565, 319691678, 392680456, 309987011⟩, ⟨187648064, 149275876, 9792301, 43011467, 172463769, 207950959, 215026180, 114210608, 491985577⟩⟩, ⟨⟨480115712, 15435253, 500734317, 256456529, 410256431, 452519180, 8045412, 13855569, 5148370⟩, ⟨509700480, 8031376, 136212806, 274199872, 445363039, 413719128, 86439772, 476961229, 119965861⟩, ⟨31141312, 355013257, 163525413, 516904710, 279651055, 450269831, 97760834, 120545019, 108426224⟩⟩, 1)

/-- ladder chunk 6 of the RFC vector computation -/
def rfcSt7 : ProPoint × ProPoint × Nat := (⟨⟨71604288, 95243417, 356654126, 188647449, 243293027, 94355312, 86108924, 227617530, 328954626⟩, ⟨115257088, 70287297, 446771876, 219535490, 317669065, 393618663, 300036503, 39199948, 247632645⟩, ⟨39225088, 421009105, 137085560, 369367916, 195600733, 4281459, 299794774, 530069777, 83458054⟩⟩, ⟨⟨518673472, 51237192, 286807881, 253536393, 228875196, 424069393, 171739864, 434225180, 454028394⟩, ⟨474851840, 22662953, 362992199, 477975592, 40986080, 405822403, 494173095, 301525710, 292255025⟩, ⟨309256896, 240008557, 92099569, 94580918, 44957257, 480067975, 347495316, 60580726, 76582268⟩⟩, 0)

/-- ladder chunk 7 of the RFC vector computation -/
def rfcSt8 : ProPoint × ProPoint × Nat := (⟨⟨273296704, 347603029, 185529, 216898676, 174937124, 526912719, 354955053, 402555450, 131729140⟩, ⟨122083008, 497768410, 391402151, 110262358, 9346291, 144313459, 255393115, 76739722, 73713493⟩, ⟨189256192, 202413101, 14437263, 47080689, 330381252, 184319447, 92594134, 135582490, 243546869⟩⟩, ⟨⟨316655552, 306256709, 86561351, 498466478, 529624883, 375329189, 431462296, 461000916, 425979235⟩, ⟨58098752, 486649594, 523729150, 385993335, 62351103, 163247514, 438679827, 159485717, 183367595⟩, ⟨28013376, 291049752, 513715945, 120602342, 246291053, 265104634, 347833924, 202172644, 114323026⟩⟩, 1810056864)

set_option maxRecDepth 1000000 in
theorem rfc_chunk1 : ladderHi (pruneScalar rfcK) rfcU 223 32
    ((⟨feOne, feZero, feZero⟩ : ProPoint), (⟨rfcU, feZero, feOne⟩ : ProPoint), 0) = rfcSt1 := by
  decide
set_option maxRecDepth 1000000 in
theorem rfc_chunk2 : ladderHi (pruneScalar rfcK) rfcU 191 32 rfcSt1 = rfcSt2 := by
  decide
set_option maxRecDepth 1000000 in
theorem rfc_chunk3 : ladderHi (pruneScalar rfcK) rfcU 159 32 rfcSt2 = rfcSt3 := by
  decide
set_option maxRecDepth 1000000 in
theorem rfc_chunk4 : ladderHi (pruneScalar rfcK) rfcU 127 32 rfcSt3 = rfcSt4 := by
  decide
set_option maxRecDepth 1000000 in
theorem rfc_chunk5 : ladderHi (pruneScalar rfcK) rfcU 95 32 rfcSt4 = rfcSt5 := by
  decide
set_option maxRecDepth 1000000 in
theorem rfc_chunk6 : ladderHi (pruneScalar rfcK) rfcU 63 32 rfcSt5 = rfcSt6 := by
  decide
set_option maxRecDepth 1000000 in
theorem rfc_chunk7 : ladderHi (pruneScalar rfcK) rfcU 31 32 rfcSt6 = rfcSt7 := by
  decide
set_option maxRecDepth 1000000 in
theorem rfc_chunk8 : ladderHi (pruneScalar rfcK) rfcU 0 31 rfcSt7 = rfcSt8 := by
  decide

set_option maxRecDepth 1000000 in
theorem rfc_ladder : ladderLoop (pruneScalar rfcK) rfcU 255
    ((⟨feOne, feZero, feZero⟩ : ProPoint), (⟨rfcU, feZero, feOne⟩ : ProPoint), 0) = rfcSt8 := by
  rw [show (255:Nat) = 223 + 32 from rfl, ladderLoop_split, rfc_chunk1,
      show (223:Nat) = 191 + 32 from rfl, ladderLoop_split, rfc_chunk2,
      show (191:Nat) = 159 + 32 from rfl, ladderLoop_split, rfc_chunk3,
      show (159:Nat) = 127 + 32 from rfl, ladderLoop_split, rfc_chunk4,
      show (127:Nat) = 95 + 32 from rfl, ladderLoop_split, rfc_chunk5,
      show (95:Nat) = 63 + 32 from rfl, ladderLoop_split, rfc_chunk6,
      show (63:Nat) = 31 + 32 from rfl, ladderLoop_split, rfc_chunk7,
      show (31:Nat) = 0 + 31 from rfl, ladderLoop_split, rfc_chunk8]
  rfl

set_option maxRecDepth 1000000 in
/-- C2: on the lane fed with the first RFC 7748 test vector, sharedsecret
returns the expected value: the scalar is delivered as eight 32-bit
little-endian words, the peer u-coordinate in 9-limb radix 2^29 form, and
the result serialises to the expected 32-byte little-endian string, stated
here as the value of the output field element -/
theorem C2_rfc_vector :
    rfcK.val = 88925887110773138616681052956207043583107764937498542285260013040410376226469 ∧
    rfcU.val = 34426434033919594451155107781188821651316167215306631574996226621102155684838 ∧ rfcU.Reduced ∧
    (sharedsecret rfcK rfcU).val = 37325765543539916631701301279660700968428932651319597985674090122993663859395 := by
  refine ⟨by decide, by decide, by decide, ?_⟩
  have h : sharedsecret rfcK rfcU = final_modp (mpi29_gfp_mul_avx2
      (mpi29_gfp_inv_avx2 (mon_cswap_point_avx2 rfcSt8.1 rfcSt8.2.1 rfcSt8.2.2).1.z)
      (mon_cswap_point_avx2 rfcSt8.1 rfcSt8.2.1 rfcSt8.2.2).1.x) := by
    show final_modp (mpi29_gfp_mul_avx2
      (mpi29_gfp_inv_avx2 (mon_cswap_point_avx2
        (ladderLoop (pruneScalar rfcK) rfcU 255 (⟨feOne, feZero, feZero⟩, ⟨rfcU, feZero, feOne⟩, 0)).1
        (ladderLoop (pruneScalar rfcK) rfcU 255 (⟨feOne, feZero, feZero⟩, ⟨rfcU, feZero, feOne⟩, 0)).2.1
        (ladderLoop (pruneScalar rfcK) rfcU 255 (⟨feOne, feZero, feZero⟩, ⟨rfcU, feZero, feOne⟩, 0)).2.2).1.z)
      (mon_cswap_point_avx2
        (ladderLoop (pruneScalar rfcK) rfcU 255 (⟨feOne, feZero, feZero⟩, ⟨rfcU, feZero, feOne⟩, 0)).1
        (ladderLoop (pruneScalar rfcK) rfcU 255 (⟨feOne, feZero, feZero⟩, ⟨rfcU, feZero, feOne⟩, 0)).2.1
        (ladderLoop (pruneScalar rfcK) rfcU 255 (⟨feOne, feZero, feZero⟩, ⟨rfcU, feZero, feOne⟩, 0)).2.2).1.x) = _
    rw [rfc_ladder]
  rw [h]
  decide



/-- with flag 0 the swap mask is zero -/
theorem cswap_mask_zero : wsub 0 0 = 0 := by decide

/-- with flag 1 the swap mask is all ones -/
theorem cswap_mask_one : wsub 0 1 = 18446744073709551615 := by decide

theorem xor_swap_fst {x y : Nat} (hx : x < 18446744073709551616)
    (hy : y < 18446744073709551616) :
    wxor x (wand (wxor x y) 18446744073709551615) = y := by
  have hxy : x ^^^ y < 2 ^ 64 := Nat.xor_lt_two_pow hx hy
  unfold wxor wand
  rw [show (18446744073709551615 : Nat) = 2 ^ 64 - 1 from rfl,
    Nat.and_pow_two_sub_one_eq_mod, Nat.mod_eq_of_lt hxy, ← Nat.xor_assoc,
    Nat.xor_self, Nat.zero_xor]

theorem xor_swap_snd {x y : Nat} (hx : x < 18446744073709551616)
    (hy : y < 18446744073709551616) :
    wxor y (wand (wxor x y) 18446744073709551615) = x := by
  have hxy : x ^^^ y < 2 ^ 64 := Nat.xor_lt_two_pow hx hy
  unfold wxor wand
  rw [show (18446744073709551615 : Nat) = 2 ^ 64 - 1 from rfl,
    Nat.and_pow_two_sub_one_eq_mod, Nat.mod_eq_of_lt hxy, Nat.xor_comm x y,
    ← Nat.xor_assoc, Nat.xor_self, Nat.zero_xor]

/-- conditional swap with flag 0 is the identity, for any lane contents -/
theorem cswap_zero (r a : Fe) : mpi29_cswap_avx2 r a 0 = (r, a) := by
  simp only [mpi29_cswap_avx2, cswap_mask_zero, wand, Nat.and_zero, wxor,
    Nat.xor_zero]

/-- conditional swap with flag 1 exchanges the two field elements whenever
all limbs are genuine 64-bit lane values -/
theorem cswap_one (r a : Fe)
    (hr : r.Bnd 18446744073709551615 18446744073709551615)
    (ha : a.Bnd 18446744073709551615 18446744073709551615) :
    mpi29_cswap_avx2 r a 1 = (a, r) := by
  obtain ⟨hr0, hr1, hr2, hr3, hr4, hr5, hr6, hr7, hr8⟩ := hr
  obtain ⟨ha0, ha1, ha2, ha3, ha4, ha5, ha6, ha7, ha8⟩ := ha
  simp only [mpi29_cswap_avx2, cswap_mask_one]
  rw [xor_swap_fst (by omega) (by omega), xor_swap_fst (by omega) (by omega),
    xor_swap_fst (by omega) (by omega), xor_swap_fst (by omega) (by omega),
    xor_swap_fst (by omega) (by omega), xor_swap_fst (by omega) (by omega),
    xor_swap_fst (by omega) (by omega), xor_swap_fst (by omega) (by omega),
    xor_swap_fst (by omega) (by omega), xor_swap_snd (by omega) (by omega),
    xor_swap_snd (by omega) (by omega), xor_swap_snd (by omega) (by omega),
    xor_swap_snd (by omega) (by omega), xor_swap_snd (by omega) (by omega),
    xor_swap_snd (by omega) (by omega), xor_swap_snd (by omega) (by omega),
    xor_swap_snd (by omega) (by omega), xor_swap_snd (by omega) (by omega)]

/-- C9: mpi29_cswap_avx2 with flag 0 leaves both field elements unchanged,
with flag 1 it exchanges them, and applying it twice with the same flag value
in the set containing 0 and 1 restores the original pair. -/
theorem C9_cswap (r a : Fe)
    (hr : r.Bnd 18446744073709551615 18446744073709551615)
    (ha : a.Bnd 18446744073709551615 18446744073709551615) :
    mpi29_cswap_avx2 r a 0 = (r, a) ∧
    mpi29_cswap_avx2 r a 1 = (a, r) ∧
    ∀ b, b = 0 ∨ b = 1 →
      mpi29_cswap_avx2 (mpi29_cswap_avx2 r a b).1 (mpi29_cswap_avx2 r a b).2 b
        = (r, a) := by
  refine ⟨cswap_zero r a, cswap_one r a hr ha, ?_⟩
  rintro b (rfl | rfl)
  · rw [cswap_zero r a]
    exact cswap_zero r a
  · rw [cswap_one r a hr ha]
    exact cswap_one a r ha hr

/-- witness for C9 at a concrete pair of field elements -/
theorem C9_cswap_witness :
    (⟨1, 2, 3, 4, 5, 6, 7, 8, 9⟩ : Fe).Bnd 18446744073709551615 18446744073709551615 ∧
    (⟨10, 11, 12, 13, 14, 15, 16, 17, 18⟩ : Fe).Bnd 18446744073709551615 18446744073709551615 ∧
    (mpi29_cswap_avx2 ⟨1, 2, 3, 4, 5, 6, 7, 8, 9⟩ ⟨10, 11, 12, 13, 14, 15, 16, 17, 18⟩ 0 =
      (⟨1, 2, 3, 4, 5, 6, 7, 8, 9⟩, ⟨10, 11, 12, 13, 14, 15, 16, 17, 18⟩) ∧
     mpi29_cswap_avx2 ⟨1, 2, 3, 4, 5, 6, 7, 8, 9⟩ ⟨10, 11, 12, 13, 14, 15, 16, 17, 18⟩ 1 =
      (⟨10, 11, 12, 13, 14, 15, 16, 17, 18⟩, ⟨1, 2, 3, 4, 5, 6, 7, 8, 9⟩) ∧
     ∀ b, b = 0 ∨ b = 1 →
      mpi29_cswap_avx2
        (mpi29_cswap_avx2 ⟨1, 2, 3, 4, 5, 6, 7, 8, 9⟩ ⟨10, 11, 12, 13, 14, 15, 16, 17, 18⟩ b).1
        (mpi29_cswap_avx2 ⟨1, 2, 3, 4, 5, 6, 7, 8, 9⟩ ⟨10, 11, 12, 13, 14, 15, 16, 17, 18⟩ b).2 b
        = (⟨1, 2, 3, 4, 5, 6, 7, 8, 9⟩, ⟨10, 11, 12, 13, 14, 15, 16, 17, 18⟩)) :=
  ⟨by decide, by decide, C9_cswap _ _ (by decide) (by decide)⟩


/-- analysis of one folding pass of final_modp: digit bounds, top bound, and
the exact value identity -/
theorem fold_pass_spec (x0 x1 x2 x3 x4 x5 x6 x7 x8 t c0 c1 c2 c3 c4 c5 c6 c7 c8
    d0 d1 d2 d3 d4 d5 d6 d7 : Nat)
    (hc0 : c0 = x0 + t * 19)
    (hc1 : c1 = x1 + c0 / 536870912) (hd0 : d0 = c0 % 536870912)
    (hc2 : c2 = x2 + c1 / 536870912) (hd1 : d1 = c1 % 536870912)
    (hc3 : c3 = x3 + c2 / 536870912) (hd2 : d2 = c2 % 536870912)
    (hc4 : c4 = x4 + c3 / 536870912) (hd3 : d3 = c3 % 536870912)
    (hc5 : c5 = x5 + c4 / 536870912) (hd4 : d4 = c4 % 536870912)
    (hc6 : c6 = x6 + c5 / 536870912) (hd5 : d5 = c5 % 536870912)
    (hc7 : c7 = x7 + c6 / 536870912) (hd6 : d6 = c6 % 536870912)
    (hc8 : c8 = x8 + c7 / 536870912) (hd7 : d7 = c7 % 536870912)
    (hx0 : x0 ≤ 536870911) (hx1 : x1 ≤ 536870911) (hx2 : x2 ≤ 536870911)
    (hx3 : x3 ≤ 536870911) (hx4 : x4 ≤ 536870911) (hx5 : x5 ≤ 536870911)
    (hx6 : x6 ≤ 536870911) (hx7 : x7 ≤ 536870911) (hx8 : x8 ≤ 8388608)
    (ht : t ≤ 63) :
    d0 ≤ 536870911 ∧ d1 ≤ 536870911 ∧ d2 ≤ 536870911 ∧ d3 ≤ 536870911 ∧
    d4 ≤ 536870911 ∧ d5 ≤ 536870911 ∧ d6 ≤ 536870911 ∧ d7 ≤ 536870911 ∧
    c8 ≤ x8 + 1 ∧
    d0 + 536870912 * d1 + 288230376151711744 * d2 +
      154742504910672534362390528 * d3 +
      83076749736557242056487941267521536 * d4 +
      44601490397061246283071436545296723011960832 * d5 +
      23945242826029513411849172299223580994042798784118784 * d6 +
      12855504354071922204335696738729300820177623950262342682411008 * d7 +
      6901746346790563787434755862277025452451108972170386555162524223799296 * c8
      = x0 + t * 19 + 536870912 * x1 + 288230376151711744 * x2 +
      154742504910672534362390528 * x3 +
      83076749736557242056487941267521536 * x4 +
      44601490397061246283071436545296723011960832 * x5 +
      23945242826029513411849172299223580994042798784118784 * x6 +
      12855504354071922204335696738729300820177623950262342682411008 * x7 +
      6901746346790563787434755862277025452451108972170386555162524223799296 * x8 := by
  omega

/-- sharper top bound for the second folding pass: with carry flag at most 1
and a zero top whenever the flag is 1, the final top limb stays below 2^23 -/
theorem fold_pass_top (x0 x1 x2 x3 x4 x5 x6 x7 x8 t c0 c1 c2 c3 c4 c5 c6 c7 c8
    : Nat)
    (hc0 : c0 = x0 + t * 19)
    (hc1 : c1 = x1 + c0 / 536870912)
    (hc2 : c2 = x2 + c1 / 536870912)
    (hc3 : c3 = x3 + c2 / 536870912)
    (hc4 : c4 = x4 + c3 / 536870912)
    (hc5 : c5 = x5 + c4 / 536870912)
    (hc6 : c6 = x6 + c5 / 536870912)
    (hc7 : c7 = x7 + c6 / 536870912)
    (hc8 : c8 = x8 + c7 / 536870912)
    (hx0 : x0 ≤ 536870911) (hx1 : x1 ≤ 536870911) (hx2 : x2 ≤ 536870911)
    (hx3 : x3 ≤ 536870911) (hx4 : x4 ≤ 536870911) (hx5 : x5 ≤ 536870911)
    (hx6 : x6 ≤ 536870911) (hx7 : x7 ≤ 536870911) (hx8 : x8 ≤ 8388607)
    (ht : t ≤ 1) (htz : t = 1 → x8 = 0) :
    c8 ≤ 8388607 := by
  omega


theorem wand29_eq (x : Nat) : wand x MASK29 = x % 536870912 := by
  unfold wand MASK29
  rw [show (536870911 : Nat) = 2 ^ 29 - 1 from rfl, Nat.and_pow_two_sub_one_eq_mod]

theorem wshr23_eq (x : Nat) : wshr x 23 = x / 8388608 := by
  rw [wshr_div]; norm_num

theorem wand23_eq (x : Nat) : wand x 8388607 = x % 8388608 := by
  unfold wand
  rw [show (8388607 : Nat) = 2 ^ 23 - 1 from rfl, Nat.and_pow_two_sub_one_eq_mod]

theorem wmul19_eq {x : Nat} (h : x ≤ 4294967295) : wmul x 19 = x * 19 := by
  exact wmul_eq (by omega) (by omega)


theorem bnd_of_eq {v e bc : Nat} (hv : v = e) (he : e ≤ bc) : v ≤ bc := hv ▸ he

theorem wcarry_step (bc : Nat) {x y bx bz : Nat} (hx : x ≤ bx) (hy : y ≤ bz)
    (h1 : bx + bz / 536870912 ≤ bc) (h2 : bc < 18446744073709551616) :
    wadd x (wshr y BITS29) = x + y / 536870912 ∧ x + y / 536870912 ≤ bc := by
  have hd : y / 536870912 ≤ bz / 536870912 := Nat.div_le_div_right hy
  have hb : x + y / 536870912 ≤ bc := by omega
  refine ⟨?_, hb⟩
  rw [show wshr y BITS29 = y / 536870912 from wshr29_div y]
  exact wadd_eq (by unfold W; omega)

theorem wfold19_step {x t bx bt : Nat} (hx : x ≤ bx) (ht : t ≤ bt)
    (h32 : bt ≤ 4294967295) (h : bx + bt * 19 < 18446744073709551616) :
    wadd x (wmul t 19) = x + t * 19 ∧ x + t * 19 ≤ bx + bt * 19 := by
  have hm : wmul t 19 = t * 19 := wmul_eq (by omega) (by omega)
  have h19 : t * 19 ≤ bt * 19 := Nat.mul_le_mul_right 19 ht
  refine ⟨?_, by omega⟩
  rw [hm]
  exact wadd_eq (by unfold W; omega)

theorem fold_glue0 {x t b : Nat} (ht : t = x / 8388608) (hb : b = x % 8388608)
    (hx : x ≤ 536870911) :
    t ≤ 63 ∧ b ≤ 8388607 ∧ b ≤ 8388608 ∧ x = b + 8388608 * t := by omega

theorem fold_glue1 {c e t b : Nat} (ht : t = c / 8388608) (he : e = c % 8388608)
    (hc : c ≤ b + 1) (hb : b ≤ 8388607) :
    t ≤ 1 ∧ t ≤ 63 ∧ e ≤ 8388607 ∧ e ≤ 8388608 ∧ (t = 1 → e = 0) ∧
    c = e + 8388608 * t := by omega

/-- the two-pass folding of final_modp: on a reduced input the output has the
same residue modulo p = 2 ^ 255 - 19, all limbs reduced, limb 8 below 2 ^ 23,
and hence a value below 2 ^ 255; the value p itself is a fixed point, so the
output range is [0, 2 ^ 255) = [0, p + 19), not [0, p) -/
theorem final_modp_spec (a : Fe) (ha : a.Bnd 536870911 536870911) :
    (final_modp a).Bnd 536870911 536870911 ∧
    (final_modp a).l8 ≤ 8388607 ∧
    (final_modp a).val < 57896044618658097711785492504343953926634992332820282019728792003956564819968 ∧
    ∃ k, k ≤ 64 ∧ (final_modp a).val + P25519 * k = a.val := by
  obtain ⟨ha0, ha1, ha2, ha3, ha4, ha5, ha6, ha7, ha8⟩ := ha
  rw [final_modp.eq_def]
  lift_lets
  extract_lets t1 b8 c0 c1 d0 c2 d1 c3 d2 c4 d3 c5 d4 c6 d5 c7 d6 c8 d7
    t2 e8 f0 f1 g0 f2 g1 f3 g2 f4 g3 f5 g4 f6 g5 f7 g6 f8 g7
  have ht1 : t1 = a.l8 / 8388608 := wshr23_eq a.l8
  have hb8 : b8 = a.l8 % 8388608 := wand23_eq a.l8
  obtain ⟨hbt1, hbb8a, hbb8, hsplit1⟩ := fold_glue0 ht1 hb8 ha8
  obtain ⟨hc0, hbc0⟩ := wfold19_step ha0 hbt1 (by norm_num) (by norm_num)
  have hbc0a : c0 ≤ 34359738368 := bnd_of_eq hc0 (le_trans hbc0 (by norm_num : 536870911 + 63 * 19 ≤ 34359738368))
  obtain ⟨hc1, hbc1⟩ := wcarry_step 34359738368 ha1 hbc0a (by norm_num) (by norm_num)
  have hbc1a : c1 ≤ 34359738368 := bnd_of_eq hc1 hbc1
  have hd0 : d0 = c0 % 536870912 := wand29_eq c0
  obtain ⟨hc2, hbc2⟩ := wcarry_step 34359738368 ha2 hbc1a (by norm_num) (by norm_num)
  have hbc2a : c2 ≤ 34359738368 := bnd_of_eq hc2 hbc2
  have hd1 : d1 = c1 % 536870912 := wand29_eq c1
  obtain ⟨hc3, hbc3⟩ := wcarry_step 34359738368 ha3 hbc2a (by norm_num) (by norm_num)
  have hbc3a : c3 ≤ 34359738368 := bnd_of_eq hc3 hbc3
  have hd2 : d2 = c2 % 536870912 := wand29_eq c2
  obtain ⟨hc4, hbc4⟩ := wcarry_step 34359738368 ha4 hbc3a (by norm_num) (by norm_num)
  have hbc4a : c4 ≤ 34359738368 := bnd_of_eq hc4 hbc4
  have hd3 : d3 = c3 % 536870912 := wand29_eq c3
  obtain ⟨hc5, hbc5⟩ := wcarry_step 34359738368 ha5 hbc4a (by norm_num) (by norm_num)
  have hbc5a : c5 ≤ 34359738368 := bnd_of_eq hc5 hbc5
  have hd4 : d4 = c4 % 536870912 := wand29_eq c4
  obtain ⟨hc6, hbc6⟩ := wcarry_step 34359738368 ha6 hbc5a (by norm_num) (by norm_num)
  have hbc6a : c6 ≤ 34359738368 := bnd_of_eq hc6 hbc6
  have hd5 : d5 = c5 % 536870912 := wand29_eq c5
  obtain ⟨hc7, hbc7⟩ := wcarry_step 34359738368 ha7 hbc6a (by norm_num) (by norm_num)
  have hbc7a : c7 ≤ 34359738368 := bnd_of_eq hc7 hbc7
  have hd6 : d6 = c6 % 536870912 := wand29_eq c6
  obtain ⟨hc8, hbc8⟩ := wcarry_step 34359738368 hbb8a hbc7a (by norm_num) (by norm_num)
  have hd7 : d7 = c7 % 536870912 := wand29_eq c7

  obtain ⟨p1d0, p1d1, p1d2, p1d3, p1d4, p1d5, p1d6, p1d7, p1top, p1val⟩ :=
    fold_pass_spec a.l0 a.l1 a.l2 a.l3 a.l4 a.l5 a.l6 a.l7 b8 t1
      c0 c1 c2 c3 c4 c5 c6 c7 c8 d0 d1 d2 d3 d4 d5 d6 d7
      hc0 hc1 hd0 hc2 hd1 hc3 hd2 hc4 hd3 hc5 hd4 hc6 hd5 hc7 hd6 hc8 hd7
      ha0 ha1 ha2 ha3 ha4 ha5 ha6 ha7 hbb8 hbt1
  have ht2 : t2 = c8 / 8388608 := wshr23_eq c8
  have he8 : e8 = c8 % 8388608 := wand23_eq c8
  obtain ⟨hbt2a, hbt2, hbe8a, hbe8, htz, hsplit2⟩ := fold_glue1 ht2 he8 p1top hbb8a
  obtain ⟨hf0, hbf0⟩ := wfold19_step p1d0 hbt2 (by norm_num) (by norm_num)
  have hbf0a : f0 ≤ 34359738368 := bnd_of_eq hf0 (le_trans hbf0 (by norm_num : 536870911 + 63 * 19 ≤ 34359738368))
  obtain ⟨hf1, hbf1⟩ := wcarry_step 34359738368 p1d1 hbf0a (by norm_num) (by norm_num)
  have hbf1a : f1 ≤ 34359738368 := bnd_of_eq hf1 hbf1
  have hg0 : g0 = f0 % 536870912 := wand29_eq f0
  obtain ⟨hf2, hbf2⟩ := wcarry_step 34359738368 p1d2 hbf1a (by norm_num) (by norm_num)
  have hbf2a : f2 ≤ 34359738368 := bnd_of_eq hf2 hbf2
  have hg1 : g1 = f1 % 536870912 := wand29_eq f1
  obtain ⟨hf3, hbf3⟩ := wcarry_step 34359738368 p1d3 hbf2a (by norm_num) (by norm_num)
  have hbf3a : f3 ≤ 34359738368 := bnd_of_eq hf3 hbf3
  have hg2 : g2 = f2 % 536870912 := wand29_eq f2
  obtain ⟨hf4, hbf4⟩ := wcarry_step 34359738368 p1d4 hbf3a (by norm_num) (by norm_num)
  have hbf4a : f4 ≤ 34359738368 := bnd_of_eq hf4 hbf4
  have hg3 : g3 = f3 % 536870912 := wand29_eq f3
  obtain ⟨hf5, hbf5⟩ := wcarry_step 34359738368 p1d5 hbf4a (by norm_num) (by norm_num)
  have hbf5a : f5 ≤ 34359738368 := bnd_of_eq hf5 hbf5
  have hg4 : g4 = f4 % 536870912 := wand29_eq f4
  obtain ⟨hf6, hbf6⟩ := wcarry_step 34359738368 p1d6 hbf5a (by norm_num) (by norm_num)
  have hbf6a : f6 ≤ 34359738368 := bnd_of_eq hf6 hbf6
  have hg5 : g5 = f5 % 536870912 := wand29_eq f5
  obtain ⟨hf7, hbf7⟩ := wcarry_step 34359738368 p1d7 hbf6a (by norm_num) (by norm_num)
  have hbf7a : f7 ≤ 34359738368 := bnd_of_eq hf7 hbf7
  have hg6 : g6 = f6 % 536870912 := wand29_eq f6
  obtain ⟨hf8, hbf8⟩ := wcarry_step 34359738368 hbe8a hbf7a (by norm_num) (by norm_num)
  have hg7 : g7 = f7 % 536870912 := wand29_eq f7

  obtain ⟨p2d0, p2d1, p2d2, p2d3, p2d4, p2d5, p2d6, p2d7, p2top, p2val⟩ :=
    fold_pass_spec d0 d1 d2 d3 d4 d5 d6 d7 e8 t2
      f0 f1 f2 f3 f4 f5 f6 f7 f8 g0 g1 g2 g3 g4 g5 g6 g7
      hf0 hf1 hg0 hf2 hg1 hf3 hg2 hf4 hg3 hf5 hg4 hf6 hg5 hf7 hg6 hf8 hg7
      p1d0 p1d1 p1d2 p1d3 p1d4 p1d5 p1d6 p1d7 hbe8 hbt2
  have hf8top : f8 ≤ 8388607 :=
    fold_pass_top d0 d1 d2 d3 d4 d5 d6 d7 e8 t2 f0 f1 f2 f3 f4 f5 f6 f7 f8
      hf0 hf1 hf2 hf3 hf4 hf5 hf6 hf7 hf8
      p1d0 p1d1 p1d2 p1d3 p1d4 p1d5 p1d6 p1d7 hbe8a hbt2a htz
  clear ht1 hb8 hc0 hc1 hd0 hc2 hd1 hc3 hd2 hc4 hd3 hc5 hd4 hc6 hd5 hc7
    hd6 hc8 hd7 ht2 he8 hf0 hf1 hg0 hf2 hg1 hf3 hg2 hf4 hg3 hf5 hg4 hf6
    hg5 hf7 hg6 hf8 hg7 hbc0 hbc0a hbc1 hbc1a hbc2 hbc2a hbc3 hbc3a hbc4
    hbc4a hbc5 hbc5a hbc6 hbc6a hbc7 hbc7a hbc8 hbf0 hbf0a hbf1 hbf1a hbf2
    hbf2a hbf3 hbf3a hbf4 hbf4a hbf5 hbf5a hbf6 hbf6a hbf7 hbf7a hbf8
  refine ⟨⟨?_, ?_, ?_, ?_, ?_, ?_, ?_, ?_, ?_⟩, ?_, ?_, ?_⟩
  · exact p2d0
  · exact p2d1
  · exact p2d2
  · exact p2d3
  · exact p2d4
  · exact p2d5
  · exact p2d6
  · exact p2d7
  · exact le_trans hf8top (by norm_num)
  · exact hf8top
  · show g0 + 536870912 * g1 + 288230376151711744 * g2 +
      154742504910672534362390528 * g3 +
      83076749736557242056487941267521536 * g4 +
      44601490397061246283071436545296723011960832 * g5 +
      23945242826029513411849172299223580994042798784118784 * g6 +
      12855504354071922204335696738729300820177623950262342682411008 * g7 +
      6901746346790563787434755862277025452451108972170386555162524223799296 * f8 < 57896044618658097711785492504343953926634992332820282019728792003956564819968
    omega
  refine ⟨t1 + t2, by omega, ?_⟩
  show g0 + 536870912 * g1 + 288230376151711744 * g2 +
      154742504910672534362390528 * g3 +
      83076749736557242056487941267521536 * g4 +
      44601490397061246283071436545296723011960832 * g5 +
      23945242826029513411849172299223580994042798784118784 * g6 +
      12855504354071922204335696738729300820177623950262342682411008 * g7 +
      6901746346790563787434755862277025452451108972170386555162524223799296 * f8 + 57896044618658097711785492504343953926634992332820282019728792003956564819949 * (t1 + t2) =
      a.l0 + 536870912 * a.l1 + 288230376151711744 * a.l2 +
      154742504910672534362390528 * a.l3 +
      83076749736557242056487941267521536 * a.l4 +
      44601490397061246283071436545296723011960832 * a.l5 +
      23945242826029513411849172299223580994042798784118784 * a.l6 +
      12855504354071922204335696738729300820177623950262342682411008 * a.l7 +
      6901746346790563787434755862277025452451108972170386555162524223799296 * a.l8
  omega

/-- counterexample input for C3: the prime p itself in 9-limb form -/
def pFe : Fe := ⟨536870893, 536870911, 536870911, 536870911, 536870911,
  536870911, 536870911, 536870911, 8388607⟩

/-- C3 as stated is false: p is a reduced input, a valid representative of
residue 0, and final_modp maps it to itself, so the output value equals p and
does not lie in [0, p) -/
theorem C3_counterexample :
    pFe.Reduced ∧ pFe.val = P25519 ∧ final_modp pFe = pFe ∧
    ¬ ((final_modp pFe).val < P25519) := by
  refine ⟨by decide, by decide, by decide, by decide⟩

/-- witness for the amended C3 at a concrete input above p -/
theorem final_modp_spec_witness :
    (⟨536870894, 536870911, 536870911, 536870911, 536870911, 536870911,
      536870911, 536870911, 8388607⟩ : Fe).Reduced ∧
    ((final_modp ⟨536870894, 536870911, 536870911, 536870911, 536870911,
      536870911, 536870911, 536870911, 8388607⟩).Bnd 536870911 536870911 ∧
     (final_modp ⟨536870894, 536870911, 536870911, 536870911, 536870911,
      536870911, 536870911, 536870911, 8388607⟩).l8 ≤ 8388607 ∧
     (final_modp ⟨536870894, 536870911, 536870911, 536870911, 536870911,
      536870911, 536870911, 536870911, 8388607⟩).val < 57896044618658097711785492504343953926634992332820282019728792003956564819968 ∧
     ∃ k, k ≤ 64 ∧ (final_modp ⟨536870894, 536870911, 536870911, 536870911,
      536870911, 536870911, 536870911, 536870911, 8388607⟩).val + P25519 * k =
      (⟨536870894, 536870911, 536870911, 536870911, 536870911, 536870911,
        536870911, 536870911, 8388607⟩ : Fe).val) :=
  ⟨by decide, final_modp_spec _ (by decide)⟩


/-- modular exponentiation by binary splitting of the exponent, with fuel -/
def powModAux : Nat → Nat → Nat → Nat → Nat
  | 0, _, _, n => 1 % n
  | f + 1, a, e, n =>
      if e = 0 then 1 % n
      else
        let h := powModAux f a (e / 2) n
        let s := h * h % n
        if e % 2 = 1 then s * (a % n) % n else s

/-- modular exponentiation for exponents below 2 ^ 300 -/
def powMod (a e n : Nat) : Nat := powModAux 300 a e n

theorem powModAux_eq : ∀ f a e n, e < 2 ^ f → powModAux f a e n = a ^ e % n := by
  intro f
  induction f with
  | zero =>
      intro a e n he
      have h0 : e = 0 := by
        have h1 : (2:Nat) ^ 0 = 1 := rfl
        omega
      subst h0
      rw [pow_zero]
      rfl
  | succ f ih =>
      intro a e n he
      by_cases h0 : e = 0
      · subst h0
        simp [powModAux]
      · simp only [powModAux, h0, if_false]
        have hlt : e / 2 < 2 ^ f := by
          have h2 : (2:Nat) ^ (f + 1) = 2 ^ f * 2 := by rw [pow_succ]
          omega
        rw [ih a (e / 2) n hlt]
        have hs : a ^ (e / 2) % n * (a ^ (e / 2) % n) % n = a ^ (2 * (e / 2)) % n := by
          rw [← Nat.mul_mod, two_mul, pow_add]
        by_cases h1 : e % 2 = 1
        · rw [if_pos h1, hs, ← Nat.mul_mod, ← pow_succ]
          have h3 : 2 * (e / 2) + 1 = e := by omega
          rw [h3]
        · rw [if_neg h1, hs]
          have h3 : 2 * (e / 2) = e := by omega
          rw [h3]

theorem powMod_eq (a e n : Nat) (he : e < 2 ^ 300) : powMod a e n = a ^ e % n :=
  powModAux_eq 300 a e n he

/-- Lucas primality from an explicit certificate: a witness element and the
full multiset of prime factors of n - 1, with all power checks delegated to
the executable powMod -/
theorem prime_of_lucas_cert (n a : Nat) (qs : List Nat) (h2 : 2 ≤ n)
    (hsz : n < 2 ^ 300)
    (hprod : qs.prod = n - 1)
    (hq : ∀ q ∈ qs, Nat.Prime q)
    (hpow : powMod a (n - 1) n = 1 % n)
    (hne : ∀ q ∈ qs, powMod a ((n - 1) / q) n ≠ 1 % n) : Nat.Prime n := by
  refine lucas_primality n (a : ZMod n) ?_ ?_
  · have h := hpow
    rw [powMod_eq a (n - 1) n (by omega)] at h
    have h2' : ((a ^ (n - 1) : ℕ) : ZMod n) = ((1 : ℕ) : ZMod n) :=
      (ZMod.natCast_eq_natCast_iff _ _ _).mpr h
    push_cast at h2'
    exact h2'
  · intro q hqp hqd hcontra
    have hqmem : q ∈ qs := by
      have hdvd : q ∣ qs.prod := hprod ▸ hqd
      obtain ⟨m, hm, hqm⟩ := (Nat.Prime.prime hqp).dvd_prod_iff.mp hdvd
      have : q = m := ((Nat.prime_dvd_prime_iff_eq hqp (hq m hm)).mp hqm)
      exact this ▸ hm
    apply hne q hqmem
    rw [powMod_eq a ((n - 1) / q) n (lt_of_le_of_lt (Nat.div_le_self _ _) (by omega))]
    have h2' : ((a ^ ((n - 1) / q) : ℕ) : ZMod n) = ((1 : ℕ) : ZMod n) := by
      push_cast
      exact hcontra
    exact (ZMod.natCast_eq_natCast_iff _ _ _).mp h2'


set_option maxRecDepth 1000000 in
/-- Pratt certificate node: 2773320623 is prime, witness 5 -/
theorem prime_c0 : Nat.Prime 2773320623 := by
  refine prime_of_lucas_cert 2773320623 5 [2, 2437, 569003] (by norm_num) (by norm_num) (by decide) ?_ (by decide) (by decide)
  refine List.forall_mem_cons.mpr ⟨by norm_num, ?_⟩
  refine List.forall_mem_cons.mpr ⟨by norm_num, ?_⟩
  refine List.forall_mem_cons.mpr ⟨by norm_num, ?_⟩
  exact List.forall_mem_nil _

set_option maxRecDepth 1000000 in
/-- Pratt certificate node: 72106336199 is prime, witness 7 -/
theorem prime_c1 : Nat.Prime 72106336199 := by
  refine prime_of_lucas_cert 72106336199 7 [2, 13, 2773320623] (by norm_num) (by norm_num) (by decide) ?_ (by decide) (by decide)
  refine List.forall_mem_cons.mpr ⟨by norm_num, ?_⟩
  refine List.forall_mem_cons.mpr ⟨by norm_num, ?_⟩
  refine List.forall_mem_cons.mpr ⟨prime_c0, ?_⟩
  exact List.forall_mem_nil _

set_option maxRecDepth 1000000 in
/-- Pratt certificate node: 1919519569386763 is prime, witness 2 -/
theorem prime_c2 : Nat.Prime 1919519569386763 := by
  refine prime_of_lucas_cert 1919519569386763 2 [2, 3, 7, 19, 47, 47, 127, 8574133] (by norm_num) (by norm_num) (by decide) ?_ (by decide) (by decide)
  refine List.forall_mem_cons.mpr ⟨by norm_num, ?_⟩
  refine List.forall_mem_cons.mpr ⟨by norm_num, ?_⟩
  refine List.forall_mem_cons.mpr ⟨by norm_num, ?_⟩
  refine List.forall_mem_cons.mpr ⟨by norm_num, ?_⟩
  refine List.forall_mem_cons.mpr ⟨by norm_num, ?_⟩
  refine List.forall_mem_cons.mpr ⟨by norm_num, ?_⟩
  refine List.forall_mem_cons.mpr ⟨by norm_num, ?_⟩
  refine List.forall_mem_cons.mpr ⟨by norm_num, ?_⟩
  exact List.forall_mem_nil _

set_option maxRecDepth 1000000 in
/-- Pratt certificate node: 31757755568855353 is prime, witness 10 -/
theorem prime_c3 : Nat.Prime 31757755568855353 := by
  refine prime_of_lucas_cert 31757755568855353 10 [2, 2, 2, 3, 31, 107, 223, 4153, 430751] (by norm_num) (by norm_num) (by decide) ?_ (by decide) (by decide)
  refine List.forall_mem_cons.mpr ⟨by norm_num, ?_⟩
  refine List.forall_mem_cons.mpr ⟨by norm_num, ?_⟩
  refine List.forall_mem_cons.mpr ⟨by norm_num, ?_⟩
  refine List.forall_mem_cons.mpr ⟨by norm_num, ?_⟩
  refine List.forall_mem_cons.mpr ⟨by norm_num, ?_⟩
  refine List.forall_mem_cons.mpr ⟨by norm_num, ?_⟩
  refine List.forall_mem_cons.mpr ⟨by norm_num, ?_⟩
  refine List.forall_mem_cons.mpr ⟨by norm_num, ?_⟩
  refine List.forall_mem_cons.mpr ⟨by norm_num, ?_⟩
  exact List.forall_mem_nil _

set_option maxRecDepth 1000000 in
/-- Pratt certificate node: 75445702479781427272750846543864801 is prime, witness 7 -/
theorem prime_c4 : Nat.Prime 75445702479781427272750846543864801 := by
  refine prime_of_lucas_cert 75445702479781427272750846543864801 7 [2, 2, 2, 2, 2, 3, 3, 5, 5, 75707, 72106336199, 1919519569386763] (by norm_num) (by norm_num) (by decide) ?_ (by decide) (by decide)
  refine List.forall_mem_cons.mpr ⟨by norm_num, ?_⟩
  refine List.forall_mem_cons.mpr ⟨by norm_num, ?_⟩
  refine List.forall_mem_cons.mpr ⟨by norm_num, ?_⟩
  refine List.forall_mem_cons.mpr ⟨by norm_num, ?_⟩
  refine List.forall_mem_cons.mpr ⟨by norm_num, ?_⟩
  refine List.forall_mem_cons.mpr ⟨by norm_num, ?_⟩
  refine List.forall_mem_cons.mpr ⟨by norm_num, ?_⟩
  refine List.forall_mem_cons.mpr ⟨by norm_num, ?_⟩
  refine List.forall_mem_cons.mpr ⟨by norm_num, ?_⟩
  refine List.forall_mem_cons.mpr ⟨by norm_num, ?_⟩
  refine List.forall_mem_cons.mpr ⟨prime_c1, ?_⟩
  refine List.forall_mem_cons.mpr ⟨prime_c2, ?_⟩
  exact List.forall_mem_nil _

set_option maxRecDepth 1000000 in
/-- Pratt certificate node: 74058212732561358302231226437062788676166966415465897661863160754340907 is prime, witness 2 -/
theorem prime_c5 : Nat.Prime 74058212732561358302231226437062788676166966415465897661863160754340907 := by
  refine prime_of_lucas_cert 74058212732561358302231226437062788676166966415465897661863160754340907 2 [2, 3, 353, 57467, 132049, 1923133, 31757755568855353, 75445702479781427272750846543864801] (by norm_num) (by norm_num) (by decide) ?_ (by decide) (by decide)
  refine List.forall_mem_cons.mpr ⟨by norm_num, ?_⟩
  refine List.forall_mem_cons.mpr ⟨by norm_num, ?_⟩
  refine List.forall_mem_cons.mpr ⟨by norm_num, ?_⟩
  refine List.forall_mem_cons.mpr ⟨by norm_num, ?_⟩
  refine List.forall_mem_cons.mpr ⟨by norm_num, ?_⟩
  refine List.forall_mem_cons.mpr ⟨by norm_num, ?_⟩
  refine List.forall_mem_cons.mpr ⟨prime_c3, ?_⟩
  refine List.forall_mem_cons.mpr ⟨prime_c4, ?_⟩
  exact List.forall_mem_nil _

set_option maxRecDepth 1000000 in
/-- Pratt certificate node: p = 2^255 - 19 is prime, witness 2 -/
theorem p25519_prime : Nat.Prime 57896044618658097711785492504343953926634992332820282019728792003956564819949 := by
  refine prime_of_lucas_cert 57896044618658097711785492504343953926634992332820282019728792003956564819949 2 [2, 2, 3, 65147, 74058212732561358302231226437062788676166966415465897661863160754340907] (by norm_num) (by norm_num) (by decide) ?_ (by decide) (by decide)
  refine List.forall_mem_cons.mpr ⟨by norm_num, ?_⟩
  refine List.forall_mem_cons.mpr ⟨by norm_num, ?_⟩
  refine List.forall_mem_cons.mpr ⟨by norm_num, ?_⟩
  refine List.forall_mem_cons.mpr ⟨by norm_num, ?_⟩
  refine List.forall_mem_cons.mpr ⟨prime_c5, ?_⟩
  exact List.forall_mem_nil _


/-! ## Monotone bound lemmas and exactness lemmas for the lane primitives,
used by the generated per-operation bound and congruence proofs -/

theorem wmul_le2 {x y bx bq B : Nat} (hx : x ≤ bx) (hy : y ≤ bq)
    (h : bx * bq ≤ B) : wmul x y ≤ B := by
  unfold wmul
  have h1 : x % 4294967296 ≤ bx := le_trans (Nat.mod_le _ _) hx
  have h2 : y % 4294967296 ≤ bq := le_trans (Nat.mod_le _ _) hy
  exact le_trans (Nat.mul_le_mul h1 h2) h

theorem wmac_le2 {z x y bz bx bq B : Nat} (hz : z ≤ bz) (hx : x ≤ bx)
    (hy : y ≤ bq) (h : bz + bx * bq ≤ B) : wmac z x y ≤ B := by
  unfold wmac wadd
  exact le_trans (Nat.mod_le _ _)
    (le_trans (Nat.add_le_add hz (wmul_le2 hx hy (le_refl _))) h)

theorem wadd_le3 {x y bx bq B : Nat} (hx : x ≤ bx) (hy : y ≤ bq)
    (h : bx + bq ≤ B) : wadd x y ≤ B := by
  unfold wadd
  exact le_trans (Nat.mod_le _ _) (le_trans (Nat.add_le_add hx hy) h)

theorem wshr29_le3 {y bz B : Nat} (hy : y ≤ bz) (h : bz / 536870912 ≤ B) :
    wshr y BITS29 ≤ B := by
  rw [wshr29_div]
  exact le_trans (Nat.div_le_div_right hy) h

theorem wcarry_le3 {x y bx bz B : Nat} (hx : x ≤ bx) (hy : y ≤ bz)
    (h : bx + bz / 536870912 ≤ B) : wadd x (wshr y BITS29) ≤ B := by
  unfold wadd
  refine le_trans (Nat.mod_le _ _) (le_trans (Nat.add_le_add hx ?_) h)
  rw [wshr29_div]
  exact Nat.div_le_div_right hy

theorem wmacC_le3 {z x bz bx B : Nat} (hz : z ≤ bz) (hx : x ≤ bx)
    (h : bz + bx * 1216 ≤ B) : wmac z x CONSTC ≤ B :=
  wmac_le2 hz hx (show CONSTC ≤ 1216 from le_refl _) h

theorem waddmulC_le3 {x r bx br B : Nat} (hx : x ≤ bx) (hr : r ≤ br)
    (h : bx + br * 1216 ≤ B) : wadd x (wmul r CONSTC) ≤ B := by
  unfold wadd
  refine le_trans (Nat.mod_le _ _)
    (le_trans (Nat.add_le_add hx (wmul_le2 hr (show CONSTC ≤ 1216 from le_refl _) (le_refl _))) h)

theorem wshl1_le3 {z bz B : Nat} (hz : z ≤ bz) (h : 2 * bz ≤ B) :
    wshl z 1 ≤ B := by
  unfold wshl
  rw [Nat.shiftLeft_eq]
  refine le_trans (Nat.mod_le _ _) (le_trans ?_ h)
  omega

theorem waddshl1_le3 {x y bx bz B : Nat} (hx : x ≤ bx) (hy : y ≤ bz)
    (h : bx + 2 * bz ≤ B) : wadd x (wshl y 1) ≤ B := by
  unfold wadd
  refine le_trans (Nat.mod_le _ _) (le_trans (Nat.add_le_add hx (wshl1_le3 hy (le_refl _))) h)

theorem wmul_eq3 {x y bx bq : Nat} (hx : x ≤ bx) (hy : y ≤ bq)
    (h32x : bx ≤ 4294967295) (h32y : bq ≤ 4294967295) : wmul x y = x * y :=
  wmul_eq (by omega) (by omega)

theorem wmac_eq3 {z x y bz bx bq : Nat} (hz : z ≤ bz) (hx : x ≤ bx)
    (hy : y ≤ bq) (h32x : bx ≤ 4294967295) (h32y : bq ≤ 4294967295)
    (hW : bz + bx * bq < 18446744073709551616) : wmac z x y = z + x * y := by
  have hp : x * y ≤ bx * bq := Nat.mul_le_mul hx hy
  exact wmac_eq (by omega) (by omega) (by unfold W; omega)

theorem wcarry_eq3 {x y bx bz : Nat} (hx : x ≤ bx) (hy : y ≤ bz)
    (hW : bx + bz / 536870912 < 18446744073709551616) :
    wadd x (wshr y BITS29) = x + y / 536870912 := by
  have hd : y / 536870912 ≤ bz / 536870912 := Nat.div_le_div_right hy
  rw [show wshr y BITS29 = y / 536870912 from wshr29_div y]
  exact wadd_eq (by unfold W; omega)

theorem wmacC_eq3 {z x bz bx : Nat} (hz : z ≤ bz) (hx : x ≤ bx)
    (h32 : bx ≤ 4294967295) (hW : bz + bx * 1216 < 18446744073709551616) :
    wmac z x CONSTC = z + x * 1216 :=
  wmac_eq3 hz hx (show CONSTC ≤ 1216 from le_refl _) h32 (by norm_num) hW

theorem waddmulC_eq3 {x r bx br : Nat} (hx : x ≤ bx) (hr : r ≤ br)
    (h32 : br ≤ 4294967295) (hW : bx + br * 1216 < 18446744073709551616) :
    wadd x (wmul r CONSTC) = x + r * 1216 := by
  have hm : wmul r CONSTC = r * 1216 := wmul_eq (by omega) (by norm_num [CONSTC])
  have hp : r * 1216 ≤ br * 1216 := Nat.mul_le_mul_right 1216 hr
  rw [hm]
  exact wadd_eq (by unfold W; omega)

theorem wshl1_eq3 {z bz : Nat} (hz : z ≤ bz)
    (hW : 2 * bz < 18446744073709551616) : wshl z 1 = 2 * z := by
  unfold wshl
  rw [Nat.shiftLeft_eq]
  have : z * 2 ^ 1 = 2 * z := by ring
  rw [this]
  exact Nat.mod_eq_of_lt (by unfold W at *; omega)

theorem waddshl1_eq3 {x y bx bz : Nat} (hx : x ≤ bx) (hy : y ≤ bz)
    (hW : bx + 2 * bz < 18446744073709551616) :
    wadd x (wshl y 1) = x + 2 * y := by
  rw [wshl1_eq3 hy (by omega)]
  exact wadd_eq (by unfold W; omega)

theorem wsub_pat1 {x y : Nat} (hx : x ≤ 9223372036854775807)
    (hy : y ≤ 1073739392 + x) :
    wadd (2 * LSWP29) (wsub x y) = 1073739392 + x - y := by
  have h1 : (2 : Nat) * LSWP29 = 1073739392 := rfl
  rw [h1]
  exact wadd_wsub_eq (by unfold W; omega) (by unfold W; omega) hy (by unfold W; omega)

theorem wsub_pat2 {x y : Nat} (hx : x ≤ 9223372036854775807)
    (hy : y ≤ 1073741822 + x) :
    wadd (2 * MASK29) (wsub x y) = 1073741822 + x - y := by
  have h1 : (2 : Nat) * MASK29 = 1073741822 := rfl
  rw [h1]
  exact wadd_wsub_eq (by unfold W; omega) (by unfold W; omega) hy (by unfold W; omega)


theorem mask_shr_recomb (z : Nat) :
    wand z MASK29 + 536870912 * wshr z BITS29 = z := by
  rw [wand_mask29, wshr29_div]; omega

theorem wcarry_mask_eq {t z bt bz : Nat} (ht : t ≤ bt) (hz : z ≤ bz)
    (hW : bt + bz / 536870912 < 18446744073709551616) :
    536870912 * wadd t (wshr z BITS29) + wand z MASK29 = 536870912 * t + z := by
  rw [wcarry_eq3 ht hz hW, wand_mask29]; omega


theorem sqr_spec_F (a : Fe) (ha : a.Bnd 538360511 536870911) :
    (mpi29_gfp_sqr_avx2 a).Bnd 538360511 536870911 ∧
      ∃ kq, (mpi29_gfp_sqr_avx2 a).val + 3705346855594118253554271520278013051304639509300498049262642688253220148476736 * kq = a.val * a.val := by
  obtain ⟨ha0, ha1, ha2, ha3, ha4, ha5, ha6, ha7, ha8⟩ := ha
  suffices h : ∀ o : Fe, o = mpi29_gfp_sqr_avx2 a →
      o.Bnd 538360511 536870911 ∧ ∃ kq, o.val + 3705346855594118253554271520278013051304639509300498049262642688253220148476736 * kq = a.val * a.val from h _ rfl
  intro o ho
  rw [mpi29_gfp_sqr_avx2.eq_def] at ho
  lift_lets at ho
  extract_lets v0 v1 v2 v3 v4 v5 v6 v7 v8 v9 v10 v11 v12 v13 v14 v15 v16 v17 v18 v19 v20 v21 v22 v23 v24 v25 v26 v27 v28 v29 v30 v31 v32 v33 v34 v35 v36 v37 v38 v39 v40 v41 v42 v43 v44 v45 v46 v47 v48 v49 v50 v51 v52 v53 v54 v55 v56 v57 v58 v59 v60 v61 v62 v63 v64 v65 v66 v67 v68 v69 v70 v71 v72 v73 v74 v75 v76 v77 v78 v79 v80 v81 v82 v83 v84 v85 v86 v87 v88 v89 v90 v91 v92 v93 v94 v95 v96 v97 v98 v99 v100 v101 v102 v103 v104 v105 v106 at ho
  have h0 : v0 ≤ 289832039804181121 := wmul_le2 ha0 ha0 (by decide)
  have h1 : v1 ≤ 289030097986995521 := wmul_le2 ha0 ha1 (by decide)
  have h2 : v2 ≤ 578060195973991042 := wshl1_le3 h1 (by decide)
  have h3 : v3 ≤ 289030097986995521 := wmul_le2 ha0 ha2 (by decide)
  have h4 : v4 ≤ 578060195973991042 := wshl1_le3 h3 (by decide)
  have h5 : v5 ≤ 866290571051960963 := wmac_le2 h4 ha1 ha1 (by decide)
  have h6 : v6 ≤ 289030097986995521 := wmul_le2 ha0 ha3 (by decide)
  have h7 : v7 ≤ 577260473064965442 := wmac_le2 h6 ha1 ha2 (by decide)
  have h8 : v8 ≤ 1154520946129930884 := wshl1_le3 h7 (by decide)
  have h9 : v9 ≤ 289030097986995521 := wmul_le2 ha0 ha4 (by decide)
  have h10 : v10 ≤ 577260473064965442 := wmac_le2 h9 ha1 ha3 (by decide)
  have h11 : v11 ≤ 1154520946129930884 := wshl1_le3 h10 (by decide)
  have h12 : v12 ≤ 1442751321207900805 := wmac_le2 h11 ha2 ha2 (by decide)
  have h13 : v13 ≤ 289030097986995521 := wmul_le2 ha0 ha5 (by decide)
  have h14 : v14 ≤ 577260473064965442 := wmac_le2 h13 ha1 ha4 (by decide)
  have h15 : v15 ≤ 865490848142935363 := wmac_le2 h14 ha2 ha3 (by decide)
  have h16 : v16 ≤ 1730981696285870726 := wshl1_le3 h15 (by decide)
  have h17 : v17 ≤ 289030097986995521 := wmul_le2 ha0 ha6 (by decide)
  have h18 : v18 ≤ 577260473064965442 := wmac_le2 h17 ha1 ha5 (by decide)
  have h19 : v19 ≤ 865490848142935363 := wmac_le2 h18 ha2 ha4 (by decide)
  have h20 : v20 ≤ 1730981696285870726 := wshl1_le3 h19 (by decide)
  have h21 : v21 ≤ 2019212071363840647 := wmac_le2 h20 ha3 ha3 (by decide)
  have h22 : v22 ≤ 289030097986995521 := wmul_le2 ha0 ha7 (by decide)
  have h23 : v23 ≤ 577260473064965442 := wmac_le2 h22 ha1 ha6 (by decide)
  have h24 : v24 ≤ 865490848142935363 := wmac_le2 h23 ha2 ha5 (by decide)
  have h25 : v25 ≤ 1153721223220905284 := wmac_le2 h24 ha3 ha4 (by decide)
  have h26 : v26 ≤ 2307442446441810568 := wshl1_le3 h25 (by decide)
  have h27 : v27 ≤ 289030097986995521 := wmul_le2 ha0 ha8 (by decide)
  have h28 : v28 ≤ 577260473064965442 := wmac_le2 h27 ha1 ha7 (by decide)
  have h29 : v29 ≤ 865490848142935363 := wmac_le2 h28 ha2 ha6 (by decide)
  have h30 : v30 ≤ 1153721223220905284 := wmac_le2 h29 ha3 ha5 (by decide)
  have h31 : v31 ≤ 2307442446441810568 := wshl1_le3 h30 (by decide)
  have h32 : v32 ≤ 2595672821519780489 := wmac_le2 h31 ha4 ha4 (by decide)
  have h33 : v33 ≤ 4834817389 := wshr29_le3 h32 (by decide)
  have h34 : v34 ≤ 536870911 := wand_lt_mask29 _
  have h35 : v35 ≤ 288230375077969921 := wmul_le2 ha1 ha8 (by decide)
  have h36 : v36 ≤ 576460750155939842 := wmac_le2 h35 ha2 ha7 (by decide)
  have h37 : v37 ≤ 864691125233909763 := wmac_le2 h36 ha3 ha6 (by decide)
  have h38 : v38 ≤ 1152921500311879684 := wmac_le2 h37 ha4 ha5 (by decide)
  have h39 : v39 ≤ 2305843005458576757 := waddshl1_le3 h33 h38 (by decide)
  have h40 : v40 ≤ 536870911 := wand_lt_mask29 _
  have h41 : v41 ≤ 4294967289 := wshr29_le3 h39 (by decide)
  have h42 : v42 ≤ 288230375077969921 := wmul_le2 ha2 ha8 (by decide)
  have h43 : v43 ≤ 576460750155939842 := wmac_le2 h42 ha3 ha7 (by decide)
  have h44 : v44 ≤ 864691125233909763 := wmac_le2 h43 ha4 ha6 (by decide)
  have h45 : v45 ≤ 1729382254762786815 := waddshl1_le3 h41 h44 (by decide)
  have h46 : v46 ≤ 2017612629840756736 := wmac_le2 h45 ha5 ha5 (by decide)
  have h47 : v47 ≤ 536870911 := wand_lt_mask29 _
  have h48 : v48 ≤ 3758096378 := wshr29_le3 h46 (by decide)
  have h49 : v49 ≤ 288230375077969921 := wmul_le2 ha3 ha8 (by decide)
  have h50 : v50 ≤ 576460750155939842 := wmac_le2 h49 ha4 ha7 (by decide)
  have h51 : v51 ≤ 864691125233909763 := wmac_le2 h50 ha5 ha6 (by decide)
  have h52 : v52 ≤ 1729382254225915904 := waddshl1_le3 h48 h51 (by decide)
  have h53 : v53 ≤ 536870911 := wand_lt_mask29 _
  have h54 : v54 ≤ 3221225467 := wshr29_le3 h52 (by decide)
  have h55 : v55 ≤ 288230375077969921 := wmul_le2 ha4 ha8 (by decide)
  have h56 : v56 ≤ 576460750155939842 := wmac_le2 h55 ha5 ha7 (by decide)
  have h57 : v57 ≤ 1152921503533105151 := waddshl1_le3 h54 h56 (by decide)
  have h58 : v58 ≤ 1441151878611075072 := wmac_le2 h57 ha6 ha6 (by decide)
  have h59 : v59 ≤ 536870911 := wand_lt_mask29 _
  have h60 : v60 ≤ 2684354556 := wshr29_le3 h58 (by decide)
  have h61 : v61 ≤ 288230375077969921 := wmul_le2 ha5 ha8 (by decide)
  have h62 : v62 ≤ 576460750155939842 := wmac_le2 h61 ha6 ha7 (by decide)
  have h63 : v63 ≤ 1152921502996234240 := waddshl1_le3 h60 h62 (by decide)
  have h64 : v64 ≤ 536870911 := wand_lt_mask29 _
  have h65 : v65 ≤ 2147483645 := wshr29_le3 h63 (by decide)
  have h66 : v66 ≤ 288230375077969921 := wmul_le2 ha6 ha8 (by decide)
  have h67 : v67 ≤ 576460752303423487 := waddshl1_le3 h65 h66 (by decide)
  have h68 : v68 ≤ 864691127381393408 := wmac_le2 h67 ha7 ha7 (by decide)
  have h69 : v69 ≤ 536870911 := wand_lt_mask29 _
  have h70 : v70 ≤ 1610612734 := wshr29_le3 h68 (by decide)
  have h71 : v71 ≤ 288230375077969921 := wmul_le2 ha7 ha8 (by decide)
  have h72 : v72 ≤ 576460751766552576 := waddshl1_le3 h70 h71 (by decide)
  have h73 : v73 ≤ 536870911 := wand_lt_mask29 _
  have h74 : v74 ≤ 1073741823 := wshr29_le3 h72 (by decide)
  have h75 : v75 ≤ 288230376151711744 := wmac_le2 h74 ha8 ha8 (by decide)
  have h76 : v76 ≤ 536870911 := wand_lt_mask29 _
  have h77 : v77 ≤ 536870912 := wshr29_le3 h75 (by decide)
  have h78 : v78 ≤ 536870912 := h77
  have h79 : v79 ≤ 289832692639208897 := waddmulC_le3 h0 h40 (by decide)
  have h80 : v80 ≤ 536870911 := wand_lt_mask29 _
  have h81 : v81 ≤ 578060196513846501 := wcarry_le3 h2 h79 (by decide)
  have h82 : v82 ≤ 578060849348874277 := wmacC_le3 h81 h47 (by decide)
  have h83 : v83 ≤ 536870911 := wand_lt_mask29 _
  have h84 : v84 ≤ 866290572128683200 := wcarry_le3 h5 h82 (by decide)
  have h85 : v85 ≤ 866291224963710976 := wmacC_le3 h84 h53 (by decide)
  have h86 : v86 ≤ 536870911 := wand_lt_mask29 _
  have h87 : v87 ≤ 1154520947743524032 := wcarry_le3 h8 h85 (by decide)
  have h88 : v88 ≤ 1154521600578551808 := wmacC_le3 h87 h59 (by decide)
  have h89 : v89 ≤ 536870911 := wand_lt_mask29 _
  have h90 : v90 ≤ 1442751323358364864 := wcarry_le3 h12 h88 (by decide)
  have h91 : v91 ≤ 1442751976193392640 := wmacC_le3 h90 h64 (by decide)
  have h92 : v92 ≤ 536870911 := wand_lt_mask29 _
  have h93 : v93 ≤ 1730981698973205696 := wcarry_le3 h16 h91 (by decide)
  have h94 : v94 ≤ 1730982351808233472 := wmacC_le3 h93 h69 (by decide)
  have h95 : v95 ≤ 536870911 := wand_lt_mask29 _
  have h96 : v96 ≤ 2019212074588046528 := wcarry_le3 h21 h94 (by decide)
  have h97 : v97 ≤ 2019212727423074304 := wmacC_le3 h96 h73 (by decide)
  have h98 : v98 ≤ 536870911 := wand_lt_mask29 _
  have h99 : v99 ≤ 2307442450202887360 := wcarry_le3 h26 h97 (by decide)
  have h100 : v100 ≤ 2307443103037915136 := wmacC_le3 h99 h76 (by decide)
  have h101 : v101 ≤ 536870911 := wand_lt_mask29 _
  have h102 : v102 ≤ 4834818614 := wcarry_le3 h34 h100 (by decide)
  have h103 : v103 ≤ 657669847606 := wmacC_le3 h102 h78 (by decide)
  have h104 : v104 ≤ 536870911 := wand_lt_mask29 _
  have h105 : v105 ≤ 1225 := wshr29_le3 h103 (by decide)
  have h106 : v106 ≤ 538360511 := waddmulC_le3 h80 h105 (by decide)
  have e0 : v0 = a.l0 * a.l0 := wmul_eq3 ha0 ha0 (by decide) (by decide)
  have e1 : v1 = a.l0 * a.l1 := wmul_eq3 ha0 ha1 (by decide) (by decide)
  have e2 : v2 = 2 * v1 := wshl1_eq3 h1 (by decide)
  have e3 : v3 = a.l0 * a.l2 := wmul_eq3 ha0 ha2 (by decide) (by decide)
  have e4 : v4 = 2 * v3 := wshl1_eq3 h3 (by decide)
  have e5 : v5 = v4 + a.l1 * a.l1 := wmac_eq3 h4 ha1 ha1 (by decide) (by decide) (by decide)
  have e6 : v6 = a.l0 * a.l3 := wmul_eq3 ha0 ha3 (by decide) (by decide)
  have e7 : v7 = v6 + a.l1 * a.l2 := wmac_eq3 h6 ha1 ha2 (by decide) (by decide) (by decide)
  have e8 : v8 = 2 * v7 := wshl1_eq3 h7 (by decide)
  have e9 : v9 = a.l0 * a.l4 := wmul_eq3 ha0 ha4 (by decide) (by decide)
  have e10 : v10 = v9 + a.l1 * a.l3 := wmac_eq3 h9 ha1 ha3 (by decide) (by decide) (by decide)
  have e11 : v11 = 2 * v10 := wshl1_eq3 h10 (by decide)
  have e12 : v12 = v11 + a.l2 * a.l2 := wmac_eq3 h11 ha2 ha2 (by decide) (by decide) (by decide)
  have e13 : v13 = a.l0 * a.l5 := wmul_eq3 ha0 ha5 (by decide) (by decide)
  have e14 : v14 = v13 + a.l1 * a.l4 := wmac_eq3 h13 ha1 ha4 (by decide) (by decide) (by decide)
  have e15 : v15 = v14 + a.l2 * a.l3 := wmac_eq3 h14 ha2 ha3 (by decide) (by decide) (by decide)
  have e16 : v16 = 2 * v15 := wshl1_eq3 h15 (by decide)
  have e17 : v17 = a.l0 * a.l6 := wmul_eq3 ha0 ha6 (by decide) (by decide)
  have e18 : v18 = v17 + a.l1 * a.l5 := wmac_eq3 h17 ha1 ha5 (by decide) (by decide) (by decide)
  have e19 : v19 = v18 + a.l2 * a.l4 := wmac_eq3 h18 ha2 ha4 (by decide) (by decide) (by decide)
  have e20 : v20 = 2 * v19 := wshl1_eq3 h19 (by decide)
  have e21 : v21 = v20 + a.l3 * a.l3 := wmac_eq3 h20 ha3 ha3 (by decide) (by decide) (by decide)
  have e22 : v22 = a.l0 * a.l7 := wmul_eq3 ha0 ha7 (by decide) (by decide)
  have e23 : v23 = v22 + a.l1 * a.l6 := wmac_eq3 h22 ha1 ha6 (by decide) (by decide) (by decide)
  have e24 : v24 = v23 + a.l2 * a.l5 := wmac_eq3 h23 ha2 ha5 (by decide) (by decide) (by decide)
  have e25 : v25 = v24 + a.l3 * a.l4 := wmac_eq3 h24 ha3 ha4 (by decide) (by decide) (by decide)
  have e26 : v26 = 2 * v25 := wshl1_eq3 h25 (by decide)
  have e27 : v27 = a.l0 * a.l8 := wmul_eq3 ha0 ha8 (by decide) (by decide)
  have e28 : v28 = v27 + a.l1 * a.l7 := wmac_eq3 h27 ha1 ha7 (by decide) (by decide) (by decide)
  have e29 : v29 = v28 + a.l2 * a.l6 := wmac_eq3 h28 ha2 ha6 (by decide) (by decide) (by decide)
  have e30 : v30 = v29 + a.l3 * a.l5 := wmac_eq3 h29 ha3 ha5 (by decide) (by decide) (by decide)
  have e31 : v31 = 2 * v30 := wshl1_eq3 h30 (by decide)
  have e32 : v32 = v31 + a.l4 * a.l4 := wmac_eq3 h31 ha4 ha4 (by decide) (by decide) (by decide)
  have e34 : v34 + 536870912 * v33 = v32 := mask_shr_recomb v32
  have e35 : v35 = a.l1 * a.l8 := wmul_eq3 ha1 ha8 (by decide) (by decide)
  have e36 : v36 = v35 + a.l2 * a.l7 := wmac_eq3 h35 ha2 ha7 (by decide) (by decide) (by decide)
  have e37 : v37 = v36 + a.l3 * a.l6 := wmac_eq3 h36 ha3 ha6 (by decide) (by decide) (by decide)
  have e38 : v38 = v37 + a.l4 * a.l5 := wmac_eq3 h37 ha4 ha5 (by decide) (by decide) (by decide)
  have e39 : v39 = v33 + 2 * v38 := waddshl1_eq3 h33 h38 (by decide)
  have e41 : v40 + 536870912 * v41 = v39 := mask_shr_recomb v39
  have e42 : v42 = a.l2 * a.l8 := wmul_eq3 ha2 ha8 (by decide) (by decide)
  have e43 : v43 = v42 + a.l3 * a.l7 := wmac_eq3 h42 ha3 ha7 (by decide) (by decide) (by decide)
  have e44 : v44 = v43 + a.l4 * a.l6 := wmac_eq3 h43 ha4 ha6 (by decide) (by decide) (by decide)
  have e45 : v45 = v41 + 2 * v44 := waddshl1_eq3 h41 h44 (by decide)
  have e46 : v46 = v45 + a.l5 * a.l5 := wmac_eq3 h45 ha5 ha5 (by decide) (by decide) (by decide)
  have e48 : v47 + 536870912 * v48 = v46 := mask_shr_recomb v46
  have e49 : v49 = a.l3 * a.l8 := wmul_eq3 ha3 ha8 (by decide) (by decide)
  have e50 : v50 = v49 + a.l4 * a.l7 := wmac_eq3 h49 ha4 ha7 (by decide) (by decide) (by decide)
  have e51 : v51 = v50 + a.l5 * a.l6 := wmac_eq3 h50 ha5 ha6 (by decide) (by decide) (by decide)
  have e52 : v52 = v48 + 2 * v51 := waddshl1_eq3 h48 h51 (by decide)
  have e54 : v53 + 536870912 * v54 = v52 := mask_shr_recomb v52
  have e55 : v55 = a.l4 * a.l8 := wmul_eq3 ha4 ha8 (by decide) (by decide)
  have e56 : v56 = v55 + a.l5 * a.l7 := wmac_eq3 h55 ha5 ha7 (by decide) (by decide) (by decide)
  have e57 : v57 = v54 + 2 * v56 := waddshl1_eq3 h54 h56 (by decide)
  have e58 : v58 = v57 + a.l6 * a.l6 := wmac_eq3 h57 ha6 ha6 (by decide) (by decide) (by decide)
  have e60 : v59 + 536870912 * v60 = v58 := mask_shr_recomb v58
  have e61 : v61 = a.l5 * a.l8 := wmul_eq3 ha5 ha8 (by decide) (by decide)
  have e62 : v62 = v61 + a.l6 * a.l7 := wmac_eq3 h61 ha6 ha7 (by decide) (by decide) (by decide)
  have e63 : v63 = v60 + 2 * v62 := waddshl1_eq3 h60 h62 (by decide)
  have e65 : v64 + 536870912 * v65 = v63 := mask_shr_recomb v63
  have e66 : v66 = a.l6 * a.l8 := wmul_eq3 ha6 ha8 (by decide) (by decide)
  have e67 : v67 = v65 + 2 * v66 := waddshl1_eq3 h65 h66 (by decide)
  have e68 : v68 = v67 + a.l7 * a.l7 := wmac_eq3 h67 ha7 ha7 (by decide) (by decide) (by decide)
  have e70 : v69 + 536870912 * v70 = v68 := mask_shr_recomb v68
  have e71 : v71 = a.l7 * a.l8 := wmul_eq3 ha7 ha8 (by decide) (by decide)
  have e72 : v72 = v70 + 2 * v71 := waddshl1_eq3 h70 h71 (by decide)
  have e74 : v73 + 536870912 * v74 = v72 := mask_shr_recomb v72
  have e75 : v75 = v74 + a.l8 * a.l8 := wmac_eq3 h74 ha8 ha8 (by decide) (by decide) (by decide)
  have e77 : v76 + 536870912 * v77 = v75 := mask_shr_recomb v75
  have e78 : v78 = v77 := rfl
  have e79 : v79 = v0 + v40 * 1216 := waddmulC_eq3 h0 h40 (by decide) (by decide)
  have e81 : 536870912 * v81 + v80 = 536870912 * v2 + v79 := wcarry_mask_eq h2 h79 (by decide)
  have e82 : v82 = v81 + v47 * 1216 := wmacC_eq3 h81 h47 (by decide) (by decide)
  have e84 : 536870912 * v84 + v83 = 536870912 * v5 + v82 := wcarry_mask_eq h5 h82 (by decide)
  have e85 : v85 = v84 + v53 * 1216 := wmacC_eq3 h84 h53 (by decide) (by decide)
  have e87 : 536870912 * v87 + v86 = 536870912 * v8 + v85 := wcarry_mask_eq h8 h85 (by decide)
  have e88 : v88 = v87 + v59 * 1216 := wmacC_eq3 h87 h59 (by decide) (by decide)
  have e90 : 536870912 * v90 + v89 = 536870912 * v12 + v88 := wcarry_mask_eq h12 h88 (by decide)
  have e91 : v91 = v90 + v64 * 1216 := wmacC_eq3 h90 h64 (by decide) (by decide)
  have e93 : 536870912 * v93 + v92 = 536870912 * v16 + v91 := wcarry_mask_eq h16 h91 (by decide)
  have e94 : v94 = v93 + v69 * 1216 := wmacC_eq3 h93 h69 (by decide) (by decide)
  have e96 : 536870912 * v96 + v95 = 536870912 * v21 + v94 := wcarry_mask_eq h21 h94 (by decide)
  have e97 : v97 = v96 + v73 * 1216 := wmacC_eq3 h96 h73 (by decide) (by decide)
  have e99 : 536870912 * v99 + v98 = 536870912 * v26 + v97 := wcarry_mask_eq h26 h97 (by decide)
  have e100 : v100 = v99 + v76 * 1216 := wmacC_eq3 h99 h76 (by decide) (by decide)
  have e102 : 536870912 * v102 + v101 = 536870912 * v34 + v100 := wcarry_mask_eq h34 h100 (by decide)
  have e103 : v103 = v102 + v78 * 1216 := wmacC_eq3 h102 h78 (by decide) (by decide)
  have e105 : v104 + 536870912 * v105 = v103 := mask_shr_recomb v103
  have e106 : v106 = v80 + v105 * 1216 := waddmulC_eq3 h80 h105 (by decide) (by decide)
  subst ho
  refine ⟨⟨le_trans h106 (by decide), le_trans h83 (by decide), le_trans h86 (by decide), le_trans h89 (by decide), le_trans h92 (by decide), le_trans h95 (by decide), le_trans h98 (by decide), le_trans h101 (by decide), le_trans h104 (by decide)⟩, ⟨v40 + 536870912 * v47 + 288230376151711744 * v53 + 154742504910672534362390528 * v59 + 83076749736557242056487941267521536 * v64 + 44601490397061246283071436545296723011960832 * v69 + 23945242826029513411849172299223580994042798784118784 * v73 + 12855504354071922204335696738729300820177623950262342682411008 * v76 + 6901746346790563787434755862277025452451108972170386555162524223799296 * v78 + v105, ?_⟩⟩
  have hA : a.val = a.l0 + 536870912 * a.l1 + 288230376151711744 * a.l2 + 154742504910672534362390528 * a.l3 + 83076749736557242056487941267521536 * a.l4 + 44601490397061246283071436545296723011960832 * a.l5 + 23945242826029513411849172299223580994042798784118784 * a.l6 + 12855504354071922204335696738729300820177623950262342682411008 * a.l7 + 6901746346790563787434755862277025452451108972170386555162524223799296 * a.l8 := rfl
  have hcols : (a.l0 + 536870912 * a.l1 + 288230376151711744 * a.l2 + 154742504910672534362390528 * a.l3 + 83076749736557242056487941267521536 * a.l4 + 44601490397061246283071436545296723011960832 * a.l5 + 23945242826029513411849172299223580994042798784118784 * a.l6 + 12855504354071922204335696738729300820177623950262342682411008 * a.l7 + 6901746346790563787434755862277025452451108972170386555162524223799296 * a.l8) * (a.l0 + 536870912 * a.l1 + 288230376151711744 * a.l2 + 154742504910672534362390528 * a.l3 + 83076749736557242056487941267521536 * a.l4 + 44601490397061246283071436545296723011960832 * a.l5 + 23945242826029513411849172299223580994042798784118784 * a.l6 + 12855504354071922204335696738729300820177623950262342682411008 * a.l7 + 6901746346790563787434755862277025452451108972170386555162524223799296 * a.l8) = (a.l0 * a.l0) + 536870912 * (2 * (a.l0 * a.l1)) + 288230376151711744 * (2 * (a.l0 * a.l2) + a.l1 * a.l1) + 154742504910672534362390528 * (2 * (a.l0 * a.l3) + 2 * (a.l1 * a.l2)) + 83076749736557242056487941267521536 * (2 * (a.l0 * a.l4) + 2 * (a.l1 * a.l3) + a.l2 * a.l2) + 44601490397061246283071436545296723011960832 * (2 * (a.l0 * a.l5) + 2 * (a.l1 * a.l4) + 2 * (a.l2 * a.l3)) + 23945242826029513411849172299223580994042798784118784 * (2 * (a.l0 * a.l6) + 2 * (a.l1 * a.l5) + 2 * (a.l2 * a.l4) + a.l3 * a.l3) + 12855504354071922204335696738729300820177623950262342682411008 * (2 * (a.l0 * a.l7) + 2 * (a.l1 * a.l6) + 2 * (a.l2 * a.l5) + 2 * (a.l3 * a.l4)) + 6901746346790563787434755862277025452451108972170386555162524223799296 * (2 * (a.l0 * a.l8) + 2 * (a.l1 * a.l7) + 2 * (a.l2 * a.l6) + 2 * (a.l3 * a.l5) + a.l4 * a.l4) + 3705346855594118253554271520278013051304639509300498049262642688253220148477952 * (2 * (a.l1 * a.l8) + 2 * (a.l2 * a.l7) + 2 * (a.l3 * a.l6) + 2 * (a.l4 * a.l5)) + 1989292945639146568621528992587283360401824603189390869761855907572637988050133502132224 * (2 * (a.l2 * a.l8) + 2 * (a.l3 * a.l7) + 2 * (a.l4 * a.l6) + a.l5 * a.l5) + 1067993517960455041197510853084776057301352261178326384973520803911109862890320275011481043468288 * (2 * (a.l3 * a.l8) + 2 * (a.l4 * a.l7) + 2 * (a.l5 * a.l6)) + 573374653997517877902705223825521735199141247292070280934397209846730719022121202017504638277531421638656 * (2 * (a.l4 * a.l8) + 2 * (a.l5 * a.l7) + a.l6 * a.l6) + 307828173409331868845930000782371982852185463050511302093346042220669701339821957901673955116288403443801781174272 * (2 * (a.l5 * a.l8) + 2 * (a.l6 * a.l7)) + 165263992197562149737978827008192759957101170741070304821162198818601447809077836456297302609928821211897803006255839576064 * (2 * (a.l6 * a.l8) + a.l7 * a.l7) + 88725430211866075506509253892578678509965986412026130405455346579667881849780019937279180995332466499116518750764914298527173050368 * (2 * (a.l7 * a.l8)) + 47634102635436893179040485073748265163400240214004076398607741693502376385799646303105256699577209032590132615988260237052123652332890095616 * (a.l8 * a.l8) := by ring
  show v106 + 536870912 * v83 + 288230376151711744 * v86 + 154742504910672534362390528 * v89 + 83076749736557242056487941267521536 * v92 + 44601490397061246283071436545296723011960832 * v95 + 23945242826029513411849172299223580994042798784118784 * v98 + 12855504354071922204335696738729300820177623950262342682411008 * v101 + 6901746346790563787434755862277025452451108972170386555162524223799296 * v104 + 3705346855594118253554271520278013051304639509300498049262642688253220148476736 * (v40 + 536870912 * v47 + 288230376151711744 * v53 + 154742504910672534362390528 * v59 + 83076749736557242056487941267521536 * v64 + 44601490397061246283071436545296723011960832 * v69 + 23945242826029513411849172299223580994042798784118784 * v73 + 12855504354071922204335696738729300820177623950262342682411008 * v76 + 6901746346790563787434755862277025452451108972170386555162524223799296 * v78 + v105) = a.val * a.val
  rw [hA, hcols]
  clear h0 h1 h2 h3 h4 h5 h6 h7 h8 h9 h10 h11 h12 h13 h14 h15 h16 h17 h18 h19 h20 h21 h22 h23 h24 h25 h26 h27 h28 h29 h30 h31 h32 h33 h34 h35 h36 h37 h38 h39 h40 h41 h42 h43 h44 h45 h46 h47 h48 h49 h50 h51 h52 h53 h54 h55 h56 h57 h58 h59 h60 h61 h62 h63 h64 h65 h66 h67 h68 h69 h70 h71 h72 h73 h74 h75 h76 h77 h78 h79 h80 h81 h82 h83 h84 h85 h86 h87 h88 h89 h90 h91 h92 h93 h94 h95 h96 h97 h98 h99 h100 h101 h102 h103 h104 h105 h106
  omega

theorem mul_spec_F (a b : Fe) (ha : a.Bnd 538360511 536870911) (hb : b.Bnd 538360511 536870911) :
    (mpi29_gfp_mul_avx2 a b).Bnd 538360511 536870911 ∧
      ∃ kq, (mpi29_gfp_mul_avx2 a b).val + 3705346855594118253554271520278013051304639509300498049262642688253220148476736 * kq = a.val * b.val := by
  obtain ⟨ha0, ha1, ha2, ha3, ha4, ha5, ha6, ha7, ha8⟩ := ha
  obtain ⟨hb0, hb1, hb2, hb3, hb4, hb5, hb6, hb7, hb8⟩ := hb
  suffices h : ∀ o : Fe, o = mpi29_gfp_mul_avx2 a b →
      o.Bnd 538360511 536870911 ∧ ∃ kq, o.val + 3705346855594118253554271520278013051304639509300498049262642688253220148476736 * kq = a.val * b.val from h _ rfl
  intro o ho
  rw [mpi29_gfp_mul_avx2.eq_def] at ho
  lift_lets at ho
  extract_lets v0 v1 v2 v3 v4 v5 v6 v7 v8 v9 v10 v11 v12 v13 v14 v15 v16 v17 v18 v19 v20 v21 v22 v23 v24 v25 v26 v27 v28 v29 v30 v31 v32 v33 v34 v35 v36 v37 v38 v39 v40 v41 v42 v43 v44 v45 v46 v47 v48 v49 v50 v51 v52 v53 v54 v55 v56 v57 v58 v59 v60 v61 v62 v63 v64 v65 v66 v67 v68 v69 v70 v71 v72 v73 v74 v75 v76 v77 v78 v79 v80 v81 v82 v83 v84 v85 v86 v87 v88 v89 v90 v91 v92 v93 v94 v95 v96 v97 v98 v99 v100 v101 v102 v103 v104 v105 v106 v107 v108 v109 v110 v111 v112 v113 v114 v115 v116 v117 v118 v119 v120 v121 v122 v123 v124 v125 v126 v127 at ho
  have h0 : v0 ≤ 289832039804181121 := wmul_le2 ha0 hb0 (by decide)
  have h1 : v1 ≤ 289030097986995521 := wmul_le2 ha0 hb1 (by decide)
  have h2 : v2 ≤ 578060195973991042 := wmac_le2 h1 ha1 hb0 (by decide)
  have h3 : v3 ≤ 289030097986995521 := wmul_le2 ha0 hb2 (by decide)
  have h4 : v4 ≤ 577260473064965442 := wmac_le2 h3 ha1 hb1 (by decide)
  have h5 : v5 ≤ 866290571051960963 := wmac_le2 h4 ha2 hb0 (by decide)
  have h6 : v6 ≤ 289030097986995521 := wmul_le2 ha0 hb3 (by decide)
  have h7 : v7 ≤ 577260473064965442 := wmac_le2 h6 ha1 hb2 (by decide)
  have h8 : v8 ≤ 865490848142935363 := wmac_le2 h7 ha2 hb1 (by decide)
  have h9 : v9 ≤ 1154520946129930884 := wmac_le2 h8 ha3 hb0 (by decide)
  have h10 : v10 ≤ 289030097986995521 := wmul_le2 ha0 hb4 (by decide)
  have h11 : v11 ≤ 577260473064965442 := wmac_le2 h10 ha1 hb3 (by decide)
  have h12 : v12 ≤ 865490848142935363 := wmac_le2 h11 ha2 hb2 (by decide)
  have h13 : v13 ≤ 1153721223220905284 := wmac_le2 h12 ha3 hb1 (by decide)
  have h14 : v14 ≤ 1442751321207900805 := wmac_le2 h13 ha4 hb0 (by decide)
  have h15 : v15 ≤ 289030097986995521 := wmul_le2 ha0 hb5 (by decide)
  have h16 : v16 ≤ 577260473064965442 := wmac_le2 h15 ha1 hb4 (by decide)
  have h17 : v17 ≤ 865490848142935363 := wmac_le2 h16 ha2 hb3 (by decide)
  have h18 : v18 ≤ 1153721223220905284 := wmac_le2 h17 ha3 hb2 (by decide)
  have h19 : v19 ≤ 1441951598298875205 := wmac_le2 h18 ha4 hb1 (by decide)
  have h20 : v20 ≤ 1730981696285870726 := wmac_le2 h19 ha5 hb0 (by decide)
  have h21 : v21 ≤ 289030097986995521 := wmul_le2 ha0 hb6 (by decide)
  have h22 : v22 ≤ 577260473064965442 := wmac_le2 h21 ha1 hb5 (by decide)
  have h23 : v23 ≤ 865490848142935363 := wmac_le2 h22 ha2 hb4 (by decide)
  have h24 : v24 ≤ 1153721223220905284 := wmac_le2 h23 ha3 hb3 (by decide)
  have h25 : v25 ≤ 1441951598298875205 := wmac_le2 h24 ha4 hb2 (by decide)
  have h26 : v26 ≤ 1730181973376845126 := wmac_le2 h25 ha5 hb1 (by decide)
  have h27 : v27 ≤ 2019212071363840647 := wmac_le2 h26 ha6 hb0 (by decide)
  have h28 : v28 ≤ 289030097986995521 := wmul_le2 ha0 hb7 (by decide)
  have h29 : v29 ≤ 577260473064965442 := wmac_le2 h28 ha1 hb6 (by decide)
  have h30 : v30 ≤ 865490848142935363 := wmac_le2 h29 ha2 hb5 (by decide)
  have h31 : v31 ≤ 1153721223220905284 := wmac_le2 h30 ha3 hb4 (by decide)
  have h32 : v32 ≤ 1441951598298875205 := wmac_le2 h31 ha4 hb3 (by decide)
  have h33 : v33 ≤ 1730181973376845126 := wmac_le2 h32 ha5 hb2 (by decide)
  have h34 : v34 ≤ 2018412348454815047 := wmac_le2 h33 ha6 hb1 (by decide)
  have h35 : v35 ≤ 2307442446441810568 := wmac_le2 h34 ha7 hb0 (by decide)
  have h36 : v36 ≤ 289030097986995521 := wmul_le2 ha0 hb8 (by decide)
  have h37 : v37 ≤ 577260473064965442 := wmac_le2 h36 ha1 hb7 (by decide)
  have h38 : v38 ≤ 865490848142935363 := wmac_le2 h37 ha2 hb6 (by decide)
  have h39 : v39 ≤ 1153721223220905284 := wmac_le2 h38 ha3 hb5 (by decide)
  have h40 : v40 ≤ 1441951598298875205 := wmac_le2 h39 ha4 hb4 (by decide)
  have h41 : v41 ≤ 1730181973376845126 := wmac_le2 h40 ha5 hb3 (by decide)
  have h42 : v42 ≤ 2018412348454815047 := wmac_le2 h41 ha6 hb2 (by decide)
  have h43 : v43 ≤ 2306642723532784968 := wmac_le2 h42 ha7 hb1 (by decide)
  have h44 : v44 ≤ 2595672821519780489 := wmac_le2 h43 ha8 hb0 (by decide)
  have h45 : v45 ≤ 4834817389 := wshr29_le3 h44 (by decide)
  have h46 : v46 ≤ 536870911 := wand_lt_mask29 _
  have h47 : v47 ≤ 288230379912787310 := wmac_le2 h45 ha1 hb8 (by decide)
  have h48 : v48 ≤ 576460754990757231 := wmac_le2 h47 ha2 hb7 (by decide)
  have h49 : v49 ≤ 864691130068727152 := wmac_le2 h48 ha3 hb6 (by decide)
  have h50 : v50 ≤ 1152921505146697073 := wmac_le2 h49 ha4 hb5 (by decide)
  have h51 : v51 ≤ 1441151880224666994 := wmac_le2 h50 ha5 hb4 (by decide)
  have h52 : v52 ≤ 1729382255302636915 := wmac_le2 h51 ha6 hb3 (by decide)
  have h53 : v53 ≤ 2017612630380606836 := wmac_le2 h52 ha7 hb2 (by decide)
  have h54 : v54 ≤ 2305843005458576757 := wmac_le2 h53 ha8 hb1 (by decide)
  have h55 : v55 ≤ 536870911 := wand_lt_mask29 _
  have h56 : v56 ≤ 4294967289 := wshr29_le3 h54 (by decide)
  have h57 : v57 ≤ 288230379372937210 := wmac_le2 h56 ha2 hb8 (by decide)
  have h58 : v58 ≤ 576460754450907131 := wmac_le2 h57 ha3 hb7 (by decide)
  have h59 : v59 ≤ 864691129528877052 := wmac_le2 h58 ha4 hb6 (by decide)
  have h60 : v60 ≤ 1152921504606846973 := wmac_le2 h59 ha5 hb5 (by decide)
  have h61 : v61 ≤ 1441151879684816894 := wmac_le2 h60 ha6 hb4 (by decide)
  have h62 : v62 ≤ 1729382254762786815 := wmac_le2 h61 ha7 hb3 (by decide)
  have h63 : v63 ≤ 2017612629840756736 := wmac_le2 h62 ha8 hb2 (by decide)
  have h64 : v64 ≤ 536870911 := wand_lt_mask29 _
  have h65 : v65 ≤ 3758096378 := wshr29_le3 h63 (by decide)
  have h66 : v66 ≤ 288230378836066299 := wmac_le2 h65 ha3 hb8 (by decide)
  have h67 : v67 ≤ 576460753914036220 := wmac_le2 h66 ha4 hb7 (by decide)
  have h68 : v68 ≤ 864691128992006141 := wmac_le2 h67 ha5 hb6 (by decide)
  have h69 : v69 ≤ 1152921504069976062 := wmac_le2 h68 ha6 hb5 (by decide)
  have h70 : v70 ≤ 1441151879147945983 := wmac_le2 h69 ha7 hb4 (by decide)
  have h71 : v71 ≤ 1729382254225915904 := wmac_le2 h70 ha8 hb3 (by decide)
  have h72 : v72 ≤ 536870911 := wand_lt_mask29 _
  have h73 : v73 ≤ 3221225467 := wshr29_le3 h71 (by decide)
  have h74 : v74 ≤ 288230378299195388 := wmac_le2 h73 ha4 hb8 (by decide)
  have h75 : v75 ≤ 576460753377165309 := wmac_le2 h74 ha5 hb7 (by decide)
  have h76 : v76 ≤ 864691128455135230 := wmac_le2 h75 ha6 hb6 (by decide)
  have h77 : v77 ≤ 1152921503533105151 := wmac_le2 h76 ha7 hb5 (by decide)
  have h78 : v78 ≤ 1441151878611075072 := wmac_le2 h77 ha8 hb4 (by decide)
  have h79 : v79 ≤ 536870911 := wand_lt_mask29 _
  have h80 : v80 ≤ 2684354556 := wshr29_le3 h78 (by decide)
  have h81 : v81 ≤ 288230377762324477 := wmac_le2 h80 ha5 hb8 (by decide)
  have h82 : v82 ≤ 576460752840294398 := wmac_le2 h81 ha6 hb7 (by decide)
  have h83 : v83 ≤ 864691127918264319 := wmac_le2 h82 ha7 hb6 (by decide)
  have h84 : v84 ≤ 1152921502996234240 := wmac_le2 h83 ha8 hb5 (by decide)
  have h85 : v85 ≤ 536870911 := wand_lt_mask29 _
  have h86 : v86 ≤ 2147483645 := wshr29_le3 h84 (by decide)
  have h87 : v87 ≤ 288230377225453566 := wmac_le2 h86 ha6 hb8 (by decide)
  have h88 : v88 ≤ 576460752303423487 := wmac_le2 h87 ha7 hb7 (by decide)
  have h89 : v89 ≤ 864691127381393408 := wmac_le2 h88 ha8 hb6 (by decide)
  have h90 : v90 ≤ 536870911 := wand_lt_mask29 _
  have h91 : v91 ≤ 1610612734 := wshr29_le3 h89 (by decide)
  have h92 : v92 ≤ 288230376688582655 := wmac_le2 h91 ha7 hb8 (by decide)
  have h93 : v93 ≤ 576460751766552576 := wmac_le2 h92 ha8 hb7 (by decide)
  have h94 : v94 ≤ 536870911 := wand_lt_mask29 _
  have h95 : v95 ≤ 1073741823 := wshr29_le3 h93 (by decide)
  have h96 : v96 ≤ 288230376151711744 := wmac_le2 h95 ha8 hb8 (by decide)
  have h97 : v97 ≤ 536870911 := wand_lt_mask29 _
  have h98 : v98 ≤ 536870912 := wshr29_le3 h96 (by decide)
  have h99 : v99 ≤ 536870912 := h98
  have h100 : v100 ≤ 289832692639208897 := wmacC_le3 h0 h55 (by decide)
  have h101 : v101 ≤ 536870911 := wand_lt_mask29 _
  have h102 : v102 ≤ 578060196513846501 := wcarry_le3 h2 h100 (by decide)
  have h103 : v103 ≤ 578060849348874277 := wmacC_le3 h102 h64 (by decide)
  have h104 : v104 ≤ 536870911 := wand_lt_mask29 _
  have h105 : v105 ≤ 866290572128683200 := wcarry_le3 h5 h103 (by decide)
  have h106 : v106 ≤ 866291224963710976 := wmacC_le3 h105 h72 (by decide)
  have h107 : v107 ≤ 536870911 := wand_lt_mask29 _
  have h108 : v108 ≤ 1154520947743524032 := wcarry_le3 h9 h106 (by decide)
  have h109 : v109 ≤ 1154521600578551808 := wmacC_le3 h108 h79 (by decide)
  have h110 : v110 ≤ 536870911 := wand_lt_mask29 _
  have h111 : v111 ≤ 1442751323358364864 := wcarry_le3 h14 h109 (by decide)
  have h112 : v112 ≤ 1442751976193392640 := wmacC_le3 h111 h85 (by decide)
  have h113 : v113 ≤ 536870911 := wand_lt_mask29 _
  have h114 : v114 ≤ 1730981698973205696 := wcarry_le3 h20 h112 (by decide)
  have h115 : v115 ≤ 1730982351808233472 := wmacC_le3 h114 h90 (by decide)
  have h116 : v116 ≤ 536870911 := wand_lt_mask29 _
  have h117 : v117 ≤ 2019212074588046528 := wcarry_le3 h27 h115 (by decide)
  have h118 : v118 ≤ 2019212727423074304 := wmacC_le3 h117 h94 (by decide)
  have h119 : v119 ≤ 536870911 := wand_lt_mask29 _
  have h120 : v120 ≤ 2307442450202887360 := wcarry_le3 h35 h118 (by decide)
  have h121 : v121 ≤ 2307443103037915136 := wmacC_le3 h120 h97 (by decide)
  have h122 : v122 ≤ 536870911 := wand_lt_mask29 _
  have h123 : v123 ≤ 4834818614 := wcarry_le3 h46 h121 (by decide)
  have h124 : v124 ≤ 657669847606 := wmacC_le3 h123 h99 (by decide)
  have h125 : v125 ≤ 536870911 := wand_lt_mask29 _
  have h126 : v126 ≤ 1225 := wshr29_le3 h124 (by decide)
  have h127 : v127 ≤ 538360511 := wmacC_le3 h101 h126 (by decide)
  have e0 : v0 = a.l0 * b.l0 := wmul_eq3 ha0 hb0 (by decide) (by decide)
  have e1 : v1 = a.l0 * b.l1 := wmul_eq3 ha0 hb1 (by decide) (by decide)
  have e2 : v2 = v1 + a.l1 * b.l0 := wmac_eq3 h1 ha1 hb0 (by decide) (by decide) (by decide)
  have e3 : v3 = a.l0 * b.l2 := wmul_eq3 ha0 hb2 (by decide) (by decide)
  have e4 : v4 = v3 + a.l1 * b.l1 := wmac_eq3 h3 ha1 hb1 (by decide) (by decide) (by decide)
  have e5 : v5 = v4 + a.l2 * b.l0 := wmac_eq3 h4 ha2 hb0 (by decide) (by decide) (by decide)
  have e6 : v6 = a.l0 * b.l3 := wmul_eq3 ha0 hb3 (by decide) (by decide)
  have e7 : v7 = v6 + a.l1 * b.l2 := wmac_eq3 h6 ha1 hb2 (by decide) (by decide) (by decide)
  have e8 : v8 = v7 + a.l2 * b.l1 := wmac_eq3 h7 ha2 hb1 (by decide) (by decide) (by decide)
  have e9 : v9 = v8 + a.l3 * b.l0 := wmac_eq3 h8 ha3 hb0 (by decide) (by decide) (by decide)
  have e10 : v10 = a.l0 * b.l4 := wmul_eq3 ha0 hb4 (by decide) (by decide)
  have e11 : v11 = v10 + a.l1 * b.l3 := wmac_eq3 h10 ha1 hb3 (by decide) (by decide) (by decide)
  have e12 : v12 = v11 + a.l2 * b.l2 := wmac_eq3 h11 ha2 hb2 (by decide) (by decide) (by decide)
  have e13 : v13 = v12 + a.l3 * b.l1 := wmac_eq3 h12 ha3 hb1 (by decide) (by decide) (by decide)
  have e14 : v14 = v13 + a.l4 * b.l0 := wmac_eq3 h13 ha4 hb0 (by decide) (by decide) (by decide)
  have e15 : v15 = a.l0 * b.l5 := wmul_eq3 ha0 hb5 (by decide) (by decide)
  have e16 : v16 = v15 + a.l1 * b.l4 := wmac_eq3 h15 ha1 hb4 (by decide) (by decide) (by decide)
  have e17 : v17 = v16 + a.l2 * b.l3 := wmac_eq3 h16 ha2 hb3 (by decide) (by decide) (by decide)
  have e18 : v18 = v17 + a.l3 * b.l2 := wmac_eq3 h17 ha3 hb2 (by decide) (by decide) (by decide)
  have e19 : v19 = v18 + a.l4 * b.l1 := wmac_eq3 h18 ha4 hb1 (by decide) (by decide) (by decide)
  have e20 : v20 = v19 + a.l5 * b.l0 := wmac_eq3 h19 ha5 hb0 (by decide) (by decide) (by decide)
  have e21 : v21 = a.l0 * b.l6 := wmul_eq3 ha0 hb6 (by decide) (by decide)
  have e22 : v22 = v21 + a.l1 * b.l5 := wmac_eq3 h21 ha1 hb5 (by decide) (by decide) (by decide)
  have e23 : v23 = v22 + a.l2 * b.l4 := wmac_eq3 h22 ha2 hb4 (by decide) (by decide) (by decide)
  have e24 : v24 = v23 + a.l3 * b.l3 := wmac_eq3 h23 ha3 hb3 (by decide) (by decide) (by decide)
  have e25 : v25 = v24 + a.l4 * b.l2 := wmac_eq3 h24 ha4 hb2 (by decide) (by decide) (by decide)
  have e26 : v26 = v25 + a.l5 * b.l1 := wmac_eq3 h25 ha5 hb1 (by decide) (by decide) (by decide)
  have e27 : v27 = v26 + a.l6 * b.l0 := wmac_eq3 h26 ha6 hb0 (by decide) (by decide) (by decide)
  have e28 : v28 = a.l0 * b.l7 := wmul_eq3 ha0 hb7 (by decide) (by decide)
  have e29 : v29 = v28 + a.l1 * b.l6 := wmac_eq3 h28 ha1 hb6 (by decide) (by decide) (by decide)
  have e30 : v30 = v29 + a.l2 * b.l5 := wmac_eq3 h29 ha2 hb5 (by decide) (by decide) (by decide)
  have e31 : v31 = v30 + a.l3 * b.l4 := wmac_eq3 h30 ha3 hb4 (by decide) (by decide) (by decide)
  have e32 : v32 = v31 + a.l4 * b.l3 := wmac_eq3 h31 ha4 hb3 (by decide) (by decide) (by decide)
  have e33 : v33 = v32 + a.l5 * b.l2 := wmac_eq3 h32 ha5 hb2 (by decide) (by decide) (by decide)
  have e34 : v34 = v33 + a.l6 * b.l1 := wmac_eq3 h33 ha6 hb1 (by decide) (by decide) (by decide)
  have e35 : v35 = v34 + a.l7 * b.l0 := wmac_eq3 h34 ha7 hb0 (by decide) (by decide) (by decide)
  have e36 : v36 = a.l0 * b.l8 := wmul_eq3 ha0 hb8 (by decide) (by decide)
  have e37 : v37 = v36 + a.l1 * b.l7 := wmac_eq3 h36 ha1 hb7 (by decide) (by decide) (by decide)
  have e38 : v38 = v37 + a.l2 * b.l6 := wmac_eq3 h37 ha2 hb6 (by decide) (by decide) (by decide)
  have e39 : v39 = v38 + a.l3 * b.l5 := wmac_eq3 h38 ha3 hb5 (by decide) (by decide) (by decide)
  have e40 : v40 = v39 + a.l4 * b.l4 := wmac_eq3 h39 ha4 hb4 (by decide) (by decide) (by decide)
  have e41 : v41 = v40 + a.l5 * b.l3 := wmac_eq3 h40 ha5 hb3 (by decide) (by decide) (by decide)
  have e42 : v42 = v41 + a.l6 * b.l2 := wmac_eq3 h41 ha6 hb2 (by decide) (by decide) (by decide)
  have e43 : v43 = v42 + a.l7 * b.l1 := wmac_eq3 h42 ha7 hb1 (by decide) (by decide) (by decide)
  have e44 : v44 = v43 + a.l8 * b.l0 := wmac_eq3 h43 ha8 hb0 (by decide) (by decide) (by decide)
  have e46 : v46 + 536870912 * v45 = v44 := mask_shr_recomb v44
  have e47 : v47 = v45 + a.l1 * b.l8 := wmac_eq3 h45 ha1 hb8 (by decide) (by decide) (by decide)
  have e48 : v48 = v47 + a.l2 * b.l7 := wmac_eq3 h47 ha2 hb7 (by decide) (by decide) (by decide)
  have e49 : v49 = v48 + a.l3 * b.l6 := wmac_eq3 h48 ha3 hb6 (by decide) (by decide) (by decide)
  have e50 : v50 = v49 + a.l4 * b.l5 := wmac_eq3 h49 ha4 hb5 (by decide) (by decide) (by decide)
  have e51 : v51 = v50 + a.l5 * b.l4 := wmac_eq3 h50 ha5 hb4 (by decide) (by decide) (by decide)
  have e52 : v52 = v51 + a.l6 * b.l3 := wmac_eq3 h51 ha6 hb3 (by decide) (by decide) (by decide)
  have e53 : v53 = v52 + a.l7 * b.l2 := wmac_eq3 h52 ha7 hb2 (by decide) (by decide) (by decide)
  have e54 : v54 = v53 + a.l8 * b.l1 := wmac_eq3 h53 ha8 hb1 (by decide) (by decide) (by decide)
  have e56 : v55 + 536870912 * v56 = v54 := mask_shr_recomb v54
  have e57 : v57 = v56 + a.l2 * b.l8 := wmac_eq3 h56 ha2 hb8 (by decide) (by decide) (by decide)
  have e58 : v58 = v57 + a.l3 * b.l7 := wmac_eq3 h57 ha3 hb7 (by decide) (by decide) (by decide)
  have e59 : v59 = v58 + a.l4 * b.l6 := wmac_eq3 h58 ha4 hb6 (by decide) (by decide) (by decide)
  have e60 : v60 = v59 + a.l5 * b.l5 := wmac_eq3 h59 ha5 hb5 (by decide) (by decide) (by decide)
  have e61 : v61 = v60 + a.l6 * b.l4 := wmac_eq3 h60 ha6 hb4 (by decide) (by decide) (by decide)
  have e62 : v62 = v61 + a.l7 * b.l3 := wmac_eq3 h61 ha7 hb3 (by decide) (by decide) (by decide)
  have e63 : v63 = v62 + a.l8 * b.l2 := wmac_eq3 h62 ha8 hb2 (by decide) (by decide) (by decide)
  have e65 : v64 + 536870912 * v65 = v63 := mask_shr_recomb v63
  have e66 : v66 = v65 + a.l3 * b.l8 := wmac_eq3 h65 ha3 hb8 (by decide) (by decide) (by decide)
  have e67 : v67 = v66 + a.l4 * b.l7 := wmac_eq3 h66 ha4 hb7 (by decide) (by decide) (by decide)
  have e68 : v68 = v67 + a.l5 * b.l6 := wmac_eq3 h67 ha5 hb6 (by decide) (by decide) (by decide)
  have e69 : v69 = v68 + a.l6 * b.l5 := wmac_eq3 h68 ha6 hb5 (by decide) (by decide) (by decide)
  have e70 : v70 = v69 + a.l7 * b.l4 := wmac_eq3 h69 ha7 hb4 (by decide) (by decide) (by decide)
  have e71 : v71 = v70 + a.l8 * b.l3 := wmac_eq3 h70 ha8 hb3 (by decide) (by decide) (by decide)
  have e73 : v72 + 536870912 * v73 = v71 := mask_shr_recomb v71
  have e74 : v74 = v73 + a.l4 * b.l8 := wmac_eq3 h73 ha4 hb8 (by decide) (by decide) (by decide)
  have e75 : v75 = v74 + a.l5 * b.l7 := wmac_eq3 h74 ha5 hb7 (by decide) (by decide) (by decide)
  have e76 : v76 = v75 + a.l6 * b.l6 := wmac_eq3 h75 ha6 hb6 (by decide) (by decide) (by decide)
  have e77 : v77 = v76 + a.l7 * b.l5 := wmac_eq3 h76 ha7 hb5 (by decide) (by decide) (by decide)
  have e78 : v78 = v77 + a.l8 * b.l4 := wmac_eq3 h77 ha8 hb4 (by decide) (by decide) (by decide)
  have e80 : v79 + 536870912 * v80 = v78 := mask_shr_recomb v78
  have e81 : v81 = v80 + a.l5 * b.l8 := wmac_eq3 h80 ha5 hb8 (by decide) (by decide) (by decide)
  have e82 : v82 = v81 + a.l6 * b.l7 := wmac_eq3 h81 ha6 hb7 (by decide) (by decide) (by decide)
  have e83 : v83 = v82 + a.l7 * b.l6 := wmac_eq3 h82 ha7 hb6 (by decide) (by decide) (by decide)
  have e84 : v84 = v83 + a.l8 * b.l5 := wmac_eq3 h83 ha8 hb5 (by decide) (by decide) (by decide)
  have e86 : v85 + 536870912 * v86 = v84 := mask_shr_recomb v84
  have e87 : v87 = v86 + a.l6 * b.l8 := wmac_eq3 h86 ha6 hb8 (by decide) (by decide) (by decide)
  have e88 : v88 = v87 + a.l7 * b.l7 := wmac_eq3 h87 ha7 hb7 (by decide) (by decide) (by decide)
  have e89 : v89 = v88 + a.l8 * b.l6 := wmac_eq3 h88 ha8 hb6 (by decide) (by decide) (by decide)
  have e91 : v90 + 536870912 * v91 = v89 := mask_shr_recomb v89
  have e92 : v92 = v91 + a.l7 * b.l8 := wmac_eq3 h91 ha7 hb8 (by decide) (by decide) (by decide)
  have e93 : v93 = v92 + a.l8 * b.l7 := wmac_eq3 h92 ha8 hb7 (by decide) (by decide) (by decide)
  have e95 : v94 + 536870912 * v95 = v93 := mask_shr_recomb v93
  have e96 : v96 = v95 + a.l8 * b.l8 := wmac_eq3 h95 ha8 hb8 (by decide) (by decide) (by decide)
  have e98 : v97 + 536870912 * v98 = v96 := mask_shr_recomb v96
  have e99 : v99 = v98 := rfl
  have e100 : v100 = v0 + v55 * 1216 := wmacC_eq3 h0 h55 (by decide) (by decide)
  have e102 : 536870912 * v102 + v101 = 536870912 * v2 + v100 := wcarry_mask_eq h2 h100 (by decide)
  have e103 : v103 = v102 + v64 * 1216 := wmacC_eq3 h102 h64 (by decide) (by decide)
  have e105 : 536870912 * v105 + v104 = 536870912 * v5 + v103 := wcarry_mask_eq h5 h103 (by decide)
  have e106 : v106 = v105 + v72 * 1216 := wmacC_eq3 h105 h72 (by decide) (by decide)
  have e108 : 536870912 * v108 + v107 = 536870912 * v9 + v106 := wcarry_mask_eq h9 h106 (by decide)
  have e109 : v109 = v108 + v79 * 1216 := wmacC_eq3 h108 h79 (by decide) (by decide)
  have e111 : 536870912 * v111 + v110 = 536870912 * v14 + v109 := wcarry_mask_eq h14 h109 (by decide)
  have e112 : v112 = v111 + v85 * 1216 := wmacC_eq3 h111 h85 (by decide) (by decide)
  have e114 : 536870912 * v114 + v113 = 536870912 * v20 + v112 := wcarry_mask_eq h20 h112 (by decide)
  have e115 : v115 = v114 + v90 * 1216 := wmacC_eq3 h114 h90 (by decide) (by decide)
  have e117 : 536870912 * v117 + v116 = 536870912 * v27 + v115 := wcarry_mask_eq h27 h115 (by decide)
  have e118 : v118 = v117 + v94 * 1216 := wmacC_eq3 h117 h94 (by decide) (by decide)
  have e120 : 536870912 * v120 + v119 = 536870912 * v35 + v118 := wcarry_mask_eq h35 h118 (by decide)
  have e121 : v121 = v120 + v97 * 1216 := wmacC_eq3 h120 h97 (by decide) (by decide)
  have e123 : 536870912 * v123 + v122 = 536870912 * v46 + v121 := wcarry_mask_eq h46 h121 (by decide)
  have e124 : v124 = v123 + v99 * 1216 := wmacC_eq3 h123 h99 (by decide) (by decide)
  have e126 : v125 + 536870912 * v126 = v124 := mask_shr_recomb v124
  have e127 : v127 = v101 + v126 * 1216 := wmacC_eq3 h101 h126 (by decide) (by decide)
  subst ho
  refine ⟨⟨le_trans h127 (by decide), le_trans h104 (by decide), le_trans h107 (by decide), le_trans h110 (by decide), le_trans h113 (by decide), le_trans h116 (by decide), le_trans h119 (by decide), le_trans h122 (by decide), le_trans h125 (by decide)⟩, ⟨v55 + 536870912 * v64 + 288230376151711744 * v72 + 154742504910672534362390528 * v79 + 83076749736557242056487941267521536 * v85 + 44601490397061246283071436545296723011960832 * v90 + 23945242826029513411849172299223580994042798784118784 * v94 + 12855504354071922204335696738729300820177623950262342682411008 * v97 + 6901746346790563787434755862277025452451108972170386555162524223799296 * v99 + v126, ?_⟩⟩
  have hA : a.val = a.l0 + 536870912 * a.l1 + 288230376151711744 * a.l2 + 154742504910672534362390528 * a.l3 + 83076749736557242056487941267521536 * a.l4 + 44601490397061246283071436545296723011960832 * a.l5 + 23945242826029513411849172299223580994042798784118784 * a.l6 + 12855504354071922204335696738729300820177623950262342682411008 * a.l7 + 6901746346790563787434755862277025452451108972170386555162524223799296 * a.l8 := rfl
  have hB : b.val = b.l0 + 536870912 * b.l1 + 288230376151711744 * b.l2 + 154742504910672534362390528 * b.l3 + 83076749736557242056487941267521536 * b.l4 + 44601490397061246283071436545296723011960832 * b.l5 + 23945242826029513411849172299223580994042798784118784 * b.l6 + 12855504354071922204335696738729300820177623950262342682411008 * b.l7 + 6901746346790563787434755862277025452451108972170386555162524223799296 * b.l8 := rfl
  have hcols : (a.l0 + 536870912 * a.l1 + 288230376151711744 * a.l2 + 154742504910672534362390528 * a.l3 + 83076749736557242056487941267521536 * a.l4 + 44601490397061246283071436545296723011960832 * a.l5 + 23945242826029513411849172299223580994042798784118784 * a.l6 + 12855504354071922204335696738729300820177623950262342682411008 * a.l7 + 6901746346790563787434755862277025452451108972170386555162524223799296 * a.l8) * (b.l0 + 536870912 * b.l1 + 288230376151711744 * b.l2 + 154742504910672534362390528 * b.l3 + 83076749736557242056487941267521536 * b.l4 + 44601490397061246283071436545296723011960832 * b.l5 + 23945242826029513411849172299223580994042798784118784 * b.l6 + 12855504354071922204335696738729300820177623950262342682411008 * b.l7 + 6901746346790563787434755862277025452451108972170386555162524223799296 * b.l8) = (a.l0 * b.l0) + 536870912 * (a.l0 * b.l1 + a.l1 * b.l0) + 288230376151711744 * (a.l0 * b.l2 + a.l1 * b.l1 + a.l2 * b.l0) + 154742504910672534362390528 * (a.l0 * b.l3 + a.l1 * b.l2 + a.l2 * b.l1 + a.l3 * b.l0) + 83076749736557242056487941267521536 * (a.l0 * b.l4 + a.l1 * b.l3 + a.l2 * b.l2 + a.l3 * b.l1 + a.l4 * b.l0) + 44601490397061246283071436545296723011960832 * (a.l0 * b.l5 + a.l1 * b.l4 + a.l2 * b.l3 + a.l3 * b.l2 + a.l4 * b.l1 + a.l5 * b.l0) + 23945242826029513411849172299223580994042798784118784 * (a.l0 * b.l6 + a.l1 * b.l5 + a.l2 * b.l4 + a.l3 * b.l3 + a.l4 * b.l2 + a.l5 * b.l1 + a.l6 * b.l0) + 12855504354071922204335696738729300820177623950262342682411008 * (a.l0 * b.l7 + a.l1 * b.l6 + a.l2 * b.l5 + a.l3 * b.l4 + a.l4 * b.l3 + a.l5 * b.l2 + a.l6 * b.l1 + a.l7 * b.l0) + 6901746346790563787434755862277025452451108972170386555162524223799296 * (a.l0 * b.l8 + a.l1 * b.l7 + a.l2 * b.l6 + a.l3 * b.l5 + a.l4 * b.l4 + a.l5 * b.l3 + a.l6 * b.l2 + a.l7 * b.l1 + a.l8 * b.l0) + 3705346855594118253554271520278013051304639509300498049262642688253220148477952 * (a.l1 * b.l8 + a.l2 * b.l7 + a.l3 * b.l6 + a.l4 * b.l5 + a.l5 * b.l4 + a.l6 * b.l3 + a.l7 * b.l2 + a.l8 * b.l1) + 1989292945639146568621528992587283360401824603189390869761855907572637988050133502132224 * (a.l2 * b.l8 + a.l3 * b.l7 + a.l4 * b.l6 + a.l5 * b.l5 + a.l6 * b.l4 + a.l7 * b.l3 + a.l8 * b.l2) + 1067993517960455041197510853084776057301352261178326384973520803911109862890320275011481043468288 * (a.l3 * b.l8 + a.l4 * b.l7 + a.l5 * b.l6 + a.l6 * b.l5 + a.l7 * b.l4 + a.l8 * b.l3) + 573374653997517877902705223825521735199141247292070280934397209846730719022121202017504638277531421638656 * (a.l4 * b.l8 + a.l5 * b.l7 + a.l6 * b.l6 + a.l7 * b.l5 + a.l8 * b.l4) + 307828173409331868845930000782371982852185463050511302093346042220669701339821957901673955116288403443801781174272 * (a.l5 * b.l8 + a.l6 * b.l7 + a.l7 * b.l6 + a.l8 * b.l5) + 165263992197562149737978827008192759957101170741070304821162198818601447809077836456297302609928821211897803006255839576064 * (a.l6 * b.l8 + a.l7 * b.l7 + a.l8 * b.l6) + 88725430211866075506509253892578678509965986412026130405455346579667881849780019937279180995332466499116518750764914298527173050368 * (a.l7 * b.l8 + a.l8 * b.l7) + 47634102635436893179040485073748265163400240214004076398607741693502376385799646303105256699577209032590132615988260237052123652332890095616 * (a.l8 * b.l8) := by ring
  show v127 + 536870912 * v104 + 288230376151711744 * v107 + 154742504910672534362390528 * v110 + 83076749736557242056487941267521536 * v113 + 44601490397061246283071436545296723011960832 * v116 + 23945242826029513411849172299223580994042798784118784 * v119 + 12855504354071922204335696738729300820177623950262342682411008 * v122 + 6901746346790563787434755862277025452451108972170386555162524223799296 * v125 + 3705346855594118253554271520278013051304639509300498049262642688253220148476736 * (v55 + 536870912 * v64 + 288230376151711744 * v72 + 154742504910672534362390528 * v79 + 83076749736557242056487941267521536 * v85 + 44601490397061246283071436545296723011960832 * v90 + 23945242826029513411849172299223580994042798784118784 * v94 + 12855504354071922204335696738729300820177623950262342682411008 * v97 + 6901746346790563787434755862277025452451108972170386555162524223799296 * v99 + v126) = a.val * b.val
  rw [hA, hB, hcols]
  clear h0 h1 h2 h3 h4 h5 h6 h7 h8 h9 h10 h11 h12 h13 h14 h15 h16 h17 h18 h19 h20 h21 h22 h23 h24 h25 h26 h27 h28 h29 h30 h31 h32 h33 h34 h35 h36 h37 h38 h39 h40 h41 h42 h43 h44 h45 h46 h47 h48 h49 h50 h51 h52 h53 h54 h55 h56 h57 h58 h59 h60 h61 h62 h63 h64 h65 h66 h67 h68 h69 h70 h71 h72 h73 h74 h75 h76 h77 h78 h79 h80 h81 h82 h83 h84 h85 h86 h87 h88 h89 h90 h91 h92 h93 h94 h95 h96 h97 h98 h99 h100 h101 h102 h103 h104 h105 h106 h107 h108 h109 h110 h111 h112 h113 h114 h115 h116 h117 h118 h119 h120 h121 h122 h123 h124 h125 h126 h127
  omega


theorem Fe.Bnd_mono {x : Fe} {a0 a b0 b : Nat} (h : x.Bnd a0 a)
    (h0 : a0 ≤ b0) (h1 : a ≤ b) : x.Bnd b0 b :=
  ⟨le_trans h.1 h0, le_trans h.2.1 h1, le_trans h.2.2.1 h1, le_trans h.2.2.2.1 h1,
   le_trans h.2.2.2.2.1 h1, le_trans h.2.2.2.2.2.1 h1, le_trans h.2.2.2.2.2.2.1 h1,
   le_trans h.2.2.2.2.2.2.2.1 h1, le_trans h.2.2.2.2.2.2.2.2 h1⟩

theorem wsubrow1_le {x y bx bq B : Nat} (hx : x ≤ bx) (hy : y ≤ bq)
    (h1 : bq ≤ 1073739392) (h2 : bx ≤ 4611686018427387904)
    (h3 : 1073739392 + bx ≤ B) : wadd (2 * LSWP29) (wsub x y) ≤ B := by
  have e := wsub_pat1 (show x ≤ 9223372036854775807 by omega)
    (show y ≤ 1073739392 + x by omega)
  rw [e]; omega

theorem wsubrow2_le {x y bx bq B : Nat} (hx : x ≤ bx) (hy : y ≤ bq)
    (h1 : bq ≤ 1073741822) (h2 : bx ≤ 4611686018427387904)
    (h3 : 1073741822 + bx ≤ B) : wadd (2 * MASK29) (wsub x y) ≤ B := by
  have e := wsub_pat2 (show x ≤ 9223372036854775807 by omega)
    (show y ≤ 1073741822 + x by omega)
  rw [e]; omega


theorem mul_bnd_cover (a b : Fe) (ha : a.Bnd 1616567485 1610612733) (hb : b.Bnd 1616565055 1610612733) :
    (mpi29_gfp_mul_avx2 a b).Bnd 550267583 536870911 := by
  obtain ⟨ha0, ha1, ha2, ha3, ha4, ha5, ha6, ha7, ha8⟩ := ha
  obtain ⟨hb0, hb1, hb2, hb3, hb4, hb5, hb6, hb7, hb8⟩ := hb
  rw [mpi29_gfp_mul_avx2.eq_def]
  lift_lets
  extract_lets v0 v1 v2 v3 v4 v5 v6 v7 v8 v9 v10 v11 v12 v13 v14 v15 v16 v17 v18 v19 v20 v21 v22 v23 v24 v25 v26 v27 v28 v29 v30 v31 v32 v33 v34 v35 v36 v37 v38 v39 v40 v41 v42 v43 v44 v45 v46 v47 v48 v49 v50 v51 v52 v53 v54 v55 v56 v57 v58 v59 v60 v61 v62 v63 v64 v65 v66 v67 v68 v69 v70 v71 v72 v73 v74 v75 v76 v77 v78 v79 v80 v81 v82 v83 v84 v85 v86 v87 v88 v89 v90 v91 v92 v93 v94 v95 v96 v97 v98 v99 v100 v101 v102 v103 v104 v105 v106 v107 v108 v109 v110 v111 v112 v113 v114 v115 v116 v117 v118 v119 v120 v121 v122 v123 v124 v125 v126 v127
  have h0 : v0 ≤ 2613286505300236675 := wmul_le2 ha0 hb0 (by decide)
  have h1 : v1 ≤ 2603664175094786505 := wmul_le2 ha0 hb1 (by decide)
  have h2 : v2 ≤ 5207324436400631820 := wmac_le2 h1 ha1 hb0 (by decide)
  have h3 : v3 ≤ 2603664175094786505 := wmul_le2 ha0 hb2 (by decide)
  have h4 : v4 ≤ 5197737550796515794 := wmac_le2 h3 ha1 hb1 (by decide)
  have h5 : v5 ≤ 7801397812102361109 := wmac_le2 h4 ha2 hb0 (by decide)
  have h6 : v6 ≤ 2603664175094786505 := wmul_le2 ha0 hb3 (by decide)
  have h7 : v7 ≤ 5197737550796515794 := wmac_le2 h6 ha1 hb2 (by decide)
  have h8 : v8 ≤ 7791810926498245083 := wmac_le2 h7 ha2 hb1 (by decide)
  have h9 : v9 ≤ 10395471187804090398 := wmac_le2 h8 ha3 hb0 (by decide)
  have h10 : v10 ≤ 2603664175094786505 := wmul_le2 ha0 hb4 (by decide)
  have h11 : v11 ≤ 5197737550796515794 := wmac_le2 h10 ha1 hb3 (by decide)
  have h12 : v12 ≤ 7791810926498245083 := wmac_le2 h11 ha2 hb2 (by decide)
  have h13 : v13 ≤ 10385884302199974372 := wmac_le2 h12 ha3 hb1 (by decide)
  have h14 : v14 ≤ 12989544563505819687 := wmac_le2 h13 ha4 hb0 (by decide)
  have h15 : v15 ≤ 2603664175094786505 := wmul_le2 ha0 hb5 (by decide)
  have h16 : v16 ≤ 5197737550796515794 := wmac_le2 h15 ha1 hb4 (by decide)
  have h17 : v17 ≤ 7791810926498245083 := wmac_le2 h16 ha2 hb3 (by decide)
  have h18 : v18 ≤ 10385884302199974372 := wmac_le2 h17 ha3 hb2 (by decide)
  have h19 : v19 ≤ 12979957677901703661 := wmac_le2 h18 ha4 hb1 (by decide)
  have h20 : v20 ≤ 15583617939207548976 := wmac_le2 h19 ha5 hb0 (by decide)
  have h21 : v21 ≤ 2603664175094786505 := wmul_le2 ha0 hb6 (by decide)
  have h22 : v22 ≤ 5197737550796515794 := wmac_le2 h21 ha1 hb5 (by decide)
  have h23 : v23 ≤ 7791810926498245083 := wmac_le2 h22 ha2 hb4 (by decide)
  have h24 : v24 ≤ 10385884302199974372 := wmac_le2 h23 ha3 hb3 (by decide)
  have h25 : v25 ≤ 12979957677901703661 := wmac_le2 h24 ha4 hb2 (by decide)
  have h26 : v26 ≤ 15574031053603432950 := wmac_le2 h25 ha5 hb1 (by decide)
  have h27 : v27 ≤ 18177691314909278265 := wmac_le2 h26 ha6 hb0 (by decide)
  have h28 : v28 ≤ 2603664175094786505 := wmul_le2 ha0 hb7 (by decide)
  have h29 : v29 ≤ 5197737550796515794 := wmac_le2 h28 ha1 hb6 (by decide)
  have h30 : v30 ≤ 7791810926498245083 := wmac_le2 h29 ha2 hb5 (by decide)
  have h31 : v31 ≤ 10385884302199974372 := wmac_le2 h30 ha3 hb4 (by decide)
  have h32 : v32 ≤ 12979957677901703661 := wmac_le2 h31 ha4 hb3 (by decide)
  have h33 : v33 ≤ 15574031053603432950 := wmac_le2 h32 ha5 hb2 (by decide)
  have h34 : v34 ≤ 18168104429305162239 := wmac_le2 h33 ha6 hb1 (by decide)
  have h35 : v35 ≤ 20771764690611007554 := wmac_le2 h34 ha7 hb0 (by decide)
  have h36 : v36 ≤ 2603664175094786505 := wmul_le2 ha0 hb8 (by decide)
  have h37 : v37 ≤ 5197737550796515794 := wmac_le2 h36 ha1 hb7 (by decide)
  have h38 : v38 ≤ 7791810926498245083 := wmac_le2 h37 ha2 hb6 (by decide)
  have h39 : v39 ≤ 10385884302199974372 := wmac_le2 h38 ha3 hb5 (by decide)
  have h40 : v40 ≤ 12979957677901703661 := wmac_le2 h39 ha4 hb4 (by decide)
  have h41 : v41 ≤ 15574031053603432950 := wmac_le2 h40 ha5 hb3 (by decide)
  have h42 : v42 ≤ 18168104429305162239 := wmac_le2 h41 ha6 hb2 (by decide)
  have h43 : v43 ≤ 20762177805006891528 := wmac_le2 h42 ha7 hb1 (by decide)
  have h44 : v44 ≤ 23365838066312736843 := wmac_le2 h43 ha8 hb0 (by decide)
  have h45 : v45 ≤ 43522264931 := wshr29_le3 h44 (by decide)
  have h46 : v46 ≤ 536870911 := wand_lt_mask29 _
  have h47 : v47 ≤ 2594073419223994220 := wmac_le2 h45 ha1 hb8 (by decide)
  have h48 : v48 ≤ 5188146794925723509 := wmac_le2 h47 ha2 hb7 (by decide)
  have h49 : v49 ≤ 7782220170627452798 := wmac_le2 h48 ha3 hb6 (by decide)
  have h50 : v50 ≤ 10376293546329182087 := wmac_le2 h49 ha4 hb5 (by decide)
  have h51 : v51 ≤ 12970366922030911376 := wmac_le2 h50 ha5 hb4 (by decide)
  have h52 : v52 ≤ 15564440297732640665 := wmac_le2 h51 ha6 hb3 (by decide)
  have h53 : v53 ≤ 18158513673434369954 := wmac_le2 h52 ha7 hb2 (by decide)
  have h54 : v54 ≤ 20752587049136099243 := wmac_le2 h53 ha8 hb1 (by decide)
  have h55 : v55 ≤ 536870911 := wand_lt_mask29 _
  have h56 : v56 ≤ 38654705601 := wshr29_le3 h54 (by decide)
  have h57 : v57 ≤ 2594073414356434890 := wmac_le2 h56 ha2 hb8 (by decide)
  have h58 : v58 ≤ 5188146790058164179 := wmac_le2 h57 ha3 hb7 (by decide)
  have h59 : v59 ≤ 7782220165759893468 := wmac_le2 h58 ha4 hb6 (by decide)
  have h60 : v60 ≤ 10376293541461622757 := wmac_le2 h59 ha5 hb5 (by decide)
  have h61 : v61 ≤ 12970366917163352046 := wmac_le2 h60 ha6 hb4 (by decide)
  have h62 : v62 ≤ 15564440292865081335 := wmac_le2 h61 ha7 hb3 (by decide)
  have h63 : v63 ≤ 18158513668566810624 := wmac_le2 h62 ha8 hb2 (by decide)
  have h64 : v64 ≤ 536870911 := wand_lt_mask29 _
  have h65 : v65 ≤ 33822867402 := wshr29_le3 h63 (by decide)
  have h66 : v66 ≤ 2594073409524596691 := wmac_le2 h65 ha3 hb8 (by decide)
  have h67 : v67 ≤ 5188146785226325980 := wmac_le2 h66 ha4 hb7 (by decide)
  have h68 : v68 ≤ 7782220160928055269 := wmac_le2 h67 ha5 hb6 (by decide)
  have h69 : v69 ≤ 10376293536629784558 := wmac_le2 h68 ha6 hb5 (by decide)
  have h70 : v70 ≤ 12970366912331513847 := wmac_le2 h69 ha7 hb4 (by decide)
  have h71 : v71 ≤ 15564440288033243136 := wmac_le2 h70 ha8 hb3 (by decide)
  have h72 : v72 ≤ 536870911 := wand_lt_mask29 _
  have h73 : v73 ≤ 28991029203 := wshr29_le3 h71 (by decide)
  have h74 : v74 ≤ 2594073404692758492 := wmac_le2 h73 ha4 hb8 (by decide)
  have h75 : v75 ≤ 5188146780394487781 := wmac_le2 h74 ha5 hb7 (by decide)
  have h76 : v76 ≤ 7782220156096217070 := wmac_le2 h75 ha6 hb6 (by decide)
  have h77 : v77 ≤ 10376293531797946359 := wmac_le2 h76 ha7 hb5 (by decide)
  have h78 : v78 ≤ 12970366907499675648 := wmac_le2 h77 ha8 hb4 (by decide)
  have h79 : v79 ≤ 536870911 := wand_lt_mask29 _
  have h80 : v80 ≤ 24159191004 := wshr29_le3 h78 (by decide)
  have h81 : v81 ≤ 2594073399860920293 := wmac_le2 h80 ha5 hb8 (by decide)
  have h82 : v82 ≤ 5188146775562649582 := wmac_le2 h81 ha6 hb7 (by decide)
  have h83 : v83 ≤ 7782220151264378871 := wmac_le2 h82 ha7 hb6 (by decide)
  have h84 : v84 ≤ 10376293526966108160 := wmac_le2 h83 ha8 hb5 (by decide)
  have h85 : v85 ≤ 536870911 := wand_lt_mask29 _
  have h86 : v86 ≤ 19327352805 := wshr29_le3 h84 (by decide)
  have h87 : v87 ≤ 2594073395029082094 := wmac_le2 h86 ha6 hb8 (by decide)
  have h88 : v88 ≤ 5188146770730811383 := wmac_le2 h87 ha7 hb7 (by decide)
  have h89 : v89 ≤ 7782220146432540672 := wmac_le2 h88 ha8 hb6 (by decide)
  have h90 : v90 ≤ 536870911 := wand_lt_mask29 _
  have h91 : v91 ≤ 14495514606 := wshr29_le3 h89 (by decide)
  have h92 : v92 ≤ 2594073390197243895 := wmac_le2 h91 ha7 hb8 (by decide)
  have h93 : v93 ≤ 5188146765898973184 := wmac_le2 h92 ha8 hb7 (by decide)
  have h94 : v94 ≤ 536870911 := wand_lt_mask29 _
  have h95 : v95 ≤ 9663676407 := wshr29_le3 h93 (by decide)
  have h96 : v96 ≤ 2594073385365405696 := wmac_le2 h95 ha8 hb8 (by decide)
  have h97 : v97 ≤ 536870911 := wand_lt_mask29 _
  have h98 : v98 ≤ 4831838208 := wshr29_le3 h96 (by decide)
  have h99 : v99 ≤ 4831838208 := h98
  have h100 : v100 ≤ 2613287158135264451 := wmacC_le3 h0 h55 (by decide)
  have h101 : v101 ≤ 536870911 := wand_lt_mask29 _
  have h102 : v102 ≤ 5207324441268258468 := wcarry_le3 h2 h100 (by decide)
  have h103 : v103 ≤ 5207325094103286244 := wmacC_le3 h102 h64 (by decide)
  have h104 : v104 ≤ 536870911 := wand_lt_mask29 _
  have h105 : v105 ≤ 7801397821801759936 := wcarry_le3 h5 h103 (by decide)
  have h106 : v106 ≤ 7801398474636787712 := wmacC_le3 h105 h72 (by decide)
  have h107 : v107 ≤ 536870911 := wand_lt_mask29 _
  have h108 : v108 ≤ 10395471202335327424 := wcarry_le3 h9 h106 (by decide)
  have h109 : v109 ≤ 10395471855170355200 := wmacC_le3 h108 h79 (by decide)
  have h110 : v110 ≤ 536870911 := wand_lt_mask29 _
  have h111 : v111 ≤ 12989544582868894912 := wcarry_le3 h14 h109 (by decide)
  have h112 : v112 ≤ 12989545235703922688 := wmacC_le3 h111 h85 (by decide)
  have h113 : v113 ≤ 536870911 := wand_lt_mask29 _
  have h114 : v114 ≤ 15583617963402462400 := wcarry_le3 h20 h112 (by decide)
  have h115 : v115 ≤ 15583618616237490176 := wmacC_le3 h114 h90 (by decide)
  have h116 : v116 ≤ 536870911 := wand_lt_mask29 _
  have h117 : v117 ≤ 18177691343936029888 := wcarry_le3 h27 h115 (by decide)
  have h118 : v118 ≤ 18177691996771057664 := wmacC_le3 h117 h94 (by decide)
  have h119 : v119 ≤ 536870911 := wand_lt_mask29 _
  have h120 : v120 ≤ 20771764724469597376 := wcarry_le3 h35 h118 (by decide)
  have h121 : v121 ≤ 20771765377304625152 := wmacC_le3 h120 h97 (by decide)
  have h122 : v122 ≤ 536870911 := wand_lt_mask29 _
  have h123 : v123 ≤ 39227298932 := wcarry_le3 h46 h121 (by decide)
  have h124 : v124 ≤ 5914742559860 := wmacC_le3 h123 h99 (by decide)
  have h125 : v125 ≤ 536870911 := wand_lt_mask29 _
  have h126 : v126 ≤ 11017 := wshr29_le3 h124 (by decide)
  have h127 : v127 ≤ 550267583 := wmacC_le3 h101 h126 (by decide)
  exact ⟨le_trans h127 (by decide), le_trans h104 (by decide), le_trans h107 (by decide), le_trans h110 (by decide), le_trans h113 (by decide), le_trans h116 (by decide), le_trans h119 (by decide), le_trans h122 (by decide), le_trans h125 (by decide)⟩

theorem sqr_bnd_cover (a : Fe) (ha : a.Bnd 1100535166 1073741822) :
    (mpi29_gfp_sqr_avx2 a).Bnd 542825663 536870911 := by
  obtain ⟨ha0, ha1, ha2, ha3, ha4, ha5, ha6, ha7, ha8⟩ := ha
  rw [mpi29_gfp_sqr_avx2.eq_def]
  lift_lets
  extract_lets v0 v1 v2 v3 v4 v5 v6 v7 v8 v9 v10 v11 v12 v13 v14 v15 v16 v17 v18 v19 v20 v21 v22 v23 v24 v25 v26 v27 v28 v29 v30 v31 v32 v33 v34 v35 v36 v37 v38 v39 v40 v41 v42 v43 v44 v45 v46 v47 v48 v49 v50 v51 v52 v53 v54 v55 v56 v57 v58 v59 v60 v61 v62 v63 v64 v65 v66 v67 v68 v69 v70 v71 v72 v73 v74 v75 v76 v77 v78 v79 v80 v81 v82 v83 v84 v85 v86 v87 v88 v89 v90 v91 v92 v93 v94 v95 v96 v97 v98 v99 v100 v101 v102 v103 v104 v105 v106
  have h0 : v0 ≤ 1211177651602647556 := wmul_le2 ha0 ha0 (by decide)
  have h1 : v1 ≤ 1181690634315912452 := wmul_le2 ha0 ha1 (by decide)
  have h2 : v2 ≤ 2363381268631824904 := wshl1_le3 h1 (by decide)
  have h3 : v3 ≤ 1181690634315912452 := wmul_le2 ha0 ha2 (by decide)
  have h4 : v4 ≤ 2363381268631824904 := wshl1_le3 h3 (by decide)
  have h5 : v5 ≤ 3516302768943704588 := wmac_le2 h4 ha1 ha1 (by decide)
  have h6 : v6 ≤ 1181690634315912452 := wmul_le2 ha0 ha3 (by decide)
  have h7 : v7 ≤ 2334612134627792136 := wmac_le2 h6 ha1 ha2 (by decide)
  have h8 : v8 ≤ 4669224269255584272 := wshl1_le3 h7 (by decide)
  have h9 : v9 ≤ 1181690634315912452 := wmul_le2 ha0 ha4 (by decide)
  have h10 : v10 ≤ 2334612134627792136 := wmac_le2 h9 ha1 ha3 (by decide)
  have h11 : v11 ≤ 4669224269255584272 := wshl1_le3 h10 (by decide)
  have h12 : v12 ≤ 5822145769567463956 := wmac_le2 h11 ha2 ha2 (by decide)
  have h13 : v13 ≤ 1181690634315912452 := wmul_le2 ha0 ha5 (by decide)
  have h14 : v14 ≤ 2334612134627792136 := wmac_le2 h13 ha1 ha4 (by decide)
  have h15 : v15 ≤ 3487533634939671820 := wmac_le2 h14 ha2 ha3 (by decide)
  have h16 : v16 ≤ 6975067269879343640 := wshl1_le3 h15 (by decide)
  have h17 : v17 ≤ 1181690634315912452 := wmul_le2 ha0 ha6 (by decide)
  have h18 : v18 ≤ 2334612134627792136 := wmac_le2 h17 ha1 ha5 (by decide)
  have h19 : v19 ≤ 3487533634939671820 := wmac_le2 h18 ha2 ha4 (by decide)
  have h20 : v20 ≤ 6975067269879343640 := wshl1_le3 h19 (by decide)
  have h21 : v21 ≤ 8127988770191223324 := wmac_le2 h20 ha3 ha3 (by decide)
  have h22 : v22 ≤ 1181690634315912452 := wmul_le2 ha0 ha7 (by decide)
  have h23 : v23 ≤ 2334612134627792136 := wmac_le2 h22 ha1 ha6 (by decide)
  have h24 : v24 ≤ 3487533634939671820 := wmac_le2 h23 ha2 ha5 (by decide)
  have h25 : v25 ≤ 4640455135251551504 := wmac_le2 h24 ha3 ha4 (by decide)
  have h26 : v26 ≤ 9280910270503103008 := wshl1_le3 h25 (by decide)
  have h27 : v27 ≤ 1181690634315912452 := wmul_le2 ha0 ha8 (by decide)
  have h28 : v28 ≤ 2334612134627792136 := wmac_le2 h27 ha1 ha7 (by decide)
  have h29 : v29 ≤ 3487533634939671820 := wmac_le2 h28 ha2 ha6 (by decide)
  have h30 : v30 ≤ 4640455135251551504 := wmac_le2 h29 ha3 ha5 (by decide)
  have h31 : v31 ≤ 9280910270503103008 := wshl1_le3 h30 (by decide)
  have h32 : v32 ≤ 10433831770814982692 := wmac_le2 h31 ha4 ha4 (by decide)
  have h33 : v33 ≤ 19434526135 := wshr29_le3 h32 (by decide)
  have h34 : v34 ≤ 536870911 := wand_lt_mask29 _
  have h35 : v35 ≤ 1152921500311879684 := wmul_le2 ha1 ha8 (by decide)
  have h36 : v36 ≤ 2305843000623759368 := wmac_le2 h35 ha2 ha7 (by decide)
  have h37 : v37 ≤ 3458764500935639052 := wmac_le2 h36 ha3 ha6 (by decide)
  have h38 : v38 ≤ 4611686001247518736 := wmac_le2 h37 ha4 ha5 (by decide)
  have h39 : v39 ≤ 9223372021929563607 := waddshl1_le3 h33 h38 (by decide)
  have h40 : v40 ≤ 536870911 := wand_lt_mask29 _
  have h41 : v41 ≤ 17179869156 := wshr29_le3 h39 (by decide)
  have h42 : v42 ≤ 1152921500311879684 := wmul_le2 ha2 ha8 (by decide)
  have h43 : v43 ≤ 2305843000623759368 := wmac_le2 h42 ha3 ha7 (by decide)
  have h44 : v44 ≤ 3458764500935639052 := wmac_le2 h43 ha4 ha6 (by decide)
  have h45 : v45 ≤ 6917529019051147260 := waddshl1_le3 h41 h44 (by decide)
  have h46 : v46 ≤ 8070450519363026944 := wmac_le2 h45 ha5 ha5 (by decide)
  have h47 : v47 ≤ 536870911 := wand_lt_mask29 _
  have h48 : v48 ≤ 15032385512 := wshr29_le3 h46 (by decide)
  have h49 : v49 ≤ 1152921500311879684 := wmul_le2 ha3 ha8 (by decide)
  have h50 : v50 ≤ 2305843000623759368 := wmac_le2 h49 ha4 ha7 (by decide)
  have h51 : v51 ≤ 3458764500935639052 := wmac_le2 h50 ha5 ha6 (by decide)
  have h52 : v52 ≤ 6917529016903663616 := waddshl1_le3 h48 h51 (by decide)
  have h53 : v53 ≤ 536870911 := wand_lt_mask29 _
  have h54 : v54 ≤ 12884901868 := wshr29_le3 h52 (by decide)
  have h55 : v55 ≤ 1152921500311879684 := wmul_le2 ha4 ha8 (by decide)
  have h56 : v56 ≤ 2305843000623759368 := wmac_le2 h55 ha5 ha7 (by decide)
  have h57 : v57 ≤ 4611686014132420604 := waddshl1_le3 h54 h56 (by decide)
  have h58 : v58 ≤ 5764607514444300288 := wmac_le2 h57 ha6 ha6 (by decide)
  have h59 : v59 ≤ 536870911 := wand_lt_mask29 _
  have h60 : v60 ≤ 10737418224 := wshr29_le3 h58 (by decide)
  have h61 : v61 ≤ 1152921500311879684 := wmul_le2 ha5 ha8 (by decide)
  have h62 : v62 ≤ 2305843000623759368 := wmac_le2 h61 ha6 ha7 (by decide)
  have h63 : v63 ≤ 4611686011984936960 := waddshl1_le3 h60 h62 (by decide)
  have h64 : v64 ≤ 536870911 := wand_lt_mask29 _
  have h65 : v65 ≤ 8589934580 := wshr29_le3 h63 (by decide)
  have h66 : v66 ≤ 1152921500311879684 := wmul_le2 ha6 ha8 (by decide)
  have h67 : v67 ≤ 2305843009213693948 := waddshl1_le3 h65 h66 (by decide)
  have h68 : v68 ≤ 3458764509525573632 := wmac_le2 h67 ha7 ha7 (by decide)
  have h69 : v69 ≤ 536870911 := wand_lt_mask29 _
  have h70 : v70 ≤ 6442450936 := wshr29_le3 h68 (by decide)
  have h71 : v71 ≤ 1152921500311879684 := wmul_le2 ha7 ha8 (by decide)
  have h72 : v72 ≤ 2305843007066210304 := waddshl1_le3 h70 h71 (by decide)
  have h73 : v73 ≤ 536870911 := wand_lt_mask29 _
  have h74 : v74 ≤ 4294967292 := wshr29_le3 h72 (by decide)
  have h75 : v75 ≤ 1152921504606846976 := wmac_le2 h74 ha8 ha8 (by decide)
  have h76 : v76 ≤ 536870911 := wand_lt_mask29 _
  have h77 : v77 ≤ 2147483648 := wshr29_le3 h75 (by decide)
  have h78 : v78 ≤ 2147483648 := h77
  have h79 : v79 ≤ 1211178304437675332 := waddmulC_le3 h0 h40 (by decide)
  have h80 : v80 ≤ 536870911 := wand_lt_mask29 _
  have h81 : v81 ≤ 2363381270887820297 := wcarry_le3 h2 h79 (by decide)
  have h82 : v82 ≤ 2363381923722848073 := wmacC_le3 h81 h47 (by decide)
  have h83 : v83 ≤ 536870911 := wand_lt_mask29 _
  have h84 : v84 ≤ 3516302773345846464 := wcarry_le3 h5 h82 (by decide)
  have h85 : v85 ≤ 3516303426180874240 := wmacC_le3 h84 h53 (by decide)
  have h86 : v86 ≤ 536870911 := wand_lt_mask29 _
  have h87 : v87 ≤ 4669224275805209792 := wcarry_le3 h8 h85 (by decide)
  have h88 : v88 ≤ 4669224928640237568 := wmacC_le3 h87 h59 (by decide)
  have h89 : v89 ≤ 536870911 := wand_lt_mask29 _
  have h90 : v90 ≤ 5822145778264573120 := wcarry_le3 h12 h88 (by decide)
  have h91 : v91 ≤ 5822146431099600896 := wmacC_le3 h90 h64 (by decide)
  have h92 : v92 ≤ 536870911 := wand_lt_mask29 _
  have h93 : v93 ≤ 6975067280723936448 := wcarry_le3 h16 h91 (by decide)
  have h94 : v94 ≤ 6975067933558964224 := wmacC_le3 h93 h69 (by decide)
  have h95 : v95 ≤ 536870911 := wand_lt_mask29 _
  have h96 : v96 ≤ 8127988783183299776 := wcarry_le3 h21 h94 (by decide)
  have h97 : v97 ≤ 8127989436018327552 := wmacC_le3 h96 h73 (by decide)
  have h98 : v98 ≤ 536870911 := wand_lt_mask29 _
  have h99 : v99 ≤ 9280910285642663104 := wcarry_le3 h26 h97 (by decide)
  have h100 : v100 ≤ 9280910938477690880 := wmacC_le3 h99 h76 (by decide)
  have h101 : v101 ≤ 536870911 := wand_lt_mask29 _
  have h102 : v102 ≤ 17823914651 := wcarry_le3 h34 h100 (by decide)
  have h103 : v103 ≤ 2629164030619 := wmacC_le3 h102 h78 (by decide)
  have h104 : v104 ≤ 536870911 := wand_lt_mask29 _
  have h105 : v105 ≤ 4897 := wshr29_le3 h103 (by decide)
  have h106 : v106 ≤ 542825663 := waddmulC_le3 h80 h105 (by decide)
  exact ⟨le_trans h106 (by decide), le_trans h83 (by decide), le_trans h86 (by decide), le_trans h89 (by decide), le_trans h92 (by decide), le_trans h95 (by decide), le_trans h98 (by decide), le_trans h101 (by decide), le_trans h104 (by decide)⟩

theorem sbc_bnd_cover (a b : Fe) (ha : a.Bnd 550267583 536870911) (hb : b.Bnd 550267583 536870911) :
    (mpi29_gfp_sbc_avx2 a b).Bnd 536874559 536870911 := by
  obtain ⟨ha0, ha1, ha2, ha3, ha4, ha5, ha6, ha7, ha8⟩ := ha
  obtain ⟨hb0, hb1, hb2, hb3, hb4, hb5, hb6, hb7, hb8⟩ := hb
  rw [mpi29_gfp_sbc_avx2.eq_def]
  lift_lets
  extract_lets v0 v1 v2 v3 v4 v5 v6 v7 v8 v9 v10 v11 v12 v13 v14 v15 v16 v17 v18 v19 v20 v21 v22 v23 v24 v25 v26 v27 v28
  have h0 : v0 ≤ 1624006975 := wsubrow1_le ha0 hb0 (by decide) (by decide) (by decide)
  have h1 : v1 ≤ 1610612733 := wsubrow2_le ha1 hb1 (by decide) (by decide) (by decide)
  have h2 : v2 ≤ 1610612733 := wsubrow2_le ha2 hb2 (by decide) (by decide) (by decide)
  have h3 : v3 ≤ 1610612733 := wsubrow2_le ha3 hb3 (by decide) (by decide) (by decide)
  have h4 : v4 ≤ 1610612733 := wsubrow2_le ha4 hb4 (by decide) (by decide) (by decide)
  have h5 : v5 ≤ 1610612733 := wsubrow2_le ha5 hb5 (by decide) (by decide) (by decide)
  have h6 : v6 ≤ 1610612733 := wsubrow2_le ha6 hb6 (by decide) (by decide) (by decide)
  have h7 : v7 ≤ 1610612733 := wsubrow2_le ha7 hb7 (by decide) (by decide) (by decide)
  have h8 : v8 ≤ 1610612733 := wsubrow2_le ha8 hb8 (by decide) (by decide) (by decide)
  have h9 : v9 ≤ 1610612736 := wcarry_le3 h1 h0 (by decide)
  have h10 : v10 ≤ 536870911 := wand_lt_mask29 _
  have h11 : v11 ≤ 1610612736 := wcarry_le3 h2 h9 (by decide)
  have h12 : v12 ≤ 536870911 := wand_lt_mask29 _
  have h13 : v13 ≤ 1610612736 := wcarry_le3 h3 h11 (by decide)
  have h14 : v14 ≤ 536870911 := wand_lt_mask29 _
  have h15 : v15 ≤ 1610612736 := wcarry_le3 h4 h13 (by decide)
  have h16 : v16 ≤ 536870911 := wand_lt_mask29 _
  have h17 : v17 ≤ 1610612736 := wcarry_le3 h5 h15 (by decide)
  have h18 : v18 ≤ 536870911 := wand_lt_mask29 _
  have h19 : v19 ≤ 1610612736 := wcarry_le3 h6 h17 (by decide)
  have h20 : v20 ≤ 536870911 := wand_lt_mask29 _
  have h21 : v21 ≤ 1610612736 := wcarry_le3 h7 h19 (by decide)
  have h22 : v22 ≤ 536870911 := wand_lt_mask29 _
  have h23 : v23 ≤ 1610612736 := wcarry_le3 h8 h21 (by decide)
  have h24 : v24 ≤ 536870911 := wand_lt_mask29 _
  have h25 : v25 ≤ 3 := wshr29_le3 h23 (by decide)
  have h26 : v26 ≤ 3648 := wmul_le2 h25 (show CONSTC ≤ 1216 from le_refl _) (by decide)
  have h27 : v27 ≤ 536874559 := wadd_le3 h10 h26 (by decide)
  have h28 : v28 ≤ 536870911 := wand_lt_mask29 _
  exact ⟨le_trans h27 (by decide), le_trans h12 (by decide), le_trans h14 (by decide), le_trans h16 (by decide), le_trans h18 (by decide), le_trans h20 (by decide), le_trans h22 (by decide), le_trans h24 (by decide), le_trans h28 (by decide)⟩

theorem mul29_bnd_cover (a : Fe) (c : Nat) (ha : a.Bnd 1616565055 1610612733) (hc : c ≤ 536870911) :
    (mpi29_gfp_mul29_avx2 a c).l0 ≤ 1073741822 ∧ (mpi29_gfp_mul29_avx2 a c).l1 ≤ 536874558 ∧ (mpi29_gfp_mul29_avx2 a c).l2 ≤ 536870911 ∧ (mpi29_gfp_mul29_avx2 a c).l3 ≤ 536870911 ∧ (mpi29_gfp_mul29_avx2 a c).l4 ≤ 536870911 ∧ (mpi29_gfp_mul29_avx2 a c).l5 ≤ 536870911 ∧ (mpi29_gfp_mul29_avx2 a c).l6 ≤ 536870911 ∧ (mpi29_gfp_mul29_avx2 a c).l7 ≤ 536870911 ∧ (mpi29_gfp_mul29_avx2 a c).l8 ≤ 536870911 := by
  obtain ⟨ha0, ha1, ha2, ha3, ha4, ha5, ha6, ha7, ha8⟩ := ha
  rw [mpi29_gfp_mul29_avx2.eq_def]
  lift_lets
  extract_lets v0 v1 v2 v3 v4 v5 v6 v7 v8 v9 v10 v11 v12 v13 v14 v15 v16 v17 v18 v19 v20 v21 v22 v23 v24 v25 v26 v27 v28
  have h0 : v0 ≤ 867886753768615105 := wmul_le2 ha0 hc (by decide)
  have h1 : v1 ≤ 536870911 := wand_lt_mask29 _
  have h2 : v2 ≤ 1616565051 := wshr29_le3 h0 (by decide)
  have h3 : v3 ≤ 864691126850474814 := wmac_le2 h2 ha1 hc (by decide)
  have h4 : v4 ≤ 536870911 := wand_lt_mask29 _
  have h5 : v5 ≤ 1610612733 := wshr29_le3 h3 (by decide)
  have h6 : v6 ≤ 864691126844522496 := wmac_le2 h5 ha2 hc (by decide)
  have h7 : v7 ≤ 536870911 := wand_lt_mask29 _
  have h8 : v8 ≤ 1610612733 := wshr29_le3 h6 (by decide)
  have h9 : v9 ≤ 864691126844522496 := wmac_le2 h8 ha3 hc (by decide)
  have h10 : v10 ≤ 536870911 := wand_lt_mask29 _
  have h11 : v11 ≤ 1610612733 := wshr29_le3 h9 (by decide)
  have h12 : v12 ≤ 864691126844522496 := wmac_le2 h11 ha4 hc (by decide)
  have h13 : v13 ≤ 536870911 := wand_lt_mask29 _
  have h14 : v14 ≤ 1610612733 := wshr29_le3 h12 (by decide)
  have h15 : v15 ≤ 864691126844522496 := wmac_le2 h14 ha5 hc (by decide)
  have h16 : v16 ≤ 536870911 := wand_lt_mask29 _
  have h17 : v17 ≤ 1610612733 := wshr29_le3 h15 (by decide)
  have h18 : v18 ≤ 864691126844522496 := wmac_le2 h17 ha6 hc (by decide)
  have h19 : v19 ≤ 536870911 := wand_lt_mask29 _
  have h20 : v20 ≤ 1610612733 := wshr29_le3 h18 (by decide)
  have h21 : v21 ≤ 864691126844522496 := wmac_le2 h20 ha7 hc (by decide)
  have h22 : v22 ≤ 536870911 := wand_lt_mask29 _
  have h23 : v23 ≤ 1610612733 := wshr29_le3 h21 (by decide)
  have h24 : v24 ≤ 864691126844522496 := wmac_le2 h23 ha8 hc (by decide)
  have h25 : v25 ≤ 536870911 := wand_lt_mask29 _
  have h26 : v26 ≤ 1958505083328 := wmul_le2 (show CONSTC ≤ 1216 from le_refl _) (show wshr v24 BITS29 ≤ 1610612733 from wshr29_le3 h24 (by decide)) (by decide)
  have h27 : v27 ≤ 1073741822 := wadd_le3 h1 (show wand v26 MASK29 ≤ 536870911 from wand_lt_mask29 _) (by decide)
  have h28 : v28 ≤ 536874558 := wadd_le3 h4 (show wshr v26 BITS29 ≤ 3647 from wshr29_le3 h26 (by decide)) (by decide)
  exact ⟨le_trans h27 (by decide), le_trans h28 (by decide), le_trans h7 (by decide), le_trans h10 (by decide), le_trans h13 (by decide), le_trans h16 (by decide), le_trans h19 (by decide), le_trans h22 (by decide), le_trans h25 (by decide)⟩


/-! ## Named intermediates of mon_ladder_step_avx2, for operand analysis -/

def lstep_tmp1a (p : ProPoint) : Fe := mpi29_gfp_add_avx2 p.x p.z

def lstep_pxa (p : ProPoint) : Fe := mpi29_gfp_sbc_avx2 p.x p.z

def lstep_tmp2a (q : ProPoint) : Fe := mpi29_gfp_add_avx2 q.x q.z

def lstep_qxa (q : ProPoint) : Fe := mpi29_gfp_sub_avx2 q.x q.z

def lstep_pza (p : ProPoint) : Fe := mpi29_gfp_sqr_avx2 (lstep_tmp1a p)

def lstep_qza (p q : ProPoint) : Fe := mpi29_gfp_mul_avx2 (lstep_tmp2a q) (lstep_pxa p)

def lstep_tmp2b (p q : ProPoint) : Fe := mpi29_gfp_mul_avx2 (lstep_qxa q) (lstep_tmp1a p)

def lstep_tmp1b (p : ProPoint) : Fe := mpi29_gfp_sqr_avx2 (lstep_pxa p)

def lstep_pxb (p : ProPoint) : Fe := mpi29_gfp_mul_avx2 (lstep_pza p) (lstep_tmp1b p)

def lstep_tmp1c (p : ProPoint) : Fe := mpi29_gfp_sub_avx2 (lstep_pza p) (lstep_tmp1b p)

def lstep_qxb (p : ProPoint) : Fe := mpi29_gfp_mul29_avx2 (lstep_tmp1c p) 121665

def lstep_qxc (p : ProPoint) : Fe := mpi29_gfp_add_avx2 (lstep_qxb p) (lstep_pza p)

def lstep_pzb (p : ProPoint) : Fe := mpi29_gfp_mul_avx2 (lstep_qxc p) (lstep_tmp1c p)

def lstep_tmp1d (p q : ProPoint) : Fe := mpi29_gfp_add_avx2 (lstep_tmp2b p q) (lstep_qza p q)

def lstep_qxd (p q : ProPoint) : Fe := mpi29_gfp_sqr_avx2 (lstep_tmp1d p q)

def lstep_tmp1e (p q : ProPoint) : Fe := mpi29_gfp_sbc_avx2 (lstep_tmp2b p q) (lstep_qza p q)

def lstep_tmp2c (p q : ProPoint) : Fe := mpi29_gfp_sqr_avx2 (lstep_tmp1e p q)

def lstep_qzb (p q : ProPoint) (xd : Fe) : Fe := mpi29_gfp_mul_avx2 (lstep_tmp2c p q) xd

def feM : Fe := ⟨536870911, 536870911, 536870911, 536870911, 536870911,
  536870911, 536870911, 536870911, 536870911⟩

/-- C5: each non-output intermediate of one Montgomery ladder step on reduced
inputs obeys the stated per-limb bounds (all below 2^31, but not all reduced);
the first conjunct identifies these intermediates as the exact operands of the
multiplications and squarings inside mon_ladder_step_avx2. -/
theorem C5_operand_bounds (p q : ProPoint) (xd : Fe)
    (hpx : p.x.Bnd 536870911 536870911) (hpz : p.z.Bnd 536870911 536870911)
    (hqx : q.x.Bnd 536870911 536870911) (hqz : q.z.Bnd 536870911 536870911)
    (hxd : xd.Bnd 536870911 536870911) :
    mon_ladder_step_avx2 p q xd =
      (⟨lstep_pxb p, lstep_tmp1e p q, lstep_pzb p⟩,
       ⟨lstep_qxd p q, lstep_tmp2c p q, lstep_qzb p q xd⟩) ∧
    (lstep_tmp1a p).Bnd 1073741822 1073741822 ∧
    (lstep_pxa p).Bnd 536874559 536870911 ∧
    (lstep_tmp2a q).Bnd 1073741822 1073741822 ∧
    (lstep_qxa q).Bnd 1610610303 1610612733 ∧
    (lstep_pza p).Bnd 542825663 536870911 ∧
    (lstep_tmp1b p).Bnd 542825663 536870911 ∧
    (lstep_tmp1c p).Bnd 1616565055 1610612733 ∧
    (lstep_qxc p).Bnd 1616567485 1073745469 ∧
    (lstep_tmp1d p q).Bnd 1100535166 1073741822 ∧
    (lstep_tmp1e p q).Bnd 536874559 536870911 ∧
    (lstep_tmp2c p q).Bnd 542825663 536870911 := by
  have h1a : (lstep_tmp1a p).Bnd 1073741822 1073741822 :=
    ⟨wadd_le3 hpx.1 hpz.1 (by decide), wadd_le3 hpx.2.1 hpz.2.1 (by decide), wadd_le3 hpx.2.2.1 hpz.2.2.1 (by decide), wadd_le3 hpx.2.2.2.1 hpz.2.2.2.1 (by decide), wadd_le3 hpx.2.2.2.2.1 hpz.2.2.2.2.1 (by decide), wadd_le3 hpx.2.2.2.2.2.1 hpz.2.2.2.2.2.1 (by decide), wadd_le3 hpx.2.2.2.2.2.2.1 hpz.2.2.2.2.2.2.1 (by decide), wadd_le3 hpx.2.2.2.2.2.2.2.1 hpz.2.2.2.2.2.2.2.1 (by decide), wadd_le3 hpx.2.2.2.2.2.2.2.2 hpz.2.2.2.2.2.2.2.2 (by decide)⟩
  have h2a : (lstep_tmp2a q).Bnd 1073741822 1073741822 :=
    ⟨wadd_le3 hqx.1 hqz.1 (by decide), wadd_le3 hqx.2.1 hqz.2.1 (by decide), wadd_le3 hqx.2.2.1 hqz.2.2.1 (by decide), wadd_le3 hqx.2.2.2.1 hqz.2.2.2.1 (by decide), wadd_le3 hqx.2.2.2.2.1 hqz.2.2.2.2.1 (by decide), wadd_le3 hqx.2.2.2.2.2.1 hqz.2.2.2.2.2.1 (by decide), wadd_le3 hqx.2.2.2.2.2.2.1 hqz.2.2.2.2.2.2.1 (by decide), wadd_le3 hqx.2.2.2.2.2.2.2.1 hqz.2.2.2.2.2.2.2.1 (by decide), wadd_le3 hqx.2.2.2.2.2.2.2.2 hqz.2.2.2.2.2.2.2.2 (by decide)⟩
  have hpxa : (lstep_pxa p).Bnd 536874559 536870911 :=
    sbc_bnd_cover p.x p.z (Fe.Bnd_mono hpx (by decide) (by decide)) (Fe.Bnd_mono hpz (by decide) (by decide))
  have hqxa : (lstep_qxa q).Bnd 1610610303 1610612733 :=
    ⟨wsubrow1_le hqx.1 hqz.1 (by decide) (by decide) (by decide), wsubrow2_le hqx.2.1 hqz.2.1 (by decide) (by decide) (by decide), wsubrow2_le hqx.2.2.1 hqz.2.2.1 (by decide) (by decide) (by decide), wsubrow2_le hqx.2.2.2.1 hqz.2.2.2.1 (by decide) (by decide) (by decide), wsubrow2_le hqx.2.2.2.2.1 hqz.2.2.2.2.1 (by decide) (by decide) (by decide), wsubrow2_le hqx.2.2.2.2.2.1 hqz.2.2.2.2.2.1 (by decide) (by decide) (by decide), wsubrow2_le hqx.2.2.2.2.2.2.1 hqz.2.2.2.2.2.2.1 (by decide) (by decide) (by decide), wsubrow2_le hqx.2.2.2.2.2.2.2.1 hqz.2.2.2.2.2.2.2.1 (by decide) (by decide) (by decide), wsubrow2_le hqx.2.2.2.2.2.2.2.2 hqz.2.2.2.2.2.2.2.2 (by decide) (by decide) (by decide)⟩
  have hpza : (lstep_pza p).Bnd 542825663 536870911 :=
    sqr_bnd_cover _ (Fe.Bnd_mono h1a (by decide) (by decide))
  have hqza : (lstep_qza p q).Bnd 550267583 536870911 :=
    mul_bnd_cover _ _ (Fe.Bnd_mono h2a (by decide) (by decide)) (Fe.Bnd_mono hpxa (by decide) (by decide))
  have h2b : (lstep_tmp2b p q).Bnd 550267583 536870911 :=
    mul_bnd_cover _ _ (Fe.Bnd_mono hqxa (by decide) (by decide)) (Fe.Bnd_mono h1a (by decide) (by decide))
  have h1b : (lstep_tmp1b p).Bnd 542825663 536870911 :=
    sqr_bnd_cover _ (Fe.Bnd_mono hpxa (by decide) (by decide))
  have h1c : (lstep_tmp1c p).Bnd 1616565055 1610612733 :=
    ⟨wsubrow1_le hpza.1 h1b.1 (by decide) (by decide) (by decide), wsubrow2_le hpza.2.1 h1b.2.1 (by decide) (by decide) (by decide), wsubrow2_le hpza.2.2.1 h1b.2.2.1 (by decide) (by decide) (by decide), wsubrow2_le hpza.2.2.2.1 h1b.2.2.2.1 (by decide) (by decide) (by decide), wsubrow2_le hpza.2.2.2.2.1 h1b.2.2.2.2.1 (by decide) (by decide) (by decide), wsubrow2_le hpza.2.2.2.2.2.1 h1b.2.2.2.2.2.1 (by decide) (by decide) (by decide), wsubrow2_le hpza.2.2.2.2.2.2.1 h1b.2.2.2.2.2.2.1 (by decide) (by decide) (by decide), wsubrow2_le hpza.2.2.2.2.2.2.2.1 h1b.2.2.2.2.2.2.2.1 (by decide) (by decide) (by decide), wsubrow2_le hpza.2.2.2.2.2.2.2.2 h1b.2.2.2.2.2.2.2.2 (by decide) (by decide) (by decide)⟩
  have h29 := mul29_bnd_cover (lstep_tmp1c p) 121665 h1c (by decide)
  have hqxc : (lstep_qxc p).Bnd 1616567485 1073745469 :=
    ⟨wadd_le3 h29.1 hpza.1 (by decide), wadd_le3 h29.2.1 hpza.2.1 (by decide), wadd_le3 h29.2.2.1 hpza.2.2.1 (by decide), wadd_le3 h29.2.2.2.1 hpza.2.2.2.1 (by decide), wadd_le3 h29.2.2.2.2.1 hpza.2.2.2.2.1 (by decide), wadd_le3 h29.2.2.2.2.2.1 hpza.2.2.2.2.2.1 (by decide), wadd_le3 h29.2.2.2.2.2.2.1 hpza.2.2.2.2.2.2.1 (by decide), wadd_le3 h29.2.2.2.2.2.2.2.1 hpza.2.2.2.2.2.2.2.1 (by decide), wadd_le3 h29.2.2.2.2.2.2.2.2 hpza.2.2.2.2.2.2.2.2 (by decide)⟩
  have h1d : (lstep_tmp1d p q).Bnd 1100535166 1073741822 :=
    ⟨wadd_le3 h2b.1 hqza.1 (by decide), wadd_le3 h2b.2.1 hqza.2.1 (by decide), wadd_le3 h2b.2.2.1 hqza.2.2.1 (by decide), wadd_le3 h2b.2.2.2.1 hqza.2.2.2.1 (by decide), wadd_le3 h2b.2.2.2.2.1 hqza.2.2.2.2.1 (by decide), wadd_le3 h2b.2.2.2.2.2.1 hqza.2.2.2.2.2.1 (by decide), wadd_le3 h2b.2.2.2.2.2.2.1 hqza.2.2.2.2.2.2.1 (by decide), wadd_le3 h2b.2.2.2.2.2.2.2.1 hqza.2.2.2.2.2.2.2.1 (by decide), wadd_le3 h2b.2.2.2.2.2.2.2.2 hqza.2.2.2.2.2.2.2.2 (by decide)⟩
  have h1e : (lstep_tmp1e p q).Bnd 536874559 536870911 :=
    sbc_bnd_cover _ _ h2b hqza
  have h2c : (lstep_tmp2c p q).Bnd 542825663 536870911 :=
    sqr_bnd_cover _ (Fe.Bnd_mono h1e (by decide) (by decide))
  exact ⟨rfl, h1a, hpxa, h2a, hqxa, hpza, h1b, h1c, hqxc, h1d, h1e, h2c⟩

/-- C5 witness: the operand-bound theorem instantiated at concrete reduced
points. -/
theorem C5_operand_bounds_witness :
    mon_ladder_step_avx2 (ProPoint.mk feOne feZero feOne) (ProPoint.mk feOne feZero feOne) feOne =
      (⟨lstep_pxb (ProPoint.mk feOne feZero feOne), lstep_tmp1e (ProPoint.mk feOne feZero feOne) (ProPoint.mk feOne feZero feOne), lstep_pzb (ProPoint.mk feOne feZero feOne)⟩,
       ⟨lstep_qxd (ProPoint.mk feOne feZero feOne) (ProPoint.mk feOne feZero feOne), lstep_tmp2c (ProPoint.mk feOne feZero feOne) (ProPoint.mk feOne feZero feOne), lstep_qzb (ProPoint.mk feOne feZero feOne) (ProPoint.mk feOne feZero feOne) feOne⟩) ∧
    (lstep_tmp1a (ProPoint.mk feOne feZero feOne)).Bnd 1073741822 1073741822 ∧
    (lstep_pxa (ProPoint.mk feOne feZero feOne)).Bnd 536874559 536870911 ∧
    (lstep_tmp2a (ProPoint.mk feOne feZero feOne)).Bnd 1073741822 1073741822 ∧
    (lstep_qxa (ProPoint.mk feOne feZero feOne)).Bnd 1610610303 1610612733 ∧
    (lstep_pza (ProPoint.mk feOne feZero feOne)).Bnd 542825663 536870911 ∧
    (lstep_tmp1b (ProPoint.mk feOne feZero feOne)).Bnd 542825663 536870911 ∧
    (lstep_tmp1c (ProPoint.mk feOne feZero feOne)).Bnd 1616565055 1610612733 ∧
    (lstep_qxc (ProPoint.mk feOne feZero feOne)).Bnd 1616567485 1073745469 ∧
    (lstep_tmp1d (ProPoint.mk feOne feZero feOne) (ProPoint.mk feOne feZero feOne)).Bnd 1100535166 1073741822 ∧
    (lstep_tmp1e (ProPoint.mk feOne feZero feOne) (ProPoint.mk feOne feZero feOne)).Bnd 536874559 536870911 ∧
    (lstep_tmp2c (ProPoint.mk feOne feZero feOne) (ProPoint.mk feOne feZero feOne)).Bnd 542825663 536870911 :=
  C5_operand_bounds (ProPoint.mk feOne feZero feOne)
    (ProPoint.mk feOne feZero feOne) feOne
    (by decide) (by decide) (by decide) (by decide) (by decide)

/-- C5 counterexample: with both coordinates of p equal to the all-ones reduced
element, the operand tmp1 = p.x + p.z of the first squaring in
mon_ladder_step_avx2 is not reduced (its limbs reach 2^30 - 2 > 2^29 - 1). -/
theorem C5_counterexample :
    feM.Reduced ∧ ¬ (lstep_tmp1a (ProPoint.mk feM feZero feM)).Reduced := by
  decide

end AVXECC
